import Mathlib

/-!
# qnap-csi: the controller side of the volume plugin

A shallow embedding of `driver/utils.go` and `driver/controller.go`.

* Go `int`, `int32` and `int64` values are `Int`; conversions that can wrap
  are written out (`toInt32`).
* Go `error` values are kept as the kind of failure, not the message text.
* A pointer that may be nil is an `Option`; dereferencing `none` is the
  outcome `Outcome.panic`.
* The NAS client (`qnap.Client`) talks to a remote appliance; it is a record
  of transition functions over an arbitrary appliance state, and every call
  the driver issues is appended to a call log.
-/

namespace QnapCsi

deriving instance DecidableEq for Except

/-! ## Size constants (`controller.go`) -/

/-- The constant `kiB = 1 << 10`. -/
def kiB : Int := 1024

/-- The constant `miB = 1 << 20`. -/
def miB : Int := 1024 * 1024

/-- The constant `giB = 1 << 30`. -/
def giB : Int := 1024 * 1024 * 1024

/-- The constant `tiB = 1 << 40`. -/
def tiB : Int := 1024 * 1024 * 1024 * 1024

/-- Smallest volume the driver accepts: `1 * giB`. -/
def minimumVolumeSizeInBytes : Int := 1 * giB

/-- Largest volume the driver accepts: `128 * giB`. -/
def maximumVolumeSizeInBytes : Int := 128 * giB

/-- Size used when the request names none: `16 * giB`. -/
def defaultVolumeSizeInBytes : Int := 16 * giB

/-! ## Capacity validation (`utils.go`, `extractStorage`) -/

/-- The two fields of `csi.CapacityRange` (both `int64`). -/
structure CapacityRange where
  RequiredBytes : Int
  LimitBytes : Int
  deriving DecidableEq, Repr

/-- The seven `fmt.Errorf` results of `extractStorage`, in source order. -/
inductive StorageError where
  | limitLessThanRequired
  | requiredLessThanMinimum
  | limitLessThanMinimum
  | limitNotMultiple
  | requiredExceedsMaximum
  | requiredNotMultiple
  | limitExceedsMaximum
  deriving DecidableEq, Repr

/-- The function `extractStorage`: `none` is the nil capacity range; `%` is Go's
truncated remainder. -/
def extractStorage (capRange : Option CapacityRange) : Except StorageError Int :=
  match capRange with
  | none => .ok defaultVolumeSizeInBytes
  | some cr =>
    let requiredBytes := cr.RequiredBytes
    let requiredSet : Bool := decide (0 < requiredBytes)
    let limitBytes := cr.LimitBytes
    let limitSet : Bool := decide (0 < limitBytes)
    if !requiredSet && !limitSet then
      .ok defaultVolumeSizeInBytes
    else if requiredSet && limitSet && decide (limitBytes < requiredBytes) then
      .error .limitLessThanRequired
    else if requiredSet && !limitSet && decide (requiredBytes < minimumVolumeSizeInBytes) then
      .error .requiredLessThanMinimum
    else if limitSet && decide (limitBytes < minimumVolumeSizeInBytes) then
      .error .limitLessThanMinimum
    else if limitSet && decide (Int.tmod limitBytes (1 * giB) ≠ 0) then
      .error .limitNotMultiple
    else if requiredSet && decide (requiredBytes > maximumVolumeSizeInBytes) then
      .error .requiredExceedsMaximum
    else if requiredSet && decide (Int.tmod requiredBytes (1 * giB) ≠ 0) then
      .error .requiredNotMultiple
    else if !requiredSet && limitSet && decide (limitBytes > maximumVolumeSizeInBytes) then
      .error .limitExceedsMaximum
    else if requiredSet && limitSet && decide (requiredBytes = limitBytes) then
      .ok requiredBytes
    else if requiredSet then
      .ok requiredBytes
    else if limitSet then
      .ok limitBytes
    else
      .ok defaultVolumeSizeInBytes

/-! ## Go strings and the standard library pieces the cursor codec uses

A Go string is a byte sequence. Request and response fields are Lean `String`s
(protobuf strings are valid UTF-8); the codec works on their bytes, each a
`Nat` below 256. -/

/-- The UTF-8 bytes of one rune, as the conversion `[]byte(s)` lays them out. -/
def utf8EncodeChar (c : Char) : List Nat :=
  let v := c.toNat
  if v < 0x80 then [v]
  else if v < 0x800 then [0xC0 + v / 64, 0x80 + v % 64]
  else if v < 0x10000 then [0xE0 + v / 4096, 0x80 + (v / 64) % 64, 0x80 + v % 64]
  else [0xF0 + v / 262144, 0x80 + (v / 4096) % 64, 0x80 + (v / 64) % 64, 0x80 + v % 64]

/-- The conversion `[]byte(s)`. -/
def stringToBytes (s : String) : List Nat :=
  s.toList.flatMap utf8EncodeChar

/-- The alphabet of `base64.StdEncoding`. -/
def base64Alphabet : List Char :=
  "ABCDEFGHIJKLMNOPQRSTUVWXYZabcdefghijklmnopqrstuvwxyz0123456789+/".toList

/-- The character of a 6-bit value. -/
def base64Char (n : Nat) : Char :=
  base64Alphabet.getD n 'A'

/-- The groups of `base64.StdEncoding.EncodeToString`: three bytes give four characters,
a final group of one or two bytes is padded with `=`. -/
def base64EncodeBytes : List Nat → List Char
  | [] => []
  | [a] => [base64Char (a / 4), base64Char ((a % 4) * 16), '=', '=']
  | [a, b] =>
    [base64Char (a / 4), base64Char ((a % 4) * 16 + b / 16), base64Char ((b % 16) * 4), '=']
  | a :: b :: c :: rest =>
    base64Char (a / 4) :: base64Char ((a % 4) * 16 + b / 16) ::
      base64Char ((b % 16) * 4 + c / 64) :: base64Char (c % 64) :: base64EncodeBytes rest

/-- The call `base64.StdEncoding.EncodeToString`. -/
def base64EncodeToString (bs : List Nat) : String :=
  String.mk (base64EncodeBytes bs)

/-- The 6-bit value of an input byte, `none` for a byte outside the alphabet. -/
def base64Value (b : Nat) : Option Nat :=
  if 65 ≤ b ∧ b ≤ 90 then some (b - 65)
  else if 97 ≤ b ∧ b ≤ 122 then some (b - 97 + 26)
  else if 48 ≤ b ∧ b ≤ 57 then some (b - 48 + 52)
  else if b = 43 then some 62
  else if b = 47 then some 63
  else none

/-- The quanta of `base64.StdEncoding` decoding, on input whose `\r` and `\n` bytes were
dropped: groups of four alphabet bytes, the last one possibly `xx==` or `xxx=` (byte 61
is `=`); anything else is a `CorruptInputError` (`none`). The encoding is not strict, so
unused trailing bits are ignored. -/
def base64DecodeQuanta : List Nat → Option (List Nat)
  | [] => some []
  | a :: b :: c :: d :: rest =>
    match base64Value a, base64Value b with
    | some x, some y =>
      if c = 61 then
        if d = 61 ∧ rest = [] then some [x * 4 + y / 16] else none
      else
        match base64Value c with
        | none => none
        | some z =>
          if d = 61 then
            if rest = [] then some [x * 4 + y / 16, (y % 16) * 16 + z / 4] else none
          else
            match base64Value d with
            | none => none
            | some u =>
              (base64DecodeQuanta rest).map
                (fun t => (x * 4 + y / 16) :: ((y % 16) * 16 + z / 4) :: ((z % 4) * 64 + u) :: t)
    | _, _ => none
  | _ => none

/-- The call `base64.StdEncoding.DecodeString`: line breaks are skipped, the rest is
decoded quantum by quantum. -/
def base64DecodeString (s : String) : Option (List Nat) :=
  base64DecodeQuanta ((stringToBytes s).filter (fun b => b ≠ 10 ∧ b ≠ 13))

/-- The call `strconv.Itoa`. -/
def Itoa (i : Int) : String :=
  match i with
  | Int.ofNat n => String.mk (Nat.toDigits 10 n)
  | Int.negSucc n => String.mk ('-' :: Nat.toDigits 10 (n + 1))

/-- The call `strconv.Atoi` on the bytes of a string: an optional sign (`+` is 43, `-` is
45), then at least one decimal digit and nothing else, and a value that fits in 64 bits. -/
def Atoi (s : List Nat) : Option Int :=
  let neg : Bool := s.head? = some 45
  let digits : List Nat := if s.head? = some 43 ∨ s.head? = some 45 then s.tail else s
  if digits = [] then none
  else if digits.all (fun b => 48 ≤ b ∧ b ≤ 57) then
    let n : Nat := digits.foldl (fun acc b => acc * 10 + (b - 48)) 0
    let v : Int := if neg then -(n : Int) else (n : Int)
    if -(2 ^ 63 : Int) ≤ v ∧ v < (2 ^ 63 : Int) then some v else none
  else none

/-- The call `strings.Split(s, ",")` on bytes (`,` is 44); the empty string gives one
empty field. -/
def splitComma : List Nat → List (List Nat)
  | [] => [[]]
  | b :: rest =>
    if b = 44 then [] :: splitComma rest
    else
      match splitComma rest with
      | [] => [[b]]
      | f :: fs => (b :: f) :: fs

/-- The call `strings.TrimRight(s, ",")`. -/
def trimRightComma (s : String) : String :=
  String.mk (s.toList.reverse.dropWhile (fun c => c = ',')).reverse

/-! ## Integer sets (`sets.Int`, a `map[int]Empty`) -/

/-- The keys of a `sets.Int`, without repetition. -/
structure IntSet where
  elems : List Int
  deriving DecidableEq, Repr

/-- The call `sets.NewInt()`. -/
def IntSet.NewInt : IntSet := ⟨[]⟩

/-- The method `Has`. -/
def IntSet.Has (s : IntSet) (item : Int) : Bool :=
  decide (item ∈ s.elems)

/-- The method `Insert` of one item. -/
def IntSet.Insert (s : IntSet) (item : Int) : IntSet :=
  if item ∈ s.elems then s else ⟨s.elems ++ [item]⟩

/-- The method `List`: the keys in increasing order. -/
def IntSet.List (s : IntSet) : List Int :=
  s.elems.insertionSort (fun a b => a ≤ b)

/-! ## Cursor codec (`utils.go`) -/

/-- The function `seenIndexesToBase64String`. -/
def seenIndexesToBase64String (ints : List Int) : String :=
  let result := ints.foldl (fun acc elem => acc ++ Itoa elem ++ ",") ""
  let result := trimRightComma result
  base64EncodeToString (stringToBytes result)

/-- The two ways `base64SeenIndexesToMap` returns a non-nil error. -/
inductive CodecError where
  | corruptInput
  | notAnInteger
  deriving DecidableEq, Repr

/-- The loop of `base64SeenIndexesToMap` over the comma-separated fields. -/
def insertFields : List (List Nat) → IntSet → Except CodecError IntSet
  | [], result => .ok result
  | strInt :: rest, result =>
    match Atoi strInt with
    | none => .error .notAnInteger
    | some intValue => insertFields rest (result.Insert intValue)

/-- The function `base64SeenIndexesToMap`. Its result is a pointer, `none` being nil. The
last statement of the source is `return nil, err` with the outer `err`, which is nil there:
the set built by the loop is dropped. -/
def base64SeenIndexesToMap (value : String) : Except CodecError (Option IntSet) :=
  let result := IntSet.NewInt
  match base64DecodeString value with
  | none => .error .corruptInput
  | some s =>
    match insertFields (splitComma s) result with
    | .error e => .error e
    | .ok _ => .ok none

/-! ## Resource naming (`utils.go`, `cleanISCSIName`) -/

/-- The rune map of `strings.ToLower`: ASCII capitals move by 32; U+0130 and U+212A are
the two runes outside ASCII whose lower case is an ASCII letter (`i` and `k`). Every other
rune outside ASCII lower-cases to a rune outside ASCII, which `cleanRegex` removes like the
rune itself, so it is left as it is. -/
def toLowerRune (c : Char) : Char :=
  if 65 ≤ c.toNat ∧ c.toNat ≤ 90 then Char.ofNat (c.toNat + 32)
  else if c.toNat = 0x130 then 'i'
  else if c.toNat = 0x212A then 'k'
  else c

/-- The runes the class `[^a-z0-9A-Z]` of `cleanRegex` does not match. -/
def isCleanRune (c : Char) : Bool :=
  (97 ≤ c.toNat && c.toNat ≤ 122) || (48 ≤ c.toNat && c.toNat ≤ 57) ||
    (65 ≤ c.toNat && c.toNat ≤ 90)

/-- The function `cleanISCSIName`: every run matched by `cleanRegex` is replaced by the
empty string in the lower-cased name. -/
def cleanISCSIName (name : String) : String :=
  String.mk ((name.toList.map toLowerRune).filter isCleanRune)

/-! ## The NAS client (`qnap/api.go`) as seen by the driver -/

/-- The fields of `StorageISCSITargetInfoXML` the driver reads, and its alias and status. -/
structure StorageISCSITargetInfoXML where
  TargetIndex : Int
  Name : String
  IQN : String
  Alias : String
  Status : String
  TargetLUNs : List Int
  deriving DecidableEq, Repr

/-- The target list of `StorageISCSITargetListRespXML`. -/
structure StorageISCSITargetListRespXML where
  Targets : List StorageISCSITargetInfoXML
  deriving DecidableEq, Repr

/-- The type `StorageISCSICreateBlockLUNRespXML`; `Result` is the LUN index. -/
structure StorageISCSICreateBlockLUNRespXML where
  Result : Int
  VolumeID : Int
  deriving DecidableEq, Repr

/-- The fields of `StorageISCSILUNRespXML` that identify the LUN and give its status. -/
structure StorageISCSILUNRespXML where
  Index : String
  Name : String
  Status : String
  deriving DecidableEq, Repr

/-- The method `StorageISCSILUNRespXML.StatusString`. -/
def StorageISCSILUNRespXML.StatusString (l : StorageISCSILUNRespXML) : String :=
  if l.Status = "-1" then "removing"
  else if l.Status = "-2" then "not_found"
  else if l.Status = "0" then "creating"
  else if l.Status = "1" then "ready"
  else "unknown LUN status " ++ l.Status

/-- The methods of `qnap.Client` the controller calls. The appliance is remote: each method
is a transition of an appliance state `σ` that also yields the Go result, an `error` being
its message (`none` is nil). -/
structure Client (σ : Type) where
  Login : σ → Option String × σ
  GetStorageISCSITargetList : σ → Except String StorageISCSITargetListRespXML × σ
  CreateStorageISCSITarget : (name : String) → (dataDigest headerDigest clusterMode : Bool) →
    σ → Except String Int × σ
  CreateStorageISCSIInitiator : (targetIndex : Int) → (chapEnable : Bool) →
    (chapUser chapPass : String) → (mutualChapEnable : Bool) →
    (mutualChapUser mutualChapPass : String) → σ → Option String × σ
  CreateStorageISCSIBlockLUN : (name : String) → (storagePoolID capacity : Int) →
    (thinAllocate : Bool) → (sectorSize : Int) →
    (wcEnable fuaEnable ssdCache enableTiering : Bool) →
    σ → Except String StorageISCSICreateBlockLUNRespXML × σ
  GetStorageISCSILun : (lunID : Int) → σ → Except String StorageISCSILUNRespXML × σ
  AttachStorageISCSITargetLUN : (lunIndex targetIndex : Int) → σ → Option String × σ
  DeleteStorageISCSITarget : (targetIndex : Int) → σ → Option String × σ
  DeleteStorageISCSIBlockLUN : (targetIndex : Int) → (runInBackground : Bool) →
    σ → Option String × σ

/-- One call to the client, with its arguments. -/
inductive Call where
  | Login
  | GetStorageISCSITargetList
  | CreateStorageISCSITarget (name : String) (dataDigest headerDigest clusterMode : Bool)
  | CreateStorageISCSIInitiator (targetIndex : Int) (chapEnable : Bool)
      (chapUser chapPass : String) (mutualChapEnable : Bool)
      (mutualChapUser mutualChapPass : String)
  | CreateStorageISCSIBlockLUN (name : String) (storagePoolID capacity : Int)
      (thinAllocate : Bool) (sectorSize : Int)
      (wcEnable fuaEnable ssdCache enableTiering : Bool)
  | GetStorageISCSILun (lunID : Int)
  | AttachStorageISCSITargetLUN (lunIndex targetIndex : Int)
  | DeleteStorageISCSITarget (targetIndex : Int)
  | DeleteStorageISCSIBlockLUN (targetIndex : Int) (runInBackground : Bool)
  deriving DecidableEq, Repr

/-- The appliance state together with the calls issued so far, oldest first. -/
structure World (σ : Type) where
  nas : σ
  calls : List Call

/-- The fields of `Driver` the controller uses. -/
structure Driver (σ : Type) where
  client : Client σ
  storagePoolID : Int
  portal : String

namespace Driver

variable {σ : Type}

/-- The call `d.client.Login()`, logged. -/
def Login (d : Driver σ) (w : World σ) : Option String × World σ :=
  ((d.client.Login w.nas).1, ⟨(d.client.Login w.nas).2, w.calls ++ [Call.Login]⟩)

/-- The call `d.client.GetStorageISCSITargetList()`, logged. -/
def GetStorageISCSITargetList (d : Driver σ) (w : World σ) :
    Except String StorageISCSITargetListRespXML × World σ :=
  ((d.client.GetStorageISCSITargetList w.nas).1,
    ⟨(d.client.GetStorageISCSITargetList w.nas).2, w.calls ++ [Call.GetStorageISCSITargetList]⟩)

/-- The call `d.client.CreateStorageISCSITarget(...)`, logged. -/
def CreateStorageISCSITarget (d : Driver σ) (name : String)
    (dataDigest headerDigest clusterMode : Bool) (w : World σ) : Except String Int × World σ :=
  ((d.client.CreateStorageISCSITarget name dataDigest headerDigest clusterMode w.nas).1,
    ⟨(d.client.CreateStorageISCSITarget name dataDigest headerDigest clusterMode w.nas).2,
      w.calls ++ [Call.CreateStorageISCSITarget name dataDigest headerDigest clusterMode]⟩)

/-- The call `d.client.CreateStorageISCSIInitiator(...)`, logged. -/
def CreateStorageISCSIInitiator (d : Driver σ) (targetIndex : Int) (chapEnable : Bool)
    (chapUser chapPass : String) (mutualChapEnable : Bool)
    (mutualChapUser mutualChapPass : String) (w : World σ) : Option String × World σ :=
  ((d.client.CreateStorageISCSIInitiator targetIndex chapEnable chapUser chapPass
      mutualChapEnable mutualChapUser mutualChapPass w.nas).1,
    ⟨(d.client.CreateStorageISCSIInitiator targetIndex chapEnable chapUser chapPass
      mutualChapEnable mutualChapUser mutualChapPass w.nas).2,
      w.calls ++ [Call.CreateStorageISCSIInitiator targetIndex chapEnable chapUser chapPass
        mutualChapEnable mutualChapUser mutualChapPass]⟩)

/-- The call `d.client.CreateStorageISCSIBlockLUN(...)`, logged. -/
def CreateStorageISCSIBlockLUN (d : Driver σ) (name : String) (storagePoolID capacity : Int)
    (thinAllocate : Bool) (sectorSize : Int)
    (wcEnable fuaEnable ssdCache enableTiering : Bool) (w : World σ) :
    Except String StorageISCSICreateBlockLUNRespXML × World σ :=
  ((d.client.CreateStorageISCSIBlockLUN name storagePoolID capacity thinAllocate sectorSize
      wcEnable fuaEnable ssdCache enableTiering w.nas).1,
    ⟨(d.client.CreateStorageISCSIBlockLUN name storagePoolID capacity thinAllocate sectorSize
      wcEnable fuaEnable ssdCache enableTiering w.nas).2,
      w.calls ++ [Call.CreateStorageISCSIBlockLUN name storagePoolID capacity thinAllocate
        sectorSize wcEnable fuaEnable ssdCache enableTiering]⟩)

/-- The call `d.client.GetStorageISCSILun(lunID)`, logged. -/
def GetStorageISCSILun (d : Driver σ) (lunID : Int) (w : World σ) :
    Except String StorageISCSILUNRespXML × World σ :=
  ((d.client.GetStorageISCSILun lunID w.nas).1,
    ⟨(d.client.GetStorageISCSILun lunID w.nas).2, w.calls ++ [Call.GetStorageISCSILun lunID]⟩)

/-- The call `d.client.AttachStorageISCSITargetLUN(lunIndex, targetIndex)`, logged. -/
def AttachStorageISCSITargetLUN (d : Driver σ) (lunIndex targetIndex : Int) (w : World σ) :
    Option String × World σ :=
  ((d.client.AttachStorageISCSITargetLUN lunIndex targetIndex w.nas).1,
    ⟨(d.client.AttachStorageISCSITargetLUN lunIndex targetIndex w.nas).2,
      w.calls ++ [Call.AttachStorageISCSITargetLUN lunIndex targetIndex]⟩)

/-- The call `d.client.DeleteStorageISCSITarget(targetIndex)`, logged. -/
def DeleteStorageISCSITarget (d : Driver σ) (targetIndex : Int) (w : World σ) :
    Option String × World σ :=
  ((d.client.DeleteStorageISCSITarget targetIndex w.nas).1,
    ⟨(d.client.DeleteStorageISCSITarget targetIndex w.nas).2,
      w.calls ++ [Call.DeleteStorageISCSITarget targetIndex]⟩)

/-- The call `d.client.DeleteStorageISCSIBlockLUN(targetIndex, runInBackground)`, logged. -/
def DeleteStorageISCSIBlockLUN (d : Driver σ) (targetIndex : Int) (runInBackground : Bool)
    (w : World σ) : Option String × World σ :=
  ((d.client.DeleteStorageISCSIBlockLUN targetIndex runInBackground w.nas).1,
    ⟨(d.client.DeleteStorageISCSIBlockLUN targetIndex runInBackground w.nas).2,
      w.calls ++ [Call.DeleteStorageISCSIBlockLUN targetIndex runInBackground]⟩)

end Driver

/-! ## Requests, responses and outcomes (`controller.go`) -/

/-- The gRPC status codes the controller returns. -/
inductive Code where
  | InvalidArgument
  | OutOfRange
  | Internal
  | AlreadyExists
  | NotFound
  | Unimplemented
  deriving DecidableEq, Repr

/-- How a handler ends: a response, a gRPC status error, a Go runtime panic (a nil pointer
is dereferenced), or the polling budget of the model is used up before the handler ends. -/
inductive Outcome (α : Type) where
  | ok (resp : α)
  | error (code : Code) (msg : String)
  | panic
  | outOfFuel
  deriving DecidableEq, Repr

/-- The enum `csi.VolumeCapability_AccessMode_Mode`; `other` is any further number. -/
inductive Mode where
  | UNKNOWN
  | SINGLE_NODE_WRITER
  | SINGLE_NODE_READER_ONLY
  | MULTI_NODE_READER_ONLY
  | MULTI_NODE_SINGLE_WRITER
  | MULTI_NODE_MULTI_WRITER
  | other (n : Int)
  deriving DecidableEq, Repr

/-- The method `String` of the mode enum. -/
def Mode.String : Mode → String
  | .UNKNOWN => "UNKNOWN"
  | .SINGLE_NODE_WRITER => "SINGLE_NODE_WRITER"
  | .SINGLE_NODE_READER_ONLY => "SINGLE_NODE_READER_ONLY"
  | .MULTI_NODE_READER_ONLY => "MULTI_NODE_READER_ONLY"
  | .MULTI_NODE_SINGLE_WRITER => "MULTI_NODE_SINGLE_WRITER"
  | .MULTI_NODE_MULTI_WRITER => "MULTI_NODE_MULTI_WRITER"
  | .other n => Itoa n

/-- The oneof `access_type` of a capability; `unset` is the nil interface. -/
inductive AccessType where
  | Block
  | Mount
  | unset
  deriving DecidableEq, Repr

/-- The type `csi.VolumeCapability`; a nil `AccessMode` is `none`. -/
structure VolumeCapability where
  AccessMode : Option Mode
  AccessType : AccessType
  deriving DecidableEq, Repr

/-- The chain `GetAccessMode().GetMode()`, which gives `UNKNOWN` on a nil access mode. -/
def VolumeCapability.GetMode (c : VolumeCapability) : Mode :=
  match c.AccessMode with
  | none => Mode.UNKNOWN
  | some m => m

/-- The mode of `supportedAccessMode`. -/
def supportedAccessMode : Mode := Mode.SINGLE_NODE_WRITER

/-- The method `Insert` of `sets.String`, on the list of keys. -/
def stringSetInsert (s : List String) (item : String) : List String :=
  if item ∈ s then s else s ++ [item]

/-- The loop body of `validateCapabilities` for one capability. -/
def capabilityViolations (violations : List String) (currentCap : VolumeCapability) :
    List String :=
  let violations :=
    if currentCap.GetMode ≠ supportedAccessMode then
      stringSetInsert violations ("unsupported access mode " ++ currentCap.GetMode.String)
    else violations
  match currentCap.AccessType with
  | .Block => violations
  | .Mount => violations
  | .unset => stringSetInsert violations "unsupported access type"

/-- The function `validateCapabilities`; `List()` returns the violations sorted. -/
def validateCapabilities (caps : List VolumeCapability) : List String :=
  (caps.foldl capabilityViolations []).insertionSort (fun a b => ¬ b < a)

/-- The fields of `csi.CreateVolumeRequest` the handler reads. -/
structure CreateVolumeRequest where
  Name : String
  VolumeCapabilities : List VolumeCapability
  CapacityRange : Option CapacityRange
  deriving DecidableEq, Repr

/-- The type `csi.Volume`; the context map is kept as the list of its entries. -/
structure Volume where
  VolumeId : String
  CapacityBytes : Int
  VolumeContext : List (String × String)
  deriving DecidableEq, Repr

/-- The type `csi.CreateVolumeResponse`. -/
structure CreateVolumeResponse where
  Volume : Volume
  deriving DecidableEq, Repr

/-- The field of `csi.DeleteVolumeRequest` the handler reads. -/
structure DeleteVolumeRequest where
  VolumeId : String
  deriving DecidableEq, Repr

/-- The type `csi.DeleteVolumeResponse`. -/
structure DeleteVolumeResponse where
  deriving DecidableEq, Repr

/-- The fields of `csi.ListVolumesRequest`; `MaxEntries` is an `int32`. -/
structure ListVolumesRequest where
  MaxEntries : Int
  StartingToken : String
  deriving DecidableEq, Repr

/-- The type `csi.ListVolumesResponse_Entry`, whose status is always nil here. -/
structure ListVolumesResponse_Entry where
  Volume : Volume
  deriving DecidableEq, Repr

/-- The type `csi.ListVolumesResponse`. -/
structure ListVolumesResponse where
  Entries : List ListVolumesResponse_Entry
  NextToken : String
  deriving DecidableEq, Repr

/-- The conversion `int32(n)` of an `int`: the low 32 bits, read as signed. -/
def toInt32 (n : Int) : Int :=
  (n + 2147483648) % 4294967296 - 2147483648

/-- How the wait for the LUN ends. -/
inductive PollResult where
  | done
  | failed
  | outOfFuel
  deriving DecidableEq, Repr

namespace Driver

variable {σ : Type}

/-- The `for` loop of `CreateVolume` that waits while the LUN is `creating`. The source
loop has no bound; `fuel` bounds the number of status queries of the model. -/
def waitForLUN (d : Driver σ) (lunID : Int) : Nat → World σ → PollResult × World σ
  | 0, w => (.outOfFuel, w)
  | fuel + 1, w =>
    match d.GetStorageISCSILun lunID w with
    | (.error _, w1) => (.failed, w1)
    | (.ok lunInfo, w1) =>
      if lunInfo.StatusString = "creating" then waitForLUN d lunID fuel w1
      else (.done, w1)

/-- The handler `CreateVolume`. The OutOfRange message is the fixed prefix of the source
text; the rendering of the `extractStorage` error that follows it in the source (through
`formatBytes`) is not part of the model. -/
def CreateVolume (d : Driver σ) (fuel : Nat) (req : CreateVolumeRequest) (w0 : World σ) :
    Outcome CreateVolumeResponse × World σ :=
  if req.Name = "" then
    (.error .InvalidArgument "CreateVolume Name must be provided", w0)
  else if req.VolumeCapabilities.length = 0 then
    (.error .InvalidArgument "CreateVolume Volume capabilities must be provided", w0)
  else if (validateCapabilities req.VolumeCapabilities).length > 0 then
    (.error .InvalidArgument ("volume capabilities cannot be satisified: " ++
      "; ".intercalate (validateCapabilities req.VolumeCapabilities)), w0)
  else
    match extractStorage req.CapacityRange with
    | .error _ => (.error .OutOfRange "invalid capacity range: ", w0)
    | .ok size =>
      let sizeGB := Int.tdiv size (1 * giB)
      let name := cleanISCSIName req.Name
      match d.Login w0 with
      | (some _, w1) => (.error .Internal "Failed to login to NAS", w1)
      | (none, w1) =>
      match d.GetStorageISCSITargetList w1 with
      | (.error _, w2) => (.error .Internal "Failed to get list of ISCSI targets", w2)
      | (.ok targetList, w2) =>
      if targetList.Targets.any (fun target => target.Name = name) then
        (.error .AlreadyExists "Volume already exists", w2)
      else
      match d.CreateStorageISCSITarget name false false true w2 with
      | (.error _, w3) => (.error .Internal "Failed to create ISCSI target", w3)
      | (.ok targetIndex, w3) =>
      match d.CreateStorageISCSIInitiator targetIndex false "" "" false "" "" w3 with
      | (some _, w4) =>
        (.error .Internal "Failed to create ISCSI initator",
          (d.DeleteStorageISCSITarget targetIndex w4).2)
      | (none, w4) =>
      match d.CreateStorageISCSIBlockLUN name d.storagePoolID sizeGB false 512
          false false false false w4 with
      | (.error _, w5) =>
        (.error .Internal "Failed to create ISCSI Block based LUN",
          (d.DeleteStorageISCSITarget targetIndex w5).2)
      | (.ok block, w5) =>
      match d.waitForLUN block.Result fuel w5 with
      | (.outOfFuel, w6) => (.outOfFuel, w6)
      | (.failed, w6) =>
        (.error .Internal "Failed to get ISCSI Block based LUN readiness", w6)
      | (.done, w6) =>
      match d.AttachStorageISCSITargetLUN block.Result targetIndex w6 with
      | (some _, w7) =>
        (.error .Internal "Failed to associate LUN with ISCSI target",
          (d.DeleteStorageISCSIBlockLUN block.Result false
            (d.DeleteStorageISCSITarget targetIndex w7).2).2)
      | (none, w7) =>
      match d.GetStorageISCSITargetList w7 with
      | (.error _, w8) => (.error .Internal "Failed to get list of ISCSI targets", w8)
      | (.ok targetList, w8) =>
      let iqn :=
        match targetList.Targets.find? (fun target => target.Name = name) with
        | some target => target.IQN
        | none => ""
      if iqn = "" then
        (.error .Internal "Failed to get ISCSI IQN", w8)
      else
        (.ok { Volume := {
            VolumeId := name
            CapacityBytes := size
            VolumeContext :=
              [("targetPortal", d.portal), ("iqn", iqn), ("lun", "0"), ("portals", "[]")] } },
          w8)

/-- The inner loop of `DeleteVolume` over `target.TargetLUNs`; it stops at the first
delete that fails and returns that error. -/
def deleteTargetLUNs (d : Driver σ) : List Int → World σ → Option String × World σ
  | [], w => (none, w)
  | targetLUNID :: rest, w =>
    match d.DeleteStorageISCSIBlockLUN targetLUNID false w with
    | (some e, w1) => (some e, w1)
    | (none, w1) => deleteTargetLUNs d rest w1

/-- The handler `DeleteVolume`. The loop over the targets returns at the first target
whose name is the volume id. -/
def DeleteVolume (d : Driver σ) (req : DeleteVolumeRequest) (w0 : World σ) :
    Outcome DeleteVolumeResponse × World σ :=
  if req.VolumeId = "" then
    (.error .InvalidArgument "DeleteVolume Volume ID must be provided", w0)
  else
    match d.Login w0 with
    | (some _, w1) => (.error .Internal "Failed to login to NAS", w1)
    | (none, w1) =>
    match d.GetStorageISCSITargetList w1 with
    | (.error _, w2) => (.error .Internal "Failed to get list of ISCSI targets", w2)
    | (.ok targetList, w2) =>
    match targetList.Targets.find? (fun target => target.Name = req.VolumeId) with
    | none => (.ok {}, w2)
    | some target =>
      match d.DeleteStorageISCSITarget target.TargetIndex w2 with
      | (some _, w3) => (.error .Internal "Failed to delete ISCSI target", w3)
      | (none, w3) =>
      match d.deleteTargetLUNs target.TargetLUNs w3 with
      | (some _, w4) => (.error .Internal "Failed to delete ISCSI Block based LUN", w4)
      | (none, w4) => (.ok {}, w4)

end Driver

/-- The loop of `ListVolumes` over `resp.Targets`. `seenIds` is the pointer to the seen
set: calling `Has` through a nil pointer panics. The result is the entries and the next
token. -/
def listVolumesLoop (maxEntries : Int) :
    List StorageISCSITargetInfoXML → Option IntSet → List ListVolumesResponse_Entry →
      Outcome (List ListVolumesResponse_Entry × String)
  | [], _, entries => .ok (entries, "")
  | _ :: _, none, _ => .panic
  | target :: rest, some seen, entries =>
    if seen.Has target.TargetIndex then
      listVolumesLoop maxEntries rest (some seen) entries
    else if toInt32 entries.length ≥ maxEntries then
      .ok (entries, seenIndexesToBase64String seen.List)
    else
      listVolumesLoop maxEntries rest (some (seen.Insert target.TargetIndex))
        (entries ++ [{ Volume := { VolumeId := target.Name, CapacityBytes := 0,
                                   VolumeContext := [] } }])

/-- The seen set `ListVolumes` starts from: nil for an empty token, the decoded pointer for
a token that decodes, a fresh empty set for one that does not. -/
def startingSeenIds (startingToken : String) : Option IntSet :=
  if startingToken ≠ "" then
    match base64SeenIndexesToMap startingToken with
    | .error _ => some IntSet.NewInt
    | .ok seenIds => seenIds
  else none

/-- The handler `ListVolumes`. -/
def Driver.ListVolumes {σ : Type} (d : Driver σ) (req : ListVolumesRequest) (w0 : World σ) :
    Outcome ListVolumesResponse × World σ :=
  match d.Login w0 with
  | (some _, w1) => (.error .Internal "Failed to login to NAS", w1)
  | (none, w1) =>
  match d.GetStorageISCSITargetList w1 with
  | (.error _, w2) => (.error .Internal "Failed to get list of ISCSI targets", w2)
  | (.ok resp, w2) =>
    let seenIds := startingSeenIds req.StartingToken
    let maxEntries :=
      if req.MaxEntries = 0 then toInt32 resp.Targets.length else req.MaxEntries
    match listVolumesLoop maxEntries resp.Targets seenIds [] with
    | .ok (entries, nextToken) => (.ok { Entries := entries, NextToken := nextToken }, w2)
    | .error code msg => (.error code msg, w2)
    | .panic => (.panic, w2)
    | .outOfFuel => (.outOfFuel, w2)

/-! ## An in-memory appliance

A small appliance that follows the operation contracts of the client: it keeps the targets
and the LUNs, hands out indices, accepts every delete, and fails exactly the operations
listed in `failing`. The driver is run against it on concrete inputs. -/

/-- The operations of the client, without arguments. -/
inductive Op where
  | Login
  | GetStorageISCSITargetList
  | CreateStorageISCSITarget
  | CreateStorageISCSIInitiator
  | CreateStorageISCSIBlockLUN
  | GetStorageISCSILun
  | AttachStorageISCSITargetLUN
  | DeleteStorageISCSITarget
  | DeleteStorageISCSIBlockLUN
  deriving DecidableEq, Repr

/-- The state of the in-memory appliance. A LUN is its index and the number of status
queries that still answer `creating`; `creatingPolls` is that number for a new LUN. -/
structure MemNAS where
  targets : List StorageISCSITargetInfoXML
  luns : List (Int × Nat)
  nextIndex : Int
  creatingPolls : Nat
  failing : List Op
  deriving DecidableEq, Repr

namespace MemNAS

/-- The result of an operation that returns only an error. -/
def errorOnly (s : MemNAS) (op : Op) (next : MemNAS) : Option String × MemNAS :=
  if op ∈ s.failing then (some "unknown error occurred", s) else (none, next)

/-- The target list. -/
def getTargetList (s : MemNAS) : Except String StorageISCSITargetListRespXML × MemNAS :=
  if Op.GetStorageISCSITargetList ∈ s.failing then (.error "unknown error occurred", s)
  else (.ok ⟨s.targets⟩, s)

/-- A new target, listed last, with the next free index and an IQN derived from its name. -/
def createTarget (name : String) (s : MemNAS) : Except String Int × MemNAS :=
  if Op.CreateStorageISCSITarget ∈ s.failing then (.error "unknown error occurred", s)
  else
    (.ok s.nextIndex,
      { s with
        targets := s.targets ++
          [⟨s.nextIndex, name, "iqn.2004-04.com.qnap:ts:iscsi." ++ name, name, "0", []⟩]
        nextIndex := s.nextIndex + 1 })

/-- A new LUN with the next free index. -/
def createBlockLUN (s : MemNAS) : Except String StorageISCSICreateBlockLUNRespXML × MemNAS :=
  if Op.CreateStorageISCSIBlockLUN ∈ s.failing then (.error "unknown error occurred", s)
  else
    (.ok ⟨s.nextIndex, 0⟩,
      { s with
        luns := s.luns ++ [(s.nextIndex, s.creatingPolls)]
        nextIndex := s.nextIndex + 1 })

/-- One status query: an unknown LUN is `-2`, a LUN still being created is `0` and one
query closer to ready, a ready LUN is `1`. -/
def getLun (lunID : Int) (s : MemNAS) : Except String StorageISCSILUNRespXML × MemNAS :=
  if Op.GetStorageISCSILun ∈ s.failing then (.error "unknown error occurred", s)
  else
    match s.luns.find? (fun l => l.1 = lunID) with
    | none => (.ok ⟨Itoa lunID, "", "-2"⟩, s)
    | some (_, 0) => (.ok ⟨Itoa lunID, "", "1"⟩, s)
    | some (_, _ + 1) =>
      (.ok ⟨Itoa lunID, "", "0"⟩,
        { s with luns := s.luns.map (fun l => if l.1 = lunID then (l.1, l.2 - 1) else l) })

/-- The state after a LUN was attached to a target. -/
def attach (lunIndex targetIndex : Int) (s : MemNAS) : MemNAS :=
  { s with
    targets := s.targets.map (fun t =>
      if t.TargetIndex = targetIndex then { t with TargetLUNs := t.TargetLUNs ++ [lunIndex] }
      else t) }

/-- The state after the target of an index was removed. -/
def removeTarget (targetIndex : Int) (s : MemNAS) : MemNAS :=
  { s with targets := s.targets.filter (fun t => t.TargetIndex ≠ targetIndex) }

/-- The state after the LUN of an index was removed, also from the targets that hold it. -/
def removeLUN (lunIndex : Int) (s : MemNAS) : MemNAS :=
  { s with
    luns := s.luns.filter (fun l => l.1 ≠ lunIndex)
    targets := s.targets.map (fun t =>
      { t with TargetLUNs := t.TargetLUNs.filter (fun l => l ≠ lunIndex) }) }

/-- The in-memory appliance as a client. -/
def client : Client MemNAS where
  Login := fun s => errorOnly s Op.Login s
  GetStorageISCSITargetList := getTargetList
  CreateStorageISCSITarget := fun name _ _ _ s => createTarget name s
  CreateStorageISCSIInitiator := fun _ _ _ _ _ _ _ s => errorOnly s Op.CreateStorageISCSIInitiator s
  CreateStorageISCSIBlockLUN := fun _ _ _ _ _ _ _ _ _ s => createBlockLUN s
  GetStorageISCSILun := getLun
  AttachStorageISCSITargetLUN := fun lunIndex targetIndex s =>
    errorOnly s Op.AttachStorageISCSITargetLUN (attach lunIndex targetIndex s)
  DeleteStorageISCSITarget := fun targetIndex s =>
    errorOnly s Op.DeleteStorageISCSITarget (removeTarget targetIndex s)
  DeleteStorageISCSIBlockLUN := fun targetIndex _ s =>
    errorOnly s Op.DeleteStorageISCSIBlockLUN (removeLUN targetIndex s)

/-- A driver on the in-memory appliance, storage pool 1. -/
def driver : Driver MemNAS :=
  { client := client, storagePoolID := 1, portal := "172.20.0.5:3260" }

/-- A target as the in-memory appliance lists it. -/
def target (index : Int) (name : String) (luns : List Int) : StorageISCSITargetInfoXML :=
  ⟨index, name, "iqn.2004-04.com.qnap:ts:iscsi." ++ name, name, "0", luns⟩

/-- An appliance with three targets, the first two with one LUN each, the third with two. -/
def threeTargets (failing : List Op) : MemNAS :=
  { targets := [target 1 "vol1" [11], target 2 "vol2" [12], target 3 "vol3" [13, 14]]
    luns := [(11, 0), (12, 0), (13, 0), (14, 0)]
    nextIndex := 20
    creatingPolls := 2
    failing := failing }

/-- A world on the in-memory appliance in which no call was issued yet. -/
def fresh (s : MemNAS) : World MemNAS := ⟨s, []⟩

end MemNAS

/-- A request for a 16 GiB volume named `My Volume!`, mounted by a single writer. -/
def sampleCreateRequest : CreateVolumeRequest :=
  { Name := "My Volume!"
    VolumeCapabilities := [⟨some Mode.SINGLE_NODE_WRITER, AccessType.Mount⟩]
    CapacityRange := some ⟨17179869184, 0⟩ }

/-! ## The capacity rules as the specification lists them -/

/-- The rules of the capacity contract of the specification that a capacity range breaks,
in the order the specification lists them; a bound is set when it is positive, and "not a
multiple" is a non-zero remainder. This list follows the specification, not the code;
`extractStorage` is compared with it. -/
def specBrokenRules (cr : CapacityRange) : List StorageError :=
  (if 0 < cr.RequiredBytes ∧ 0 < cr.LimitBytes ∧ cr.LimitBytes < cr.RequiredBytes then
    [StorageError.limitLessThanRequired] else []) ++
  (if 0 < cr.RequiredBytes ∧ ¬ 0 < cr.LimitBytes ∧
      cr.RequiredBytes < minimumVolumeSizeInBytes then
    [StorageError.requiredLessThanMinimum] else []) ++
  (if 0 < cr.LimitBytes ∧ cr.LimitBytes < minimumVolumeSizeInBytes then
    [StorageError.limitLessThanMinimum] else []) ++
  (if 0 < cr.LimitBytes ∧ cr.LimitBytes % giB ≠ 0 then
    [StorageError.limitNotMultiple] else []) ++
  (if 0 < cr.RequiredBytes ∧ cr.RequiredBytes > maximumVolumeSizeInBytes then
    [StorageError.requiredExceedsMaximum] else []) ++
  (if 0 < cr.RequiredBytes ∧ cr.RequiredBytes % giB ≠ 0 then
    [StorageError.requiredNotMultiple] else []) ++
  (if ¬ 0 < cr.RequiredBytes ∧ 0 < cr.LimitBytes ∧
      cr.LimitBytes > maximumVolumeSizeInBytes then
    [StorageError.limitExceedsMaximum] else [])

/-! ## Predicates on names -/

/-- The runes `a` to `z` (97 to 122) and `0` to `9` (48 to 57). -/
def isLowerOrDigit (c : Char) : Bool :=
  (97 ≤ c.toNat && c.toNat ≤ 122) || (48 ≤ c.toNat && c.toNat ≤ 57)

/-- Two runes that are equal or are the upper and the lower case of one ASCII letter. -/
def sameUpToCase (a b : Char) : Bool :=
  a == b || (65 ≤ a.toNat && a.toNat ≤ 90 && b.toNat == a.toNat + 32) ||
    (65 ≤ b.toNat && b.toNat ≤ 90 && a.toNat == b.toNat + 32)

/-- Two rune sequences that differ only in the case of their ASCII letters. -/
def differOnlyInCase : List Char → List Char → Bool
  | [], [] => true
  | a :: as, b :: bs => sameUpToCase a b && differOnlyInCase as bs
  | _, _ => false

/-! ## The node side (`iscsi_util.go`)

`AttachDisk` and `DetachDisk` work through the iSCSI session library, the mount utility
and the file system. These collaborators are a record of transition functions over a node
state, and every call is appended to a call log. -/

/-- A Go `error` of the node side: its message, whether `os.IsNotExist` holds for it, and
the gRPC code when it was built by `status.Error`. -/
structure NodeError where
  msg : String
  isNotExist : Bool
  code : Option Code
  deriving DecidableEq, Repr

/-- The fields of `iscsiLib.Connector` that identify the session. -/
structure Connector where
  VolumeName : String
  TargetIqn : String
  TargetPortals : List String
  Lun : Int
  deriving DecidableEq, Repr

/-- The fields of `iscsiDiskMounter` read by `AttachDisk`. -/
structure iscsiDiskMounter where
  connector : Connector
  targetPath : String
  readOnly : Bool
  fsType : String
  mountOptions : List String
  deriving DecidableEq, Repr

/-- The collaborators of `AttachDisk` and `DetachDisk`, each a transition of the node state
`σ` that also yields the Go result. `IsLikelyNotMountPoint` yields both of its results. -/
structure NodeEnv (σ : Type) where
  Connect : Connector → σ → Except NodeError String × σ
  IsLikelyNotMountPoint : (file : String) → σ → (Bool × Option NodeError) × σ
  MkdirAll : (path : String) → (perm : Nat) → σ → Option NodeError × σ
  PersistConnector : Connector → (filePath : String) → σ → Option NodeError × σ
  FormatAndMount : (source target fstype : String) → (options : List String) → σ →
    Option NodeError × σ
  GetDeviceNameFromMount : (mountPath : String) → σ → Except NodeError (String × Int) × σ
  PathExists : (path : String) → σ → Except NodeError Bool × σ
  GetConnectorFromFile : (filePath : String) → σ → Except NodeError Connector × σ
  Unmount : (target : String) → σ → Option NodeError × σ
  DisconnectVolume : Connector → σ → Option NodeError × σ
  Disconnect : (targetIqn : String) → (targets : List String) → σ → σ
  RemoveAll : (path : String) → σ → Option NodeError × σ
  Remove : (name : String) → σ → Option NodeError × σ

/-- One call to a collaborator of the node side, with its arguments. -/
inductive NodeCall where
  | Connect (connector : Connector)
  | IsLikelyNotMountPoint (file : String)
  | MkdirAll (path : String) (perm : Nat)
  | PersistConnector (connector : Connector) (filePath : String)
  | FormatAndMount (source target fstype : String) (options : List String)
  | GetDeviceNameFromMount (mountPath : String)
  | PathExists (path : String)
  | GetConnectorFromFile (filePath : String)
  | Unmount (target : String)
  | DisconnectVolume (connector : Connector)
  | Disconnect (targetIqn : String) (targets : List String)
  | RemoveAll (path : String)
  | Remove (name : String)
  deriving DecidableEq, Repr

/-- The node state together with the calls issued so far, oldest first. -/
structure NodeWorld (σ : Type) where
  node : σ
  calls : List NodeCall

/-- The result of a call and the world after it, the call appended to the log. -/
def NodeWorld.step {σ α : Type} (w : NodeWorld σ) (call : NodeCall) (r : α × σ) :
    α × NodeWorld σ :=
  (r.1, ⟨r.2, w.calls ++ [call]⟩)

namespace NodeEnv

variable {σ : Type}

/-- The mount options of `AttachDisk`: `ro` or `rw`, then the options of the request. -/
def mountOptionsOf (b : iscsiDiskMounter) : List String :=
  (if b.readOnly then ["ro"] else ["rw"]) ++ b.mountOptions

/-- The part of `AttachDisk` after the mount point check, `notMnt` being the first result
of `IsLikelyNotMountPoint`. The permission `0o750` is 488. -/
def attachIfNotMounted (n : NodeEnv σ) (b : iscsiDiskMounter)
    (iscsiInfoPath devicePath : String) (notMnt : Bool) (w2 : NodeWorld σ) :
    (String × Option NodeError) × NodeWorld σ :=
  if ¬ notMnt then (("", none), w2)
  else
  match w2.step (.MkdirAll b.targetPath 488) (n.MkdirAll b.targetPath 488 w2.node) with
  | (some err, w3) => (("", some err), w3)
  | (none, w3) =>
  match w3.step (.PersistConnector b.connector iscsiInfoPath)
      (n.PersistConnector b.connector iscsiInfoPath w3.node) with
  | (some _, w4) =>
    (("", some ⟨"unable to create persistence file for connection", false, none⟩), w4)
  | (none, w4) =>
  match w4.step (.FormatAndMount devicePath b.targetPath b.fsType (mountOptionsOf b))
      (n.FormatAndMount devicePath b.targetPath b.fsType (mountOptionsOf b) w4.node) with
  | (err, w5) => ((devicePath, err), w5)

/-- The method `ISCSIUtil.AttachDisk`; the result is the returned pair of device path and
error. -/
def AttachDisk (n : NodeEnv σ) (b : iscsiDiskMounter) (iscsiInfoPath : String)
    (w0 : NodeWorld σ) : (String × Option NodeError) × NodeWorld σ :=
  match w0.step (.Connect b.connector) (n.Connect b.connector w0.node) with
  | (.error err, w1) => (("", some err), w1)
  | (.ok devicePath, w1) =>
  if devicePath = "" then
    (("", some ⟨"connect reported success, but no path returned", false, none⟩), w1)
  else
  match w1.step (.IsLikelyNotMountPoint b.targetPath)
      (n.IsLikelyNotMountPoint b.targetPath w1.node) with
  | ((notMnt, some err), w2) =>
    if ¬ err.isNotExist then
      (("", some ⟨"heuristic determination of mount point failed:" ++ err.msg, false, none⟩),
        w2)
    else attachIfNotMounted n b iscsiInfoPath devicePath notMnt w2
  | ((notMnt, none), w2) => attachIfNotMounted n b iscsiInfoPath devicePath notMnt w2

/-- The part of `DetachDisk` after the decrement found no other mount of the device: the
session is closed, the mount path removed (a failure is only logged) and the persisted
connector deleted. -/
def detachSession (n : NodeEnv σ) (connector : Connector) (targetPath iscsiInfoPath : String)
    (w4 : NodeWorld σ) : Option NodeError × NodeWorld σ :=
  match w4.step (.DisconnectVolume connector) (n.DisconnectVolume connector w4.node) with
  | (some err, w5) => (some err, w5)
  | (none, w5) =>
  let w6 : NodeWorld σ :=
    ⟨n.Disconnect connector.TargetIqn connector.TargetPortals w5.node,
      w5.calls ++ [.Disconnect connector.TargetIqn connector.TargetPortals]⟩
  let w7 := (w6.step (.RemoveAll targetPath) (n.RemoveAll targetPath w6.node)).2
  w7.step (.Remove iscsiInfoPath) (n.Remove iscsiInfoPath w7.node)

/-- The method `ISCSIUtil.DetachDisk`; the result is the returned error. -/
def DetachDisk (n : NodeEnv σ) (targetPath iscsiInfoPath : String) (w0 : NodeWorld σ) :
    Option NodeError × NodeWorld σ :=
  match w0.step (.GetDeviceNameFromMount targetPath)
      (n.GetDeviceNameFromMount targetPath w0.node) with
  | (.error err, w1) => (some err, w1)
  | (.ok (_, cnt), w1) =>
  match w1.step (.PathExists targetPath) (n.PathExists targetPath w1.node) with
  | (.error pathErr, w2) =>
    (some ⟨"error checking if path exists: " ++ pathErr.msg, false, none⟩, w2)
  | (.ok false, w2) => (none, w2)
  | (.ok true, w2) =>
  match w2.step (.GetConnectorFromFile iscsiInfoPath)
      (n.GetConnectorFromFile iscsiInfoPath w2.node) with
  | (.error err, w3) =>
    if err.isNotExist then (none, w3)
    else (some ⟨err.msg, false, some Code.Internal⟩, w3)
  | (.ok connector, w3) =>
  match w3.step (.Unmount targetPath) (n.Unmount targetPath w3.node) with
  | (some err, w4) => (some err, w4)
  | (none, w4) =>
  if cnt - 1 ≠ 0 then (none, w4)
  else detachSession n connector targetPath iscsiInfoPath w4

end NodeEnv

/-! ## An in-memory node

A small node that follows the contracts of the collaborators: it keeps the live sessions,
the mount table, the existing paths and the persisted connectors, and fails exactly the
operations listed in `failing`. The reference count of a device is the number of entries of
the mount table for it; unmounting a path that is not mounted changes nothing. -/

/-- The operations of the node side that can be made to fail. -/
inductive NodeOp where
  | Connect
  | IsLikelyNotMountPoint
  | MkdirAll
  | PersistConnector
  | FormatAndMount
  | GetDeviceNameFromMount
  | PathExists
  | GetConnectorFromFile
  | Unmount
  | DisconnectVolume
  | RemoveAll
  | Remove
  deriving DecidableEq, Repr

/-- The state of the in-memory node: the IQNs of the live sessions, the mount table (device
and mount path), the existing paths and the persisted connectors by file name. -/
structure MemNode where
  sessions : List String
  mounts : List (String × String)
  paths : List String
  files : List (String × Connector)
  failing : List NodeOp
  deriving DecidableEq, Repr

namespace MemNode

/-- The error of a failing operation. -/
def failure : NodeError := ⟨"operation failed", false, none⟩

/-- The error of a missing file or directory. -/
def notExist : NodeError := ⟨"no such file or directory", true, none⟩

/-- The result of an operation that returns only an error. -/
def errorOnly (s : MemNode) (op : NodeOp) (next : MemNode) : Option NodeError × MemNode :=
  if op ∈ s.failing then (some failure, s) else (none, next)

/-- The device of a session. -/
def devicePath (c : Connector) : String :=
  "/dev/disk/by-path/" ++ c.TargetIqn

/-- The in-memory node as the collaborators of the node side. -/
def env : NodeEnv MemNode where
  Connect := fun c s =>
    if NodeOp.Connect ∈ s.failing then (.error failure, s)
    else (.ok (devicePath c),
      { s with sessions := if c.TargetIqn ∈ s.sessions then s.sessions
                           else s.sessions ++ [c.TargetIqn] })
  IsLikelyNotMountPoint := fun file s =>
    if NodeOp.IsLikelyNotMountPoint ∈ s.failing then ((true, some failure), s)
    else if file ∈ s.paths then ((s.mounts.all (fun m => m.2 ≠ file), none), s)
    else ((true, some notExist), s)
  MkdirAll := fun path _ s =>
    errorOnly s NodeOp.MkdirAll
      { s with paths := if path ∈ s.paths then s.paths else s.paths ++ [path] }
  PersistConnector := fun c filePath s =>
    errorOnly s NodeOp.PersistConnector
      { s with files := s.files.filter (fun f => f.1 ≠ filePath) ++ [(filePath, c)] }
  FormatAndMount := fun source target _ _ s =>
    errorOnly s NodeOp.FormatAndMount { s with mounts := s.mounts ++ [(source, target)] }
  GetDeviceNameFromMount := fun mountPath s =>
    if NodeOp.GetDeviceNameFromMount ∈ s.failing then (.error failure, s)
    else
      match s.mounts.find? (fun m => m.2 = mountPath) with
      | none => (.ok ("", 0), s)
      | some m => (.ok (m.1, ((s.mounts.filter (fun e => e.1 = m.1)).length : Int)), s)
  PathExists := fun path s =>
    if NodeOp.PathExists ∈ s.failing then (.error failure, s)
    else (.ok (decide (path ∈ s.paths)), s)
  GetConnectorFromFile := fun filePath s =>
    if NodeOp.GetConnectorFromFile ∈ s.failing then (.error failure, s)
    else
      match s.files.find? (fun f => f.1 = filePath) with
      | none => (.error notExist, s)
      | some f => (.ok f.2, s)
  Unmount := fun target s =>
    errorOnly s NodeOp.Unmount { s with mounts := s.mounts.filter (fun m => m.2 ≠ target) }
  DisconnectVolume := fun _ s => errorOnly s NodeOp.DisconnectVolume s
  Disconnect := fun targetIqn _ s =>
    { s with sessions := s.sessions.filter (fun i => i ≠ targetIqn) }
  RemoveAll := fun path s =>
    errorOnly s NodeOp.RemoveAll { s with paths := s.paths.filter (fun p => p ≠ path) }
  Remove := fun name s =>
    if NodeOp.Remove ∈ s.failing then (some failure, s)
    else if s.files.any (fun f => f.1 = name) then
      (none, { s with files := s.files.filter (fun f => f.1 ≠ name) })
    else (some notExist, s)

/-- A node with no session, no mount, no path and no file. -/
def empty (failing : List NodeOp) : MemNode :=
  { sessions := [], mounts := [], paths := [], files := [], failing := failing }

/-- A world on the in-memory node in which no call was issued yet. -/
def fresh (s : MemNode) : NodeWorld MemNode := ⟨s, []⟩

end MemNode

/-- The connector of the volume `testvol1`. -/
def sampleConnector : Connector :=
  { VolumeName := "testvol1"
    TargetIqn := "iqn.2004-04.com.qnap:ts-1279u-rp:iscsi.testvol1.cbbc56"
    TargetPortals := ["172.20.0.5:3260"]
    Lun := 0 }

/-- The mounter of `testvol1` at a target path, ext4, read and write, with one option. -/
def sampleMounter (targetPath : String) : iscsiDiskMounter :=
  { connector := sampleConnector
    targetPath := targetPath
    readOnly := false
    fsType := "ext4"
    mountOptions := ["noatime"] }

/-- The entry `ListVolumes` builds for a target. -/
def entryOfTarget (target : StorageISCSITargetInfoXML) : ListVolumesResponse_Entry :=
  { Volume := { VolumeId := target.Name, CapacityBytes := 0, VolumeContext := [] } }

/-- The world after `n` status queries of a LUN. -/
def Driver.afterPolls {σ : Type} (d : Driver σ) (lunID : Int) : Nat → World σ → World σ
  | 0, w => w
  | n + 1, w => Driver.afterPolls d lunID n (d.GetStorageISCSILun lunID w).2

/-- The world after the deletes of the LUNs `luns` were issued one after the other,
whatever the appliance answered. -/
def Driver.afterLUNDeletes {σ : Type} (d : Driver σ) : List Int → World σ → World σ
  | [], w => w
  | l :: rest, w => Driver.afterLUNDeletes d rest (d.DeleteStorageISCSIBlockLUN l false w).2

/-- The capacity argument of a call that creates a block LUN; `none` for every other
call. -/
def Call.lunCapacity : Call → Option Int
  | .Login => none
  | .GetStorageISCSITargetList => none
  | .CreateStorageISCSITarget _ _ _ _ => none
  | .CreateStorageISCSIInitiator _ _ _ _ _ _ _ => none
  | .CreateStorageISCSIBlockLUN _ _ capacity _ _ _ _ _ _ => some capacity
  | .GetStorageISCSILun _ => none
  | .AttachStorageISCSITargetLUN _ _ => none
  | .DeleteStorageISCSITarget _ => none
  | .DeleteStorageISCSIBlockLUN _ _ => none

/-- The in-memory appliance as a client that rejects the delete of the LUN `lun` and
accepts the delete of every other LUN. -/
def MemNAS.clientRejectingLUN (lun : Int) : Client MemNAS :=
  { MemNAS.client with
    DeleteStorageISCSIBlockLUN := fun targetIndex _ s =>
      if targetIndex = lun then (some "unknown error occurred", s)
      else MemNAS.errorOnly s Op.DeleteStorageISCSIBlockLUN (MemNAS.removeLUN targetIndex s) }

/-- A driver on the in-memory appliance that rejects the delete of the LUN `lun`. -/
def MemNAS.driverRejectingLUN (lun : Int) : Driver MemNAS :=
  { client := MemNAS.clientRejectingLUN lun, storagePoolID := 1, portal := "172.20.0.5:3260" }

/-! # Theorems -/

/-! ## Capacity validation -/

theorem giB_val : giB = 1073741824 := by decide

theorem one_giB_val : 1 * giB = 1073741824 := by decide

theorem minimum_val : minimumVolumeSizeInBytes = 1073741824 := by decide

theorem maximum_val : maximumVolumeSizeInBytes = 137438953472 := by decide

theorem default_val : defaultVolumeSizeInBytes = 17179869184 := by decide

theorem tmod_giB_of_pos (a : Int) (h : 0 < a) :
    Int.tmod a 1073741824 = a % 1073741824 := by
  rw [Int.tmod_eq_emod (le_of_lt h) (by decide)]

/-- The successful results of `extractStorage`, with the constants as numerals. -/
theorem extractStorage_ok_numeric (capRange : Option CapacityRange) (size : Int)
    (h : extractStorage capRange = .ok size) :
    size % 1073741824 = 0 ∧ 1073741824 ≤ size ∧ size ≤ 137438953472 := by
  cases capRange with
  | none =>
    simp only [extractStorage, Except.ok.injEq, default_val] at h
    subst h
    exact ⟨by norm_num, by norm_num, by norm_num⟩
  | some cr =>
    obtain ⟨r, l⟩ := cr
    simp only [extractStorage, minimum_val, maximum_val, default_val, one_giB_val] at h
    by_cases hr : 0 < r <;> by_cases hl : 0 < l
    · simp only [hr, hl, decide_True, Bool.not_true, Bool.and_true,
        Bool.true_and, Bool.false_and, ite_true, Bool.false_eq_true,
        Bool.and_eq_true, decide_eq_true_eq, ne_eq, decide_not, Bool.not_eq_true',
        decide_eq_false_iff_not, tmod_giB_of_pos _ hr, tmod_giB_of_pos _ hl] at h
      split_ifs at h <;> cases h <;> exact ⟨by omega, by omega, by omega⟩
    · simp only [hr, hl, decide_True, decide_False, Bool.not_true, Bool.not_false,
        Bool.and_true, Bool.true_and, Bool.false_and, Bool.and_false, ite_true, ite_false,
        Bool.false_eq_true, Bool.and_eq_true, decide_eq_true_eq, ne_eq, decide_not,
        Bool.not_eq_true', decide_eq_false_iff_not, tmod_giB_of_pos _ hr] at h
      split_ifs at h
      cases h
      exact ⟨by omega, by omega, by omega⟩
    · simp only [hr, hl, decide_True, decide_False, Bool.not_true, Bool.not_false,
        Bool.and_true, Bool.true_and, Bool.false_and, Bool.and_false, ite_true, ite_false,
        Bool.false_eq_true, Bool.and_eq_true, decide_eq_true_eq, ne_eq, decide_not,
        Bool.not_eq_true', decide_eq_false_iff_not, tmod_giB_of_pos _ hl] at h
      split_ifs at h
      cases h
      exact ⟨by omega, by omega, by omega⟩
    · simp only [hr, hl, decide_False, Bool.not_false, Bool.and_true, ite_true] at h
      cases h
      exact ⟨by norm_num, by norm_num, by norm_num⟩

/-- C1: whenever `extractStorage` returns a size without error, for the absent range and
for every pair of required and limit byte counts, the size is a multiple of 1 GiB between
1 GiB and 128 GiB; and every capacity range with the same required and limit bytes (or
equally absent) has the same outcome. -/
theorem extractStorage_ok_aligned_and_bounded (capRange : Option CapacityRange) (size : Int)
    (h : extractStorage capRange = .ok size) :
    giB ∣ size ∧ minimumVolumeSizeInBytes ≤ size ∧ size ≤ maximumVolumeSizeInBytes ∧
      ∀ other : Option CapacityRange,
        other.map (fun c => (c.RequiredBytes, c.LimitBytes)) =
            capRange.map (fun c => (c.RequiredBytes, c.LimitBytes)) →
          extractStorage other = .ok size := by
  obtain ⟨hmod, hmin, hmax⟩ := extractStorage_ok_numeric capRange size h
  rw [giB_val, minimum_val, maximum_val]
  refine ⟨Int.dvd_of_emod_eq_zero hmod, hmin, hmax, ?_⟩
  intro other hother
  have heq : other = capRange := by
    cases other with
    | none =>
      cases capRange with
      | none => rfl
      | some c => simp at hother
    | some o =>
      cases capRange with
      | none => simp at hother
      | some c =>
        obtain ⟨r1, l1⟩ := o
        obtain ⟨r2, l2⟩ := c
        simp only [Option.map_some', Option.some.injEq, Prod.mk.injEq] at hother
        obtain ⟨rfl, rfl⟩ := hother
        rfl
  rw [heq]
  exact h

/-- C1, at required 16 GiB and no limit. -/
theorem extractStorage_ok_aligned_and_bounded_witness :
    extractStorage (some ⟨17179869184, 0⟩) = .ok 17179869184 ∧
      giB ∣ (17179869184 : Int) ∧ minimumVolumeSizeInBytes ≤ (17179869184 : Int) ∧
      (17179869184 : Int) ≤ maximumVolumeSizeInBytes :=
  ⟨by decide,
    (extractStorage_ok_aligned_and_bounded (some ⟨17179869184, 0⟩) 17179869184 (by decide)).1,
    (extractStorage_ok_aligned_and_bounded (some ⟨17179869184, 0⟩) 17179869184 (by decide)).2.1,
    (extractStorage_ok_aligned_and_bounded (some ⟨17179869184, 0⟩) 17179869184 (by decide)).2.2.1⟩

/-! ## Cursor codec -/

/-- The pointer `base64SeenIndexesToMap` returns without error is nil. -/
theorem base64SeenIndexesToMap_ok_none (value : String) (p : Option IntSet)
    (h : base64SeenIndexesToMap value = .ok p) : p = none := by
  unfold base64SeenIndexesToMap at h
  simp only at h
  split at h
  · cases h
  · split at h
    · cases h
    · cases h
      rfl

/-- C2: the round trip fails on the code. `base64SeenIndexesToMap` never returns a set:
for the encoding of `{1, 2, 3}` and of `{7}` it returns a nil set with a nil error, and for
the encoding of the empty set it returns an error. -/
theorem base64SeenIndexesToMap_never_returns_the_set :
    (∀ (value : String) (s : IntSet), base64SeenIndexesToMap value ≠ .ok (some s)) ∧
      seenIndexesToBase64String [1, 2, 3] = "MSwyLDM=" ∧
      base64SeenIndexesToMap (seenIndexesToBase64String [1, 2, 3]) = .ok none ∧
      base64SeenIndexesToMap (seenIndexesToBase64String [7]) = .ok none ∧
      seenIndexesToBase64String [] = "" ∧
      base64SeenIndexesToMap (seenIndexesToBase64String []) = .error .notAnInteger := by
  refine ⟨?_, by decide, by decide, by decide, by decide, by decide⟩
  intro value s h
  have := base64SeenIndexesToMap_ok_none value (some s) h
  cases this

/-! ## ListVolumes -/

/-- With a nil seen set the loop panics at the first target. -/
theorem listVolumesLoop_nil_seen (maxEntries : Int) (targets : List StorageISCSITargetInfoXML)
    (entries : List ListVolumesResponse_Entry) (h : targets ≠ []) :
    listVolumesLoop maxEntries targets none entries = .panic := by
  cases targets with
  | nil => exact absurd rfl h
  | cons t rest => rfl

/-- With a seen set the loop always ends with entries and a token. -/
theorem listVolumesLoop_some_ok (maxEntries : Int) (targets : List StorageISCSITargetInfoXML) :
    ∀ (seen : IntSet) (entries : List ListVolumesResponse_Entry),
      ∃ es token, listVolumesLoop maxEntries targets (some seen) entries = .ok (es, token) := by
  induction targets with
  | nil => intro seen entries; exact ⟨entries, "", rfl⟩
  | cons t rest ih =>
    intro seen entries
    unfold listVolumesLoop
    split_ifs
    · exact ih seen entries
    · exact ⟨_, _, rfl⟩
    · exact ih _ _

theorem startingSeenIds_empty : startingSeenIds "" = none := by
  simp [startingSeenIds]

/-- A non-empty token that decodes without error gives a nil seen set. -/
theorem startingSeenIds_of_ok (token : String) (p : Option IntSet) (hne : token ≠ "")
    (h : base64SeenIndexesToMap token = .ok p) : startingSeenIds token = none := by
  have hp := base64SeenIndexesToMap_ok_none token p h
  subst hp
  simp [startingSeenIds, hne, h]

/-- A non-empty token that fails to decode gives a fresh empty seen set. -/
theorem startingSeenIds_of_error (token : String) (e : CodecError) (hne : token ≠ "")
    (h : base64SeenIndexesToMap token = .error e) :
    startingSeenIds token = some IntSet.NewInt := by
  simp [startingSeenIds, hne, h]

/-- When login and listing succeed, `ListVolumes` panics as soon as the seen set is nil and
the appliance lists a target. -/
theorem ListVolumes_nil_seen_panics {σ : Type} (d : Driver σ) (req : ListVolumesRequest)
    (w0 w1 w2 : World σ) (resp : StorageISCSITargetListRespXML)
    (hlogin : d.Login w0 = (none, w1))
    (hlist : d.GetStorageISCSITargetList w1 = (.ok resp, w2))
    (hseen : startingSeenIds req.StartingToken = none)
    (htargets : resp.Targets ≠ []) :
    d.ListVolumes req w0 = (.panic, w2) := by
  simp only [Driver.ListVolumes, hlogin, hlist, hseen,
    listVolumesLoop_nil_seen _ _ _ htargets]

/-- C3: the two-page scenario fails on the code. With login and listing succeeding and
`n ≥ 2` targets, the first call (empty starting token, `maxEntries = k`, `1 ≤ k < n`)
panics instead of returning `k` entries, and a second call with any non-empty token that
decodes without error panics as well. -/
theorem ListVolumes_paging_panics {σ : Type} (d : Driver σ) (k : Int)
    (w0 w1 w2 : World σ) (resp : StorageISCSITargetListRespXML)
    (hlogin : d.Login w0 = (none, w1))
    (hlist : d.GetStorageISCSITargetList w1 = (.ok resp, w2))
    (hn : 2 ≤ resp.Targets.length)
    (hk : 1 ≤ k ∧ k < resp.Targets.length) :
    d.ListVolumes { MaxEntries := k, StartingToken := "" } w0 = (.panic, w2) ∧
      ∀ (t : String) (p : Option IntSet), t ≠ "" → base64SeenIndexesToMap t = .ok p →
        d.ListVolumes { MaxEntries := 0, StartingToken := t } w0 = (.panic, w2) := by
  have htargets : resp.Targets ≠ [] := by
    intro h
    have hpos := hk.1
    rw [h] at hn
    simp at hn
  refine ⟨ListVolumes_nil_seen_panics d _ w0 w1 w2 resp hlogin hlist startingSeenIds_empty
    htargets, ?_⟩
  intro t p hne hp
  exact ListVolumes_nil_seen_panics d _ w0 w1 w2 resp hlogin hlist
    (startingSeenIds_of_ok t p hne hp) htargets

/-- C3, on the in-memory appliance with three targets and `k = 1`; the token of the second
call is the encoding of the first index. -/
theorem ListVolumes_paging_panics_witness :
    (MemNAS.driver.ListVolumes { MaxEntries := 1, StartingToken := "" }
        (MemNAS.fresh (MemNAS.threeTargets []))).1 = .panic ∧
      seenIndexesToBase64String [1] = "MQ==" ∧
      (MemNAS.driver.ListVolumes { MaxEntries := 0, StartingToken := "MQ==" }
        (MemNAS.fresh (MemNAS.threeTargets []))).1 = .panic :=
  have h := ListVolumes_paging_panics MemNAS.driver 1 (MemNAS.fresh (MemNAS.threeTargets []))
    (MemNAS.driver.Login (MemNAS.fresh (MemNAS.threeTargets []))).2
    (MemNAS.driver.GetStorageISCSITargetList
      (MemNAS.driver.Login (MemNAS.fresh (MemNAS.threeTargets []))).2).2
    ⟨(MemNAS.threeTargets []).targets⟩ rfl rfl (by decide) (by decide)
  ⟨congrArg Prod.fst h.1, by decide,
    congrArg Prod.fst (h.2 "MQ==" none (by decide) (by decide))⟩

/-- C4: the unlimited listing fails on the code. With login and listing succeeding, an empty
starting token and `maxEntries = 0`, `ListVolumes` panics whenever the appliance lists at
least one target. -/
theorem ListVolumes_unlimited_panics {σ : Type} (d : Driver σ)
    (w0 w1 w2 : World σ) (resp : StorageISCSITargetListRespXML)
    (hlogin : d.Login w0 = (none, w1))
    (hlist : d.GetStorageISCSITargetList w1 = (.ok resp, w2))
    (htargets : resp.Targets ≠ []) :
    d.ListVolumes { MaxEntries := 0, StartingToken := "" } w0 = (.panic, w2) :=
  ListVolumes_nil_seen_panics d _ w0 w1 w2 resp hlogin hlist startingSeenIds_empty htargets

/-- C4, on the in-memory appliance with three targets. -/
theorem ListVolumes_unlimited_panics_witness :
    (MemNAS.threeTargets []).targets ≠ [] ∧
      (MemNAS.driver.ListVolumes { MaxEntries := 0, StartingToken := "" }
        (MemNAS.fresh (MemNAS.threeTargets []))).1 = .panic :=
  ⟨by decide,
    congrArg Prod.fst
      (ListVolumes_unlimited_panics MemNAS.driver (MemNAS.fresh (MemNAS.threeTargets []))
        (MemNAS.driver.Login (MemNAS.fresh (MemNAS.threeTargets []))).2
        (MemNAS.driver.GetStorageISCSITargetList
          (MemNAS.driver.Login (MemNAS.fresh (MemNAS.threeTargets []))).2).2
        ⟨(MemNAS.threeTargets []).targets⟩ rfl rfl (by decide))⟩

/-- C5: for every non-empty starting token that `base64SeenIndexesToMap` fails to decode
(corrupt base64, or a field that is not an integer), `ListVolumes`, with login and listing
succeeding, returns a response and no error: its entries and next token are those of the
listing loop started from an empty seen set. -/
theorem ListVolumes_undecodable_token_starts_empty {σ : Type} (d : Driver σ)
    (req : ListVolumesRequest) (e : CodecError)
    (w0 w1 w2 : World σ) (resp : StorageISCSITargetListRespXML)
    (hlogin : d.Login w0 = (none, w1))
    (hlist : d.GetStorageISCSITargetList w1 = (.ok resp, w2))
    (hne : req.StartingToken ≠ "")
    (hbad : base64SeenIndexesToMap req.StartingToken = .error e) :
    ∃ entries nextToken,
      listVolumesLoop (if req.MaxEntries = 0 then toInt32 resp.Targets.length
          else req.MaxEntries) resp.Targets (some IntSet.NewInt) [] = .ok (entries, nextToken) ∧
        d.ListVolumes req w0 = (.ok { Entries := entries, NextToken := nextToken }, w2) := by
  obtain ⟨es, token, hloop⟩ := listVolumesLoop_some_ok
    (if req.MaxEntries = 0 then toInt32 resp.Targets.length else req.MaxEntries)
    resp.Targets IntSet.NewInt []
  refine ⟨es, token, hloop, ?_⟩
  simp only [Driver.ListVolumes, hlogin, hlist, startingSeenIds_of_error _ e hne hbad, hloop]

/-- C5, on the in-memory appliance with three targets: the token `!!!` is not base64
(`YWJj` is base64 of a text that is not an integer) and the three targets are listed. -/
theorem ListVolumes_undecodable_token_starts_empty_witness :
    base64SeenIndexesToMap "!!!" = .error .corruptInput ∧
      base64SeenIndexesToMap "YWJj" = .error .notAnInteger ∧
      ∃ entries nextToken,
        listVolumesLoop (if (0 : Int) = 0 then toInt32 (MemNAS.threeTargets []).targets.length
            else 0) (MemNAS.threeTargets []).targets (some IntSet.NewInt) [] =
            .ok (entries, nextToken) ∧
          MemNAS.driver.ListVolumes { MaxEntries := 0, StartingToken := "!!!" }
              (MemNAS.fresh (MemNAS.threeTargets [])) =
            (.ok { Entries := entries, NextToken := nextToken },
              (MemNAS.driver.GetStorageISCSITargetList
                (MemNAS.driver.Login (MemNAS.fresh (MemNAS.threeTargets []))).2).2) :=
  ⟨by decide, by decide,
    ListVolumes_undecodable_token_starts_empty MemNAS.driver
      { MaxEntries := 0, StartingToken := "!!!" } .corruptInput
      (MemNAS.fresh (MemNAS.threeTargets []))
      (MemNAS.driver.Login (MemNAS.fresh (MemNAS.threeTargets []))).2
      (MemNAS.driver.GetStorageISCSITargetList
        (MemNAS.driver.Login (MemNAS.fresh (MemNAS.threeTargets []))).2).2
      ⟨(MemNAS.threeTargets []).targets⟩ rfl rfl (by decide) (by decide)⟩

/-! ## DeleteVolume -/

namespace Driver

variable {σ : Type}

theorem Login_calls (d : Driver σ) (w w1 : World σ) (r : Option String)
    (h : d.Login w = (r, w1)) : w1.calls = w.calls ++ [Call.Login] := by
  simp only [Driver.Login, Prod.mk.injEq] at h
  rw [← h.2]

theorem GetStorageISCSITargetList_calls (d : Driver σ) (w w1 : World σ)
    (r : Except String StorageISCSITargetListRespXML)
    (h : d.GetStorageISCSITargetList w = (r, w1)) :
    w1.calls = w.calls ++ [Call.GetStorageISCSITargetList] := by
  simp only [Driver.GetStorageISCSITargetList, Prod.mk.injEq] at h
  rw [← h.2]

theorem DeleteStorageISCSITarget_calls (d : Driver σ) (targetIndex : Int) (w w1 : World σ)
    (r : Option String) (h : d.DeleteStorageISCSITarget targetIndex w = (r, w1)) :
    w1.calls = w.calls ++ [Call.DeleteStorageISCSITarget targetIndex] := by
  simp only [Driver.DeleteStorageISCSITarget, Prod.mk.injEq] at h
  rw [← h.2]

theorem DeleteStorageISCSIBlockLUN_calls (d : Driver σ) (targetIndex : Int) (bg : Bool)
    (w w1 : World σ) (r : Option String)
    (h : d.DeleteStorageISCSIBlockLUN targetIndex bg w = (r, w1)) :
    w1.calls = w.calls ++ [Call.DeleteStorageISCSIBlockLUN targetIndex bg] := by
  simp only [Driver.DeleteStorageISCSIBlockLUN, Prod.mk.injEq] at h
  rw [← h.2]

/-- The calls of the LUN loop: either every LUN delete was issued and none failed, or the
deletes up to and including the first failing one were issued. -/
theorem deleteTargetLUNs_calls (d : Driver σ) (luns : List Int) :
    ∀ w : World σ,
      ((d.deleteTargetLUNs luns w).1 = none ∧
          (d.deleteTargetLUNs luns w).2.calls =
            w.calls ++ luns.map (fun l => Call.DeleteStorageISCSIBlockLUN l false)) ∨
        (∃ e k, (d.deleteTargetLUNs luns w).1 = some e ∧ k < luns.length ∧
          (d.deleteTargetLUNs luns w).2.calls =
            w.calls ++ (luns.take (k + 1)).map
              (fun l => Call.DeleteStorageISCSIBlockLUN l false)) := by
  induction luns with
  | nil =>
    intro w
    left
    simp [Driver.deleteTargetLUNs]
  | cons l rest ih =>
    intro w
    rcases h : d.DeleteStorageISCSIBlockLUN l false w with ⟨r, w1⟩
    have hc := DeleteStorageISCSIBlockLUN_calls d l false w w1 r h
    cases r with
    | some e =>
      right
      refine ⟨e, 0, ?_, by simp, ?_⟩
      · simp [Driver.deleteTargetLUNs, h]
      · simp [Driver.deleteTargetLUNs, h, hc]
    | none =>
      rcases ih w1 with ⟨h1, h2⟩ | ⟨e, k, h1, h2, h3⟩
      · left
        simp [Driver.deleteTargetLUNs, h, h1, h2, hc]
      · right
        refine ⟨e, k + 1, ?_, by simp [h2], ?_⟩
        · simp [Driver.deleteTargetLUNs, h, h1]
        · simp [Driver.deleteTargetLUNs, h, h3, hc]

end Driver

/-- C6, as stated, fails: on the in-memory appliance, deleting `vol3` (target 3 with LUNs
13 and 14) issues the delete of the target before the delete of either LUN. -/
theorem DeleteVolume_LUNs_not_deleted_first :
    (MemNAS.driver.DeleteVolume ⟨"vol3"⟩ (MemNAS.fresh (MemNAS.threeTargets []))).2.calls =
        [Call.Login, Call.GetStorageISCSITargetList, Call.DeleteStorageISCSITarget 3,
          Call.DeleteStorageISCSIBlockLUN 13 false, Call.DeleteStorageISCSIBlockLUN 14 false] ∧
      ¬ ∀ l ∈ [(13 : Int), 14],
          List.indexOf (Call.DeleteStorageISCSIBlockLUN l false)
              (MemNAS.driver.DeleteVolume ⟨"vol3"⟩
                (MemNAS.fresh (MemNAS.threeTargets []))).2.calls <
            List.indexOf (Call.DeleteStorageISCSITarget 3)
              (MemNAS.driver.DeleteVolume ⟨"vol3"⟩
                (MemNAS.fresh (MemNAS.threeTargets []))).2.calls := by
  decide

/-- The calls of the deletes issued one after the other. -/
theorem Driver.afterLUNDeletes_calls {σ : Type} (d : Driver σ) (luns : List Int) :
    ∀ w : World σ, (d.afterLUNDeletes luns w).calls =
      w.calls ++ luns.map (fun l => Call.DeleteStorageISCSIBlockLUN l false) := by
  induction luns with
  | nil =>
    intro w
    simp [Driver.afterLUNDeletes]
  | cons l rest ih =>
    intro w
    rcases h : d.DeleteStorageISCSIBlockLUN l false w with ⟨r, w1⟩
    have hc := Driver.DeleteStorageISCSIBlockLUN_calls d l false w w1 r h
    simp [Driver.afterLUNDeletes, h, ih, hc]

/-- While the appliance accepts the deletes, the LUN loop goes on: after the accepted
deletes of `pre` it is at the rest of the list, in the world those deletes left. -/
theorem Driver.deleteTargetLUNs_accepted {σ : Type} (d : Driver σ) (pre rest : List Int) :
    ∀ w : World σ,
      (∀ i, i < pre.length →
        (d.DeleteStorageISCSIBlockLUN (pre.getD i 0) false
          (d.afterLUNDeletes (pre.take i) w)).1 = none) →
      d.deleteTargetLUNs (pre ++ rest) w = d.deleteTargetLUNs rest (d.afterLUNDeletes pre w) := by
  induction pre with
  | nil =>
    intro w _
    simp [Driver.afterLUNDeletes]
  | cons l pre ih =>
    intro w h
    have h0 := h 0 (by simp)
    simp only [List.getD_cons_zero, List.take_zero, Driver.afterLUNDeletes] at h0
    rcases hd : d.DeleteStorageISCSIBlockLUN l false w with ⟨r, w1⟩
    rw [hd] at h0
    simp only at h0
    subst h0
    have hrest := ih w1 (by
      intro i hi
      have hi1 := h (i + 1) (by simp; omega)
      simpa [Driver.afterLUNDeletes, hd] using hi1)
    simp [Driver.deleteTargetLUNs, Driver.afterLUNDeletes, hd, hrest]

/-- The run of `DeleteVolume` when the delete of the target is accepted, the deletes of the
LUNs `pre` are accepted and the delete of the next LUN `l` fails: the result is the Internal
error and the last call is the failing delete. -/
theorem DeleteVolume_first_failing_LUN {σ : Type} (d : Driver σ)
    (req : DeleteVolumeRequest) (w0 w1 w2 w3 : World σ)
    (targetList : StorageISCSITargetListRespXML) (target : StorageISCSITargetInfoXML)
    (pre post : List Int) (l : Int) (e : String)
    (hid : req.VolumeId ≠ "")
    (hlogin : d.Login w0 = (none, w1))
    (hlist : d.GetStorageISCSITargetList w1 = (.ok targetList, w2))
    (hfound : targetList.Targets.find? (fun t => t.Name = req.VolumeId) = some target)
    (hdel : d.DeleteStorageISCSITarget target.TargetIndex w2 = (none, w3))
    (hsplit : target.TargetLUNs = pre ++ l :: post)
    (hacc : ∀ i, i < pre.length →
      (d.DeleteStorageISCSIBlockLUN (pre.getD i 0) false
        (d.afterLUNDeletes (pre.take i) w3)).1 = none)
    (hfail : (d.DeleteStorageISCSIBlockLUN l false (d.afterLUNDeletes pre w3)).1 = some e) :
    d.DeleteVolume req w0 =
        (.error .Internal "Failed to delete ISCSI Block based LUN",
          (d.DeleteStorageISCSIBlockLUN l false (d.afterLUNDeletes pre w3)).2) ∧
      (d.DeleteStorageISCSIBlockLUN l false (d.afterLUNDeletes pre w3)).2.calls =
        w0.calls ++ [Call.Login, Call.GetStorageISCSITargetList,
          Call.DeleteStorageISCSITarget target.TargetIndex] ++
          (pre ++ [l]).map (fun x => Call.DeleteStorageISCSIBlockLUN x false) := by
  have hc1 := Driver.Login_calls d w0 w1 _ hlogin
  have hc2 := Driver.GetStorageISCSITargetList_calls d w1 w2 _ hlist
  have hc3 := Driver.DeleteStorageISCSITarget_calls d _ w2 w3 _ hdel
  have hloop := Driver.deleteTargetLUNs_accepted d pre (l :: post) w3 hacc
  rcases hd : d.DeleteStorageISCSIBlockLUN l false (d.afterLUNDeletes pre w3) with ⟨r, w4⟩
  rw [hd] at hfail
  simp only at hfail
  subst hfail
  have hc4 := Driver.DeleteStorageISCSIBlockLUN_calls d l false _ w4 _ hd
  have hc5 := Driver.afterLUNDeletes_calls d pre w3
  refine ⟨?_, ?_⟩
  · simp [Driver.DeleteVolume, hid, hlogin, hlist, hfound, hdel, hsplit, hloop,
      Driver.deleteTargetLUNs, hd]
  · simp [hc5, hc4, hc3, hc2, hc1]

/-- The run of `DeleteVolume` when the delete of the target and the delete of each of its
LUNs are accepted. -/
theorem DeleteVolume_all_LUNs_accepted {σ : Type} (d : Driver σ)
    (req : DeleteVolumeRequest) (w0 w1 w2 w3 : World σ)
    (targetList : StorageISCSITargetListRespXML) (target : StorageISCSITargetInfoXML)
    (hid : req.VolumeId ≠ "")
    (hlogin : d.Login w0 = (none, w1))
    (hlist : d.GetStorageISCSITargetList w1 = (.ok targetList, w2))
    (hfound : targetList.Targets.find? (fun t => t.Name = req.VolumeId) = some target)
    (hdel : d.DeleteStorageISCSITarget target.TargetIndex w2 = (none, w3))
    (hacc : ∀ i, i < target.TargetLUNs.length →
      (d.DeleteStorageISCSIBlockLUN (target.TargetLUNs.getD i 0) false
        (d.afterLUNDeletes (target.TargetLUNs.take i) w3)).1 = none) :
    d.DeleteVolume req w0 = (.ok {}, d.afterLUNDeletes target.TargetLUNs w3) ∧
      (d.afterLUNDeletes target.TargetLUNs w3).calls =
        w0.calls ++ [Call.Login, Call.GetStorageISCSITargetList,
          Call.DeleteStorageISCSITarget target.TargetIndex] ++
          target.TargetLUNs.map (fun x => Call.DeleteStorageISCSIBlockLUN x false) := by
  have hc1 := Driver.Login_calls d w0 w1 _ hlogin
  have hc2 := Driver.GetStorageISCSITargetList_calls d w1 w2 _ hlist
  have hc3 := Driver.DeleteStorageISCSITarget_calls d _ w2 w3 _ hdel
  have hloop := Driver.deleteTargetLUNs_accepted d target.TargetLUNs [] w3 hacc
  have hc5 := Driver.afterLUNDeletes_calls d target.TargetLUNs w3
  rw [List.append_nil] at hloop
  refine ⟨?_, ?_⟩
  · simp [Driver.DeleteVolume, hid, hlogin, hlist, hfound, hdel, hloop,
      Driver.deleteTargetLUNs]
  · simp [hc5, hc3, hc2, hc1]

/-- C6, amended: when login and listing succeed and a target named like the volume id is
listed, the first delete `DeleteVolume` issues is that of the first such target. If the
appliance rejects it, no LUN delete is issued. If the appliance accepts it, the deletes of
the target's LUN indices follow in their listed order and stop at the first delete that
fails: with the deletes of the LUNs `pre` accepted and the delete of the next LUN `l`
rejected, the calls end with the deletes of `pre` and of `l`, and the result is not
success; with every delete accepted every LUN delete is issued and the result is success;
and whenever the result is success every LUN delete was issued. -/
theorem DeleteVolume_deletes_target_then_LUNs {σ : Type} (d : Driver σ)
    (req : DeleteVolumeRequest) (w0 w1 w2 : World σ)
    (targetList : StorageISCSITargetListRespXML) (target : StorageISCSITargetInfoXML)
    (hid : req.VolumeId ≠ "")
    (hlogin : d.Login w0 = (none, w1))
    (hlist : d.GetStorageISCSITargetList w1 = (.ok targetList, w2))
    (hfound : targetList.Targets.find? (fun t => t.Name = req.VolumeId) = some target) :
    (∀ e w3, d.DeleteStorageISCSITarget target.TargetIndex w2 = (some e, w3) →
        (d.DeleteVolume req w0).2.calls =
          w0.calls ++ [Call.Login, Call.GetStorageISCSITargetList,
            Call.DeleteStorageISCSITarget target.TargetIndex]) ∧
      (∀ w3, d.DeleteStorageISCSITarget target.TargetIndex w2 = (none, w3) →
        (∀ pre l post e, target.TargetLUNs = pre ++ l :: post →
          (∀ i, i < pre.length →
            (d.DeleteStorageISCSIBlockLUN (pre.getD i 0) false
              (d.afterLUNDeletes (pre.take i) w3)).1 = none) →
          (d.DeleteStorageISCSIBlockLUN l false (d.afterLUNDeletes pre w3)).1 = some e →
          (d.DeleteVolume req w0).2.calls =
              w0.calls ++ [Call.Login, Call.GetStorageISCSITargetList,
                Call.DeleteStorageISCSITarget target.TargetIndex] ++
                (pre ++ [l]).map (fun x => Call.DeleteStorageISCSIBlockLUN x false) ∧
            (d.DeleteVolume req w0).1 ≠ .ok {}) ∧
        ((∀ i, i < target.TargetLUNs.length →
            (d.DeleteStorageISCSIBlockLUN (target.TargetLUNs.getD i 0) false
              (d.afterLUNDeletes (target.TargetLUNs.take i) w3)).1 = none) →
          (d.DeleteVolume req w0).1 = .ok {} ∧
            (d.DeleteVolume req w0).2.calls =
              w0.calls ++ [Call.Login, Call.GetStorageISCSITargetList,
                Call.DeleteStorageISCSITarget target.TargetIndex] ++
                target.TargetLUNs.map (fun x => Call.DeleteStorageISCSIBlockLUN x false)) ∧
        ((d.DeleteVolume req w0).1 = .ok {} →
          (d.DeleteVolume req w0).2.calls =
            w0.calls ++ [Call.Login, Call.GetStorageISCSITargetList,
              Call.DeleteStorageISCSITarget target.TargetIndex] ++
              target.TargetLUNs.map (fun x => Call.DeleteStorageISCSIBlockLUN x false))) := by
  have hc1 := Driver.Login_calls d w0 w1 _ hlogin
  have hc2 := Driver.GetStorageISCSITargetList_calls d w1 w2 _ hlist
  refine ⟨?_, ?_⟩
  · intro e w3 hdel
    have hc3 := Driver.DeleteStorageISCSITarget_calls d _ w2 w3 _ hdel
    simp [Driver.DeleteVolume, hid, hlogin, hlist, hfound, hdel, hc1, hc2, hc3]
  · intro w3 hdel
    have hc3 := Driver.DeleteStorageISCSITarget_calls d _ w2 w3 _ hdel
    refine ⟨?_, ?_, ?_⟩
    · intro pre l post e hsplit hacc hfail
      obtain ⟨hrun, hcalls⟩ := DeleteVolume_first_failing_LUN d req w0 w1 w2 w3 targetList
        target pre post l e hid hlogin hlist hfound hdel hsplit hacc hfail
      rw [hrun]
      exact ⟨hcalls, by simp⟩
    · intro hacc
      obtain ⟨hrun, hcalls⟩ := DeleteVolume_all_LUNs_accepted d req w0 w1 w2 w3 targetList
        target hid hlogin hlist hfound hdel hacc
      rw [hrun]
      exact ⟨rfl, hcalls⟩
    · intro hok
      rcases hl : d.deleteTargetLUNs target.TargetLUNs w3 with ⟨r4, w4⟩
      rcases Driver.deleteTargetLUNs_calls d target.TargetLUNs w3 with
        ⟨h1, h2⟩ | ⟨e, k, h1, _, _⟩
      · rw [hl] at h1 h2
        simp only at h1 h2
        subst h1
        simp [Driver.DeleteVolume, hid, hlogin, hlist, hfound, hdel, hl, h2, hc1, hc2, hc3]
      · rw [hl] at h1
        simp only at h1
        subst h1
        simp [Driver.DeleteVolume, hid, hlogin, hlist, hfound, hdel, hl] at hok

/-- C6 amended, deleting `vol3` (target 3 with the LUNs 13 and 14) on the in-memory
appliance that rejects the delete of LUN 14: the target is deleted first, then LUN 13, then
the failing delete of LUN 14. -/
theorem DeleteVolume_deletes_target_then_LUNs_witness :
    (MemNAS.threeTargets []).targets.find? (fun t => t.Name = "vol3") =
        some (MemNAS.target 3 "vol3" [13, 14]) ∧
      ((MemNAS.driverRejectingLUN 14).DeleteVolume ⟨"vol3"⟩
          (MemNAS.fresh (MemNAS.threeTargets []))).2.calls =
        [Call.Login, Call.GetStorageISCSITargetList, Call.DeleteStorageISCSITarget 3,
          Call.DeleteStorageISCSIBlockLUN 13 false, Call.DeleteStorageISCSIBlockLUN 14 false] ∧
      ((MemNAS.driverRejectingLUN 14).DeleteVolume ⟨"vol3"⟩
          (MemNAS.fresh (MemNAS.threeTargets []))).1 ≠ .ok {} :=
  ⟨by decide,
    ((DeleteVolume_deletes_target_then_LUNs (MemNAS.driverRejectingLUN 14) ⟨"vol3"⟩
      (MemNAS.fresh (MemNAS.threeTargets [])) _ _
      ⟨(MemNAS.threeTargets []).targets⟩ (MemNAS.target 3 "vol3" [13, 14])
      (by decide) rfl rfl (by decide)).2 _ rfl).1 [13] 14 [] "unknown error occurred" rfl
      (by decide) rfl⟩

/-- C7, as stated, fails: on the in-memory appliance that rejects LUN deletes, deleting
`vol3` returns an Internal error after the delete of target 3 was issued and accepted, and
the target is no longer listed. -/
theorem DeleteVolume_LUN_failure_after_target_delete :
    (MemNAS.driver.DeleteVolume ⟨"vol3"⟩
        (MemNAS.fresh (MemNAS.threeTargets [Op.DeleteStorageISCSIBlockLUN]))).1 =
        .error .Internal "Failed to delete ISCSI Block based LUN" ∧
      (MemNAS.driver.DeleteVolume ⟨"vol3"⟩
        (MemNAS.fresh (MemNAS.threeTargets [Op.DeleteStorageISCSIBlockLUN]))).2.calls =
        [Call.Login, Call.GetStorageISCSITargetList, Call.DeleteStorageISCSITarget 3,
          Call.DeleteStorageISCSIBlockLUN 13 false] ∧
      (MemNAS.driver.DeleteVolume ⟨"vol3"⟩
        (MemNAS.fresh (MemNAS.threeTargets [Op.DeleteStorageISCSIBlockLUN]))).2.nas.targets =
        [MemNAS.target 1 "vol1" [11], MemNAS.target 2 "vol2" [12]] := by
  decide

/-- C7, amended: when login and listing succeed, a target named like the volume id is
listed, its delete is accepted, the deletes of the LUNs `pre` listed first are accepted and
the delete of the next LUN `l` fails, `DeleteVolume` returns an Internal error; the calls
issued are the login, the listing, the delete of the target and then the deletes of `pre`
and of `l`; no LUN delete is issued after the failing one, the world is the one the failing
delete left. -/
theorem DeleteVolume_LUN_failure_stops {σ : Type} (d : Driver σ)
    (req : DeleteVolumeRequest) (w0 w1 w2 w3 : World σ)
    (targetList : StorageISCSITargetListRespXML) (target : StorageISCSITargetInfoXML)
    (pre post : List Int) (l : Int) (e : String)
    (hid : req.VolumeId ≠ "")
    (hlogin : d.Login w0 = (none, w1))
    (hlist : d.GetStorageISCSITargetList w1 = (.ok targetList, w2))
    (hfound : targetList.Targets.find? (fun t => t.Name = req.VolumeId) = some target)
    (hdel : d.DeleteStorageISCSITarget target.TargetIndex w2 = (none, w3))
    (hsplit : target.TargetLUNs = pre ++ l :: post)
    (hacc : ∀ i, i < pre.length →
      (d.DeleteStorageISCSIBlockLUN (pre.getD i 0) false
        (d.afterLUNDeletes (pre.take i) w3)).1 = none)
    (hfail : (d.DeleteStorageISCSIBlockLUN l false (d.afterLUNDeletes pre w3)).1 = some e) :
    (d.DeleteVolume req w0).1 = .error .Internal "Failed to delete ISCSI Block based LUN" ∧
      (d.DeleteVolume req w0).2.calls =
        w0.calls ++ [Call.Login, Call.GetStorageISCSITargetList,
          Call.DeleteStorageISCSITarget target.TargetIndex] ++
          (pre ++ [l]).map (fun x => Call.DeleteStorageISCSIBlockLUN x false) ∧
      (d.DeleteVolume req w0).2 =
        (d.DeleteStorageISCSIBlockLUN l false (d.afterLUNDeletes pre w3)).2 := by
  obtain ⟨hrun, hcalls⟩ := DeleteVolume_first_failing_LUN d req w0 w1 w2 w3 targetList
    target pre post l e hid hlogin hlist hfound hdel hsplit hacc hfail
  rw [hrun]
  exact ⟨rfl, hcalls, rfl⟩

/-- C7 amended, deleting `vol3` (target 3 with the LUNs 13 and 14) on the in-memory
appliance that rejects the delete of LUN 13 and would accept that of LUN 14: the result is
the Internal error, the delete of LUN 14 is not issued and LUN 14 stays on the appliance,
while target 3 is gone. -/
theorem DeleteVolume_LUN_failure_stops_witness :
    ((MemNAS.driverRejectingLUN 13).DeleteStorageISCSIBlockLUN 14 false
        (MemNAS.fresh (MemNAS.threeTargets []))).1 = none ∧
      ((MemNAS.driverRejectingLUN 13).DeleteVolume ⟨"vol3"⟩
          (MemNAS.fresh (MemNAS.threeTargets []))).1 =
        .error .Internal "Failed to delete ISCSI Block based LUN" ∧
      ((MemNAS.driverRejectingLUN 13).DeleteVolume ⟨"vol3"⟩
          (MemNAS.fresh (MemNAS.threeTargets []))).2.calls =
        [Call.Login, Call.GetStorageISCSITargetList, Call.DeleteStorageISCSITarget 3,
          Call.DeleteStorageISCSIBlockLUN 13 false] ∧
      ((MemNAS.driverRejectingLUN 13).DeleteVolume ⟨"vol3"⟩
          (MemNAS.fresh (MemNAS.threeTargets []))).2.nas.luns =
        [(11, 0), (12, 0), (13, 0), (14, 0)] ∧
      ((MemNAS.driverRejectingLUN 13).DeleteVolume ⟨"vol3"⟩
          (MemNAS.fresh (MemNAS.threeTargets []))).2.nas.targets =
        [MemNAS.target 1 "vol1" [11], MemNAS.target 2 "vol2" [12]] :=
  ⟨by decide,
    (DeleteVolume_LUN_failure_stops (MemNAS.driverRejectingLUN 13) ⟨"vol3"⟩
      (MemNAS.fresh (MemNAS.threeTargets [])) _ _ _
      ⟨(MemNAS.threeTargets []).targets⟩ (MemNAS.target 3 "vol3" [13, 14])
      [] [14] 13 "unknown error occurred"
      (by decide) rfl rfl (by decide) rfl rfl (by decide) rfl).1,
    (DeleteVolume_LUN_failure_stops (MemNAS.driverRejectingLUN 13) ⟨"vol3"⟩
      (MemNAS.fresh (MemNAS.threeTargets [])) _ _ _
      ⟨(MemNAS.threeTargets []).targets⟩ (MemNAS.target 3 "vol3" [13, 14])
      [] [14] 13 "unknown error occurred"
      (by decide) rfl rfl (by decide) rfl rfl (by decide) rfl).2.1,
    by decide, by decide⟩

/-- C8: for every non-empty volume id, when login and listing succeed and no listed target
is named like the volume id, `DeleteVolume` returns success and issues only the login and
the listing, no delete; the appliance state is the one those two calls leave, so on an
appliance whose login and listing leave its state unchanged the state is unchanged and a
second identical `DeleteVolume` returns success too, again without a delete. -/
theorem DeleteVolume_absent_succeeds_without_delete {σ : Type} (d : Driver σ)
    (req : DeleteVolumeRequest) (w0 w1 w2 : World σ)
    (targetList : StorageISCSITargetListRespXML)
    (hid : req.VolumeId ≠ "")
    (hlogin : d.Login w0 = (none, w1))
    (hlist : d.GetStorageISCSITargetList w1 = (.ok targetList, w2))
    (habsent : ∀ t ∈ targetList.Targets, t.Name ≠ req.VolumeId) :
    d.DeleteVolume req w0 = (.ok {}, w2) ∧
      w2.calls = w0.calls ++ [Call.Login, Call.GetStorageISCSITargetList] ∧
      w2.nas = (d.client.GetStorageISCSITargetList (d.client.Login w0.nas).2).2 ∧
      ((d.client.Login w0.nas).2 = w0.nas →
        (d.client.GetStorageISCSITargetList w0.nas).2 = w0.nas →
          w2.nas = w0.nas ∧
          d.DeleteVolume req w2 =
            (.ok {}, ⟨w0.nas, w0.calls ++ [Call.Login, Call.GetStorageISCSITargetList,
              Call.Login, Call.GetStorageISCSITargetList]⟩)) := by
  have hc1 := Driver.Login_calls d w0 w1 _ hlogin
  have hc2 := Driver.GetStorageISCSITargetList_calls d w1 w2 _ hlist
  have hfind : targetList.Targets.find? (fun t => t.Name = req.VolumeId) = none := by
    rw [List.find?_eq_none]
    intro t ht
    simpa using habsent t ht
  simp only [Driver.Login, Prod.mk.injEq] at hlogin
  obtain ⟨hl1, hl2⟩ := hlogin
  subst hl2
  simp only [Driver.GetStorageISCSITargetList, Prod.mk.injEq] at hlist
  obtain ⟨hg1, hg2⟩ := hlist
  subst hg2
  refine ⟨?_, by simp, rfl, ?_⟩
  · simp [Driver.DeleteVolume, hid, Driver.Login, hl1, Driver.GetStorageISCSITargetList, hg1,
      hfind]
  · intro hpure1 hpure2
    rw [hpure1] at hg1
    simp [Driver.DeleteVolume, hid, Driver.Login, hl1, Driver.GetStorageISCSITargetList, hg1,
      hfind, hpure1, hpure2]

/-- C8, on the in-memory appliance with three targets, none of them named `vol9`. -/
theorem DeleteVolume_absent_succeeds_without_delete_witness :
    (∀ t ∈ (MemNAS.threeTargets []).targets, t.Name ≠ "vol9") ∧
      (MemNAS.driver.DeleteVolume ⟨"vol9"⟩ (MemNAS.fresh (MemNAS.threeTargets []))).1 =
        .ok {} ∧
      (MemNAS.driver.GetStorageISCSITargetList
          (MemNAS.driver.Login (MemNAS.fresh (MemNAS.threeTargets []))).2).2.calls =
        [Call.Login, Call.GetStorageISCSITargetList] :=
  have h := DeleteVolume_absent_succeeds_without_delete MemNAS.driver ⟨"vol9"⟩
    (MemNAS.fresh (MemNAS.threeTargets []))
    (MemNAS.driver.Login (MemNAS.fresh (MemNAS.threeTargets []))).2
    (MemNAS.driver.GetStorageISCSITargetList
      (MemNAS.driver.Login (MemNAS.fresh (MemNAS.threeTargets []))).2).2
    ⟨(MemNAS.threeTargets []).targets⟩ (by decide) rfl rfl (by decide)
  ⟨by decide, congrArg Prod.fst h.1, h.2.1⟩

/-! ## CreateVolume -/

namespace Driver

variable {σ : Type}

theorem CreateStorageISCSITarget_calls (d : Driver σ) (name : String) (a b c : Bool)
    (w w1 : World σ) (r : Except String Int)
    (h : d.CreateStorageISCSITarget name a b c w = (r, w1)) :
    w1.calls = w.calls ++ [Call.CreateStorageISCSITarget name a b c] := by
  simp only [Driver.CreateStorageISCSITarget, Prod.mk.injEq] at h
  rw [← h.2]

theorem CreateStorageISCSIInitiator_calls (d : Driver σ) (targetIndex : Int) (a : Bool)
    (u p : String) (b : Bool) (mu mp : String) (w w1 : World σ) (r : Option String)
    (h : d.CreateStorageISCSIInitiator targetIndex a u p b mu mp w = (r, w1)) :
    w1.calls = w.calls ++ [Call.CreateStorageISCSIInitiator targetIndex a u p b mu mp] := by
  simp only [Driver.CreateStorageISCSIInitiator, Prod.mk.injEq] at h
  rw [← h.2]

theorem CreateStorageISCSIBlockLUN_calls (d : Driver σ) (name : String) (pool capacity : Int)
    (thin : Bool) (sector : Int) (a b c e : Bool) (w w1 : World σ)
    (r : Except String StorageISCSICreateBlockLUNRespXML)
    (h : d.CreateStorageISCSIBlockLUN name pool capacity thin sector a b c e w = (r, w1)) :
    w1.calls =
      w.calls ++ [Call.CreateStorageISCSIBlockLUN name pool capacity thin sector a b c e] := by
  simp only [Driver.CreateStorageISCSIBlockLUN, Prod.mk.injEq] at h
  rw [← h.2]

theorem GetStorageISCSILun_calls (d : Driver σ) (lunID : Int) (w w1 : World σ)
    (r : Except String StorageISCSILUNRespXML)
    (h : d.GetStorageISCSILun lunID w = (r, w1)) :
    w1.calls = w.calls ++ [Call.GetStorageISCSILun lunID] := by
  simp only [Driver.GetStorageISCSILun, Prod.mk.injEq] at h
  rw [← h.2]

/-- The wait for the LUN issues status queries for that LUN only, at most `fuel` of them. -/
theorem waitForLUN_calls (d : Driver σ) (lunID : Int) (fuel : Nat) :
    ∀ w : World σ, ∃ n, n ≤ fuel ∧
      (d.waitForLUN lunID fuel w).2.calls =
        w.calls ++ List.replicate n (Call.GetStorageISCSILun lunID) := by
  induction fuel with
  | zero =>
    intro w
    exact ⟨0, le_refl _, by simp [Driver.waitForLUN]⟩
  | succ fuel ih =>
    intro w
    rcases h : d.GetStorageISCSILun lunID w with ⟨r, w1⟩
    have hc := GetStorageISCSILun_calls d lunID w w1 r h
    cases r with
    | error e =>
      exact ⟨1, by omega, by simp [Driver.waitForLUN, h, hc]⟩
    | ok lunInfo =>
      by_cases hs : lunInfo.StatusString = "creating"
      · obtain ⟨n, hn, hcalls⟩ := ih w1
        refine ⟨n + 1, by omega, ?_⟩
        simp [Driver.waitForLUN, h, hs, hcalls, hc, List.replicate_succ]
      · exact ⟨1, by omega, by simp [Driver.waitForLUN, h, hs, hc]⟩

end Driver

/-- The existence check of `CreateVolume` finds nothing when no listed target has the
name. -/
theorem any_name_false (targets : List StorageISCSITargetInfoXML) (name : String)
    (hfree : ∀ t ∈ targets, t.Name ≠ name) :
    targets.any (fun target => decide (target.Name = name)) = false := by
  rw [List.any_eq_false]
  intro t ht
  simpa using hfree t ht

/-- C9: the rollback is missing on the code when the status query fails. With a request
that passes validation, login, listing, target, initiator and LUN creation succeeding and
no target of the name listed, a failing status query makes `CreateVolume` return Internal
with these calls only: login, listing, the three creates and the status queries. No delete
of the target or of the LUN is issued. -/
theorem CreateVolume_poll_failure_no_rollback {σ : Type} (d : Driver σ) (fuel : Nat)
    (req : CreateVolumeRequest) (size : Int) (w0 w1 w2 w3 w4 w5 w6 : World σ)
    (targetList : StorageISCSITargetListRespXML) (targetIndex : Int)
    (block : StorageISCSICreateBlockLUNRespXML)
    (hname : req.Name ≠ "")
    (hcaps : req.VolumeCapabilities ≠ [])
    (hvalid : validateCapabilities req.VolumeCapabilities = [])
    (hsize : extractStorage req.CapacityRange = .ok size)
    (hlogin : d.Login w0 = (none, w1))
    (hlist : d.GetStorageISCSITargetList w1 = (.ok targetList, w2))
    (hfree : ∀ t ∈ targetList.Targets, t.Name ≠ cleanISCSIName req.Name)
    (htarget : d.CreateStorageISCSITarget (cleanISCSIName req.Name) false false true w2 =
      (.ok targetIndex, w3))
    (hinit : d.CreateStorageISCSIInitiator targetIndex false "" "" false "" "" w3 = (none, w4))
    (hlun : d.CreateStorageISCSIBlockLUN (cleanISCSIName req.Name) d.storagePoolID
      (Int.tdiv size (1 * giB)) false 512 false false false false w4 = (.ok block, w5))
    (hpoll : d.waitForLUN block.Result fuel w5 = (.failed, w6)) :
    d.CreateVolume fuel req w0 =
        (.error .Internal "Failed to get ISCSI Block based LUN readiness", w6) ∧
      ∃ n, w6.calls =
        w0.calls ++ [Call.Login, Call.GetStorageISCSITargetList,
          Call.CreateStorageISCSITarget (cleanISCSIName req.Name) false false true,
          Call.CreateStorageISCSIInitiator targetIndex false "" "" false "" "",
          Call.CreateStorageISCSIBlockLUN (cleanISCSIName req.Name) d.storagePoolID
            (Int.tdiv size (1 * giB)) false 512 false false false false] ++
          List.replicate n (Call.GetStorageISCSILun block.Result) := by
  have hc1 := Driver.Login_calls d w0 w1 _ hlogin
  have hc2 := Driver.GetStorageISCSITargetList_calls d w1 w2 _ hlist
  have hc3 := Driver.CreateStorageISCSITarget_calls d _ _ _ _ w2 w3 _ htarget
  have hc4 := Driver.CreateStorageISCSIInitiator_calls d _ _ _ _ _ _ _ w3 w4 _ hinit
  have hc5 := Driver.CreateStorageISCSIBlockLUN_calls d _ _ _ _ _ _ _ _ _ w4 w5 _ hlun
  have hany := any_name_false _ _ hfree
  simp only [one_mul] at hlun hc5
  refine ⟨?_, ?_⟩
  · simp [Driver.CreateVolume, hname, hcaps, hvalid, hsize, hlogin, hlist, hany, htarget,
      hinit, hlun, hpoll]
  · obtain ⟨n, _, hn⟩ := Driver.waitForLUN_calls d block.Result fuel w5
    rw [hpoll] at hn
    simp only at hn
    exact ⟨n, by simp [hn, hc1, hc2, hc3, hc4, hc5]⟩

/-- C9, on the in-memory appliance whose status query fails: the target `myvolume` (index
20) and the LUN (index 21) stay on the appliance and no delete is among the calls. -/
theorem CreateVolume_poll_failure_no_rollback_witness :
    (MemNAS.driver.CreateVolume 10 sampleCreateRequest
        (MemNAS.fresh (MemNAS.threeTargets [Op.GetStorageISCSILun]))).1 =
        .error .Internal "Failed to get ISCSI Block based LUN readiness" ∧
      (MemNAS.driver.CreateVolume 10 sampleCreateRequest
        (MemNAS.fresh (MemNAS.threeTargets [Op.GetStorageISCSILun]))).2.calls =
        [Call.Login, Call.GetStorageISCSITargetList,
          Call.CreateStorageISCSITarget "myvolume" false false true,
          Call.CreateStorageISCSIInitiator 20 false "" "" false "" "",
          Call.CreateStorageISCSIBlockLUN "myvolume" 1 16 false 512 false false false false,
          Call.GetStorageISCSILun 21] ∧
      MemNAS.target 20 "myvolume" [] ∈
        (MemNAS.driver.CreateVolume 10 sampleCreateRequest
          (MemNAS.fresh (MemNAS.threeTargets [Op.GetStorageISCSILun]))).2.nas.targets ∧
      (21, 2) ∈
        (MemNAS.driver.CreateVolume 10 sampleCreateRequest
          (MemNAS.fresh (MemNAS.threeTargets [Op.GetStorageISCSILun]))).2.nas.luns :=
  have h := CreateVolume_poll_failure_no_rollback MemNAS.driver 10 sampleCreateRequest
    17179869184 (MemNAS.fresh (MemNAS.threeTargets [Op.GetStorageISCSILun])) _ _ _ _ _ _
    ⟨(MemNAS.threeTargets [Op.GetStorageISCSILun]).targets⟩ 20 ⟨21, 0⟩
    (by decide) (by decide) (by decide) (by decide) rfl rfl (by decide) rfl rfl rfl rfl
  ⟨congrArg Prod.fst h.1, by decide, by decide, by decide⟩

/-- On the in-memory appliance that accepts target deletes, a failed initiator or LUN
creation leaves no target of the requested name in the listing. -/
theorem MemNAS.CreateVolume_rollback_listing (s : MemNAS) (fuel : Nat)
    (req : CreateVolumeRequest) (size : Int)
    (hname : req.Name ≠ "")
    (hcaps : req.VolumeCapabilities ≠ [])
    (hvalid : validateCapabilities req.VolumeCapabilities = [])
    (hsize : extractStorage req.CapacityRange = .ok size)
    (hlogin : Op.Login ∉ s.failing)
    (hlist : Op.GetStorageISCSITargetList ∉ s.failing)
    (htarget : Op.CreateStorageISCSITarget ∉ s.failing)
    (hdelete : Op.DeleteStorageISCSITarget ∉ s.failing)
    (hfail : Op.CreateStorageISCSIInitiator ∈ s.failing ∨
      Op.CreateStorageISCSIBlockLUN ∈ s.failing)
    (hfree : ∀ t ∈ s.targets, t.Name ≠ cleanISCSIName req.Name) :
    (∃ msg, (MemNAS.driver.CreateVolume fuel req (MemNAS.fresh s)).1 =
        .error .Internal msg) ∧
      ∃ targetList,
        (MemNAS.driver.GetStorageISCSITargetList
          (MemNAS.driver.CreateVolume fuel req (MemNAS.fresh s)).2).1 = .ok targetList ∧
        ∀ t ∈ targetList.Targets, t.Name ≠ cleanISCSIName req.Name := by
  have hany := any_name_false _ _ hfree
  have hfilter : ∀ t ∈ List.filter (fun t => decide (t.TargetIndex ≠ s.nextIndex))
      (s.targets ++ [⟨s.nextIndex, cleanISCSIName req.Name,
        "iqn.2004-04.com.qnap:ts:iscsi." ++ cleanISCSIName req.Name,
        cleanISCSIName req.Name, "0", []⟩]), t.Name ≠ cleanISCSIName req.Name := by
    intro t ht
    rw [List.mem_filter, List.mem_append] at ht
    obtain ⟨hmem | hmem, hidx⟩ := ht
    · exact hfree t hmem
    · simp only [List.mem_singleton] at hmem
      subst hmem
      simp at hidx
  by_cases hinit : Op.CreateStorageISCSIInitiator ∈ s.failing
  · simp [Driver.CreateVolume, hname, hcaps, hvalid, hsize, MemNAS.driver, MemNAS.client,
      MemNAS.fresh, Driver.Login, Driver.GetStorageISCSITargetList,
      Driver.CreateStorageISCSITarget, Driver.CreateStorageISCSIInitiator,
      Driver.DeleteStorageISCSITarget, MemNAS.errorOnly, MemNAS.getTargetList,
      MemNAS.createTarget, MemNAS.removeTarget, hlogin, hlist, htarget, hdelete, hinit, hany]
    simpa using hfilter
  · have hlun : Op.CreateStorageISCSIBlockLUN ∈ s.failing := by
      rcases hfail with h | h
      · exact absurd h hinit
      · exact h
    simp [Driver.CreateVolume, hname, hcaps, hvalid, hsize, MemNAS.driver, MemNAS.client,
      MemNAS.fresh, Driver.Login, Driver.GetStorageISCSITargetList,
      Driver.CreateStorageISCSITarget, Driver.CreateStorageISCSIInitiator,
      Driver.CreateStorageISCSIBlockLUN, MemNAS.createBlockLUN,
      Driver.DeleteStorageISCSITarget, MemNAS.errorOnly, MemNAS.getTargetList,
      MemNAS.createTarget, MemNAS.removeTarget, hlogin, hlist, htarget, hdelete, hinit, hlun,
      hany]
    simpa using hfilter

/-- C10: with a request that passes validation, login and listing succeeding, no target of
the name listed and the target created with index `targetIndex`: if the initiator creation
fails, or it succeeds and the LUN creation fails, `CreateVolume` returns an Internal error
and the calls it issued are the login, the listing, the creates up to the failing one and
then one delete of target `targetIndex`; no LUN delete is issued. On the in-memory
appliance, which accepts the delete, a listing after such a run has no target of that
name. -/
theorem CreateVolume_early_failure_deletes_target_once :
    (∀ {σ : Type} (d : Driver σ) (fuel : Nat) (req : CreateVolumeRequest) (size : Int)
        (w0 w1 w2 w3 w4 : World σ) (targetList : StorageISCSITargetListRespXML)
        (targetIndex : Int) (e : String),
        req.Name ≠ "" → req.VolumeCapabilities ≠ [] →
        validateCapabilities req.VolumeCapabilities = [] →
        extractStorage req.CapacityRange = .ok size →
        d.Login w0 = (none, w1) →
        d.GetStorageISCSITargetList w1 = (.ok targetList, w2) →
        (∀ t ∈ targetList.Targets, t.Name ≠ cleanISCSIName req.Name) →
        d.CreateStorageISCSITarget (cleanISCSIName req.Name) false false true w2 =
          (.ok targetIndex, w3) →
        d.CreateStorageISCSIInitiator targetIndex false "" "" false "" "" w3 = (some e, w4) →
        d.CreateVolume fuel req w0 =
            (.error .Internal "Failed to create ISCSI initator",
              (d.DeleteStorageISCSITarget targetIndex w4).2) ∧
          (d.CreateVolume fuel req w0).2.calls =
            w0.calls ++ [Call.Login, Call.GetStorageISCSITargetList,
              Call.CreateStorageISCSITarget (cleanISCSIName req.Name) false false true,
              Call.CreateStorageISCSIInitiator targetIndex false "" "" false "" "",
              Call.DeleteStorageISCSITarget targetIndex]) ∧
      (∀ {σ : Type} (d : Driver σ) (fuel : Nat) (req : CreateVolumeRequest) (size : Int)
        (w0 w1 w2 w3 w4 w5 : World σ) (targetList : StorageISCSITargetListRespXML)
        (targetIndex : Int) (e : String),
        req.Name ≠ "" → req.VolumeCapabilities ≠ [] →
        validateCapabilities req.VolumeCapabilities = [] →
        extractStorage req.CapacityRange = .ok size →
        d.Login w0 = (none, w1) →
        d.GetStorageISCSITargetList w1 = (.ok targetList, w2) →
        (∀ t ∈ targetList.Targets, t.Name ≠ cleanISCSIName req.Name) →
        d.CreateStorageISCSITarget (cleanISCSIName req.Name) false false true w2 =
          (.ok targetIndex, w3) →
        d.CreateStorageISCSIInitiator targetIndex false "" "" false "" "" w3 = (none, w4) →
        d.CreateStorageISCSIBlockLUN (cleanISCSIName req.Name) d.storagePoolID
          (Int.tdiv size (1 * giB)) false 512 false false false false w4 = (.error e, w5) →
        d.CreateVolume fuel req w0 =
            (.error .Internal "Failed to create ISCSI Block based LUN",
              (d.DeleteStorageISCSITarget targetIndex w5).2) ∧
          (d.CreateVolume fuel req w0).2.calls =
            w0.calls ++ [Call.Login, Call.GetStorageISCSITargetList,
              Call.CreateStorageISCSITarget (cleanISCSIName req.Name) false false true,
              Call.CreateStorageISCSIInitiator targetIndex false "" "" false "" "",
              Call.CreateStorageISCSIBlockLUN (cleanISCSIName req.Name) d.storagePoolID
                (Int.tdiv size (1 * giB)) false 512 false false false false,
              Call.DeleteStorageISCSITarget targetIndex]) ∧
      (∀ (s : MemNAS) (fuel : Nat) (req : CreateVolumeRequest) (size : Int),
        req.Name ≠ "" → req.VolumeCapabilities ≠ [] →
        validateCapabilities req.VolumeCapabilities = [] →
        extractStorage req.CapacityRange = .ok size →
        Op.Login ∉ s.failing → Op.GetStorageISCSITargetList ∉ s.failing →
        Op.CreateStorageISCSITarget ∉ s.failing → Op.DeleteStorageISCSITarget ∉ s.failing →
        (Op.CreateStorageISCSIInitiator ∈ s.failing ∨
          Op.CreateStorageISCSIBlockLUN ∈ s.failing) →
        (∀ t ∈ s.targets, t.Name ≠ cleanISCSIName req.Name) →
        (∃ msg, (MemNAS.driver.CreateVolume fuel req (MemNAS.fresh s)).1 =
            .error .Internal msg) ∧
          ∃ targetList,
            (MemNAS.driver.GetStorageISCSITargetList
              (MemNAS.driver.CreateVolume fuel req (MemNAS.fresh s)).2).1 = .ok targetList ∧
            ∀ t ∈ targetList.Targets, t.Name ≠ cleanISCSIName req.Name) := by
  refine ⟨?_, ?_, ?_⟩
  · intro σ d fuel req size w0 w1 w2 w3 w4 targetList targetIndex e hname hcaps hvalid hsize
      hlogin hlist hfree htarget hinit
    have hc1 := Driver.Login_calls d w0 w1 _ hlogin
    have hc2 := Driver.GetStorageISCSITargetList_calls d w1 w2 _ hlist
    have hc3 := Driver.CreateStorageISCSITarget_calls d _ _ _ _ w2 w3 _ htarget
    have hc4 := Driver.CreateStorageISCSIInitiator_calls d _ _ _ _ _ _ _ w3 w4 _ hinit
    have hany := any_name_false _ _ hfree
    have hrun : d.CreateVolume fuel req w0 =
        (.error .Internal "Failed to create ISCSI initator",
          (d.DeleteStorageISCSITarget targetIndex w4).2) := by
      simp [Driver.CreateVolume, hname, hcaps, hvalid, hsize, hlogin, hlist, hany, htarget,
        hinit]
    refine ⟨hrun, ?_⟩
    rw [hrun]
    simp [Driver.DeleteStorageISCSITarget, hc4, hc3, hc2, hc1]
  · intro σ d fuel req size w0 w1 w2 w3 w4 w5 targetList targetIndex e hname hcaps hvalid
      hsize hlogin hlist hfree htarget hinit hlun
    have hc1 := Driver.Login_calls d w0 w1 _ hlogin
    have hc2 := Driver.GetStorageISCSITargetList_calls d w1 w2 _ hlist
    have hc3 := Driver.CreateStorageISCSITarget_calls d _ _ _ _ w2 w3 _ htarget
    have hc4 := Driver.CreateStorageISCSIInitiator_calls d _ _ _ _ _ _ _ w3 w4 _ hinit
    have hc5 := Driver.CreateStorageISCSIBlockLUN_calls d _ _ _ _ _ _ _ _ _ w4 w5 _ hlun
    have hany := any_name_false _ _ hfree
    simp only [one_mul] at hlun hc5
    have hrun : d.CreateVolume fuel req w0 =
        (.error .Internal "Failed to create ISCSI Block based LUN",
          (d.DeleteStorageISCSITarget targetIndex w5).2) := by
      simp [Driver.CreateVolume, hname, hcaps, hvalid, hsize, hlogin, hlist, hany, htarget,
        hinit, hlun]
    refine ⟨hrun, ?_⟩
    rw [hrun]
    simp [Driver.DeleteStorageISCSITarget, hc5, hc4, hc3, hc2, hc1]
  · intro s fuel req size hname hcaps hvalid hsize hlogin hlist htarget hdelete hfail hfree
    exact MemNAS.CreateVolume_rollback_listing s fuel req size hname hcaps hvalid hsize hlogin
      hlist htarget hdelete hfail hfree

/-- C10, on the in-memory appliance: the LUN creation fails for the request `My Volume!`,
the only delete is that of target 20, and `myvolume` is not listed afterwards. -/
theorem CreateVolume_early_failure_deletes_target_once_witness :
    (MemNAS.driver.CreateVolume 10 sampleCreateRequest
        (MemNAS.fresh (MemNAS.threeTargets [Op.CreateStorageISCSIBlockLUN]))).1 =
        .error .Internal "Failed to create ISCSI Block based LUN" ∧
      (MemNAS.driver.CreateVolume 10 sampleCreateRequest
        (MemNAS.fresh (MemNAS.threeTargets [Op.CreateStorageISCSIBlockLUN]))).2.calls =
        [Call.Login, Call.GetStorageISCSITargetList,
          Call.CreateStorageISCSITarget "myvolume" false false true,
          Call.CreateStorageISCSIInitiator 20 false "" "" false "" "",
          Call.CreateStorageISCSIBlockLUN "myvolume" 1 16 false 512 false false false false,
          Call.DeleteStorageISCSITarget 20] ∧
      (MemNAS.driver.CreateVolume 10 sampleCreateRequest
        (MemNAS.fresh (MemNAS.threeTargets [Op.CreateStorageISCSIInitiator]))).2.calls =
        [Call.Login, Call.GetStorageISCSITargetList,
          Call.CreateStorageISCSITarget "myvolume" false false true,
          Call.CreateStorageISCSIInitiator 20 false "" "" false "" "",
          Call.DeleteStorageISCSITarget 20] ∧
      ∃ targetList,
        (MemNAS.driver.GetStorageISCSITargetList
          (MemNAS.driver.CreateVolume 10 sampleCreateRequest
            (MemNAS.fresh (MemNAS.threeTargets [Op.CreateStorageISCSIBlockLUN]))).2).1 =
          .ok targetList ∧
        ∀ t ∈ targetList.Targets, t.Name ≠ cleanISCSIName sampleCreateRequest.Name :=
  have hlun := CreateVolume_early_failure_deletes_target_once.2.1 MemNAS.driver 10
    sampleCreateRequest 17179869184
    (MemNAS.fresh (MemNAS.threeTargets [Op.CreateStorageISCSIBlockLUN])) _ _ _ _ _
    ⟨(MemNAS.threeTargets [Op.CreateStorageISCSIBlockLUN]).targets⟩ 20 "unknown error occurred"
    (by decide) (by decide) (by decide) (by decide) rfl rfl (by decide) rfl rfl rfl
  have hinit := CreateVolume_early_failure_deletes_target_once.1 MemNAS.driver 10
    sampleCreateRequest 17179869184
    (MemNAS.fresh (MemNAS.threeTargets [Op.CreateStorageISCSIInitiator])) _ _ _ _
    ⟨(MemNAS.threeTargets [Op.CreateStorageISCSIInitiator]).targets⟩ 20 "unknown error occurred"
    (by decide) (by decide) (by decide) (by decide) rfl rfl (by decide) rfl rfl
  have hmem := CreateVolume_early_failure_deletes_target_once.2.2
    (MemNAS.threeTargets [Op.CreateStorageISCSIBlockLUN]) 10 sampleCreateRequest 17179869184
    (by decide) (by decide) (by decide) (by decide) (by decide) (by decide) (by decide)
    (by decide) (by decide) (by decide)
  ⟨congrArg Prod.fst hlun.1, hlun.2, hinit.2, hmem.2⟩


namespace Driver

variable {σ : Type}

theorem AttachStorageISCSITargetLUN_calls (d : Driver σ) (lunIndex targetIndex : Int)
    (w w1 : World σ) (r : Option String)
    (h : d.AttachStorageISCSITargetLUN lunIndex targetIndex w = (r, w1)) :
    w1.calls = w.calls ++ [Call.AttachStorageISCSITargetLUN lunIndex targetIndex] := by
  simp only [Driver.AttachStorageISCSITargetLUN, Prod.mk.injEq] at h
  rw [← h.2]

/-- A wait that ends within `fuel` status queries ends the same way with more fuel. -/
theorem waitForLUN_mono (d : Driver σ) (lunID : Int) (fuel : Nat) :
    ∀ (w w1 : World σ) (r : PollResult), r ≠ PollResult.outOfFuel →
      d.waitForLUN lunID fuel w = (r, w1) →
      ∀ more, fuel ≤ more → d.waitForLUN lunID more w = (r, w1) := by
  induction fuel with
  | zero =>
    intro w w1 r hr h
    simp only [Driver.waitForLUN, Prod.mk.injEq] at h
    exact absurd h.1.symm hr
  | succ fuel ih =>
    intro w w1 r hr h more hmore
    obtain ⟨m, rfl⟩ : ∃ m, more = m + 1 := ⟨more - 1, by omega⟩
    rcases hq : d.GetStorageISCSILun lunID w with ⟨q, w2⟩
    cases q with
    | error e =>
      simp only [Driver.waitForLUN, hq] at h ⊢
      exact h
    | ok lunInfo =>
      by_cases hs : lunInfo.StatusString = "creating"
      · simp only [Driver.waitForLUN, hq, hs, if_true] at h ⊢
        exact ih w2 w1 r hr h m (by omega)
      · simp only [Driver.waitForLUN, hq, hs, if_false] at h ⊢
        exact h

/-- A wait that ends with `done` issued at least one status query. -/
theorem waitForLUN_done_calls (d : Driver σ) (lunID : Int) (fuel : Nat) (w w1 : World σ)
    (h : d.waitForLUN lunID fuel w = (.done, w1)) :
    ∃ n, w1.calls = w.calls ++ List.replicate (n + 1) (Call.GetStorageISCSILun lunID) := by
  obtain ⟨n, _, hn⟩ := waitForLUN_calls d lunID fuel w
  rw [h] at hn
  simp only at hn
  cases n with
  | zero =>
    cases fuel with
    | zero => simp [Driver.waitForLUN] at h
    | succ f =>
      rcases hq : d.GetStorageISCSILun lunID w with ⟨q, w2⟩
      have hc := GetStorageISCSILun_calls d lunID w w2 q hq
      cases q with
      | error e => simp [Driver.waitForLUN, hq] at h
      | ok lunInfo =>
        by_cases hs : lunInfo.StatusString = "creating"
        · simp only [Driver.waitForLUN, hq, hs, if_true] at h
          obtain ⟨k, _, hk⟩ := waitForLUN_calls d lunID f w2
          rw [h] at hk
          simp only at hk
          rw [hk, hc] at hn
          simp at hn
        · simp only [Driver.waitForLUN, hq, hs, if_false, Prod.mk.injEq, true_and] at h
          subst h
          rw [hc] at hn
          simp at hn
  | succ k => exact ⟨k, hn⟩

end Driver

/-- C11: with a request that passes validation and every step up to the wait for the LUN
succeeding, a failing attach makes `CreateVolume` return the Internal error of the attach
failure after issuing the delete of the created target and then the delete of the created
LUN. No assumption is made on the two deletes: the result is the same whether they
succeed or fail. -/
theorem CreateVolume_attach_failure_deletes_target_and_LUN {σ : Type} (d : Driver σ)
    (fuel : Nat) (req : CreateVolumeRequest) (size : Int)
    (w0 w1 w2 w3 w4 w5 w6 w7 : World σ)
    (targetList : StorageISCSITargetListRespXML) (targetIndex : Int)
    (block : StorageISCSICreateBlockLUNRespXML) (e : String)
    (hname : req.Name ≠ "")
    (hcaps : req.VolumeCapabilities ≠ [])
    (hvalid : validateCapabilities req.VolumeCapabilities = [])
    (hsize : extractStorage req.CapacityRange = .ok size)
    (hlogin : d.Login w0 = (none, w1))
    (hlist : d.GetStorageISCSITargetList w1 = (.ok targetList, w2))
    (hfree : ∀ t ∈ targetList.Targets, t.Name ≠ cleanISCSIName req.Name)
    (htarget : d.CreateStorageISCSITarget (cleanISCSIName req.Name) false false true w2 =
      (.ok targetIndex, w3))
    (hinit : d.CreateStorageISCSIInitiator targetIndex false "" "" false "" "" w3 = (none, w4))
    (hlun : d.CreateStorageISCSIBlockLUN (cleanISCSIName req.Name) d.storagePoolID
      (Int.tdiv size (1 * giB)) false 512 false false false false w4 = (.ok block, w5))
    (hpoll : d.waitForLUN block.Result fuel w5 = (.done, w6))
    (hattach : d.AttachStorageISCSITargetLUN block.Result targetIndex w6 = (some e, w7)) :
    d.CreateVolume fuel req w0 =
        (.error .Internal "Failed to associate LUN with ISCSI target",
          (d.DeleteStorageISCSIBlockLUN block.Result false
            (d.DeleteStorageISCSITarget targetIndex w7).2).2) ∧
      ∃ n, (d.CreateVolume fuel req w0).2.calls =
        w0.calls ++ [Call.Login, Call.GetStorageISCSITargetList,
          Call.CreateStorageISCSITarget (cleanISCSIName req.Name) false false true,
          Call.CreateStorageISCSIInitiator targetIndex false "" "" false "" "",
          Call.CreateStorageISCSIBlockLUN (cleanISCSIName req.Name) d.storagePoolID
            (Int.tdiv size (1 * giB)) false 512 false false false false] ++
          List.replicate (n + 1) (Call.GetStorageISCSILun block.Result) ++
          [Call.AttachStorageISCSITargetLUN block.Result targetIndex,
            Call.DeleteStorageISCSITarget targetIndex,
            Call.DeleteStorageISCSIBlockLUN block.Result false] := by
  have hc1 := Driver.Login_calls d w0 w1 _ hlogin
  have hc2 := Driver.GetStorageISCSITargetList_calls d w1 w2 _ hlist
  have hc3 := Driver.CreateStorageISCSITarget_calls d _ _ _ _ w2 w3 _ htarget
  have hc4 := Driver.CreateStorageISCSIInitiator_calls d _ _ _ _ _ _ _ w3 w4 _ hinit
  have hc5 := Driver.CreateStorageISCSIBlockLUN_calls d _ _ _ _ _ _ _ _ _ w4 w5 _ hlun
  obtain ⟨n, hc6⟩ := Driver.waitForLUN_done_calls d _ fuel w5 w6 hpoll
  have hc7 := Driver.AttachStorageISCSITargetLUN_calls d _ _ w6 w7 _ hattach
  have hany := any_name_false _ _ hfree
  simp only [one_mul] at hlun hc5
  have hrun : d.CreateVolume fuel req w0 =
      (.error .Internal "Failed to associate LUN with ISCSI target",
        (d.DeleteStorageISCSIBlockLUN block.Result false
          (d.DeleteStorageISCSITarget targetIndex w7).2).2) := by
    simp [Driver.CreateVolume, hname, hcaps, hvalid, hsize, hlogin, hlist, hany, htarget,
      hinit, hlun, hpoll, hattach]
  refine ⟨hrun, n, ?_⟩
  rw [hrun]
  simp [Driver.DeleteStorageISCSIBlockLUN, Driver.DeleteStorageISCSITarget, hc7, hc6, hc5,
    hc4, hc3, hc2, hc1]

/-- C11, on the in-memory appliance that rejects the attach: once with both deletes
accepted, once with both deletes rejected; the result is the same error. -/
theorem CreateVolume_attach_failure_deletes_target_and_LUN_witness :
    (MemNAS.driver.CreateVolume 10 sampleCreateRequest
        (MemNAS.fresh (MemNAS.threeTargets [Op.AttachStorageISCSITargetLUN]))).1 =
        .error .Internal "Failed to associate LUN with ISCSI target" ∧
      (MemNAS.driver.CreateVolume 10 sampleCreateRequest
        (MemNAS.fresh (MemNAS.threeTargets [Op.AttachStorageISCSITargetLUN,
          Op.DeleteStorageISCSITarget, Op.DeleteStorageISCSIBlockLUN]))).1 =
        .error .Internal "Failed to associate LUN with ISCSI target" ∧
      (MemNAS.driver.CreateVolume 10 sampleCreateRequest
        (MemNAS.fresh (MemNAS.threeTargets [Op.AttachStorageISCSITargetLUN]))).2.calls =
        [Call.Login, Call.GetStorageISCSITargetList,
          Call.CreateStorageISCSITarget "myvolume" false false true,
          Call.CreateStorageISCSIInitiator 20 false "" "" false "" "",
          Call.CreateStorageISCSIBlockLUN "myvolume" 1 16 false 512 false false false false,
          Call.GetStorageISCSILun 21, Call.GetStorageISCSILun 21, Call.GetStorageISCSILun 21,
          Call.AttachStorageISCSITargetLUN 21 20,
          Call.DeleteStorageISCSITarget 20,
          Call.DeleteStorageISCSIBlockLUN 21 false] :=
  have h1 := CreateVolume_attach_failure_deletes_target_and_LUN MemNAS.driver 10
    sampleCreateRequest 17179869184
    (MemNAS.fresh (MemNAS.threeTargets [Op.AttachStorageISCSITargetLUN])) _ _ _ _ _ _ _
    ⟨(MemNAS.threeTargets [Op.AttachStorageISCSITargetLUN]).targets⟩ 20 ⟨21, 0⟩
    "unknown error occurred"
    (by decide) (by decide) (by decide) (by decide) rfl rfl (by decide) rfl rfl rfl rfl rfl
  have h2 := CreateVolume_attach_failure_deletes_target_and_LUN MemNAS.driver 10
    sampleCreateRequest 17179869184
    (MemNAS.fresh (MemNAS.threeTargets [Op.AttachStorageISCSITargetLUN,
      Op.DeleteStorageISCSITarget, Op.DeleteStorageISCSIBlockLUN])) _ _ _ _ _ _ _
    ⟨(MemNAS.threeTargets [Op.AttachStorageISCSITargetLUN,
      Op.DeleteStorageISCSITarget, Op.DeleteStorageISCSIBlockLUN]).targets⟩ 20 ⟨21, 0⟩
    "unknown error occurred"
    (by decide) (by decide) (by decide) (by decide) rfl rfl (by decide) rfl rfl rfl rfl rfl
  ⟨congrArg Prod.fst h1.1, congrArg Prod.fst h2.1, by decide⟩

/-- C12: for a request that passes validation, with login and listing succeeding, if a
listed target has the normalized request name, `CreateVolume` fails with AlreadyExists and
the only calls issued are the login and the listing: no create, attach or delete. -/
theorem CreateVolume_existing_name_already_exists {σ : Type} (d : Driver σ)
    (fuel : Nat) (req : CreateVolumeRequest) (size : Int) (w0 w1 w2 : World σ)
    (targetList : StorageISCSITargetListRespXML)
    (hname : req.Name ≠ "")
    (hcaps : req.VolumeCapabilities ≠ [])
    (hvalid : validateCapabilities req.VolumeCapabilities = [])
    (hsize : extractStorage req.CapacityRange = .ok size)
    (hlogin : d.Login w0 = (none, w1))
    (hlist : d.GetStorageISCSITargetList w1 = (.ok targetList, w2))
    (hexists : ∃ t ∈ targetList.Targets, t.Name = cleanISCSIName req.Name) :
    d.CreateVolume fuel req w0 = (.error .AlreadyExists "Volume already exists", w2) ∧
      (d.CreateVolume fuel req w0).2.calls =
        w0.calls ++ [Call.Login, Call.GetStorageISCSITargetList] := by
  have hc1 := Driver.Login_calls d w0 w1 _ hlogin
  have hc2 := Driver.GetStorageISCSITargetList_calls d w1 w2 _ hlist
  have hany : targetList.Targets.any
      (fun target => decide (target.Name = cleanISCSIName req.Name)) = true := by
    rw [List.any_eq_true]
    obtain ⟨t, ht, hn⟩ := hexists
    exact ⟨t, ht, by simpa using hn⟩
  have hrun : d.CreateVolume fuel req w0 =
      (.error .AlreadyExists "Volume already exists", w2) := by
    simp [Driver.CreateVolume, hname, hcaps, hvalid, hsize, hlogin, hlist, hany]
  refine ⟨hrun, ?_⟩
  rw [hrun]
  simp [hc2, hc1]

/-- C12, on the in-memory appliance: the request named `VOL-2` normalizes to `vol2`, which
is listed. -/
theorem CreateVolume_existing_name_already_exists_witness :
    cleanISCSIName "VOL-2" = "vol2" ∧
      (MemNAS.driver.CreateVolume 10 { sampleCreateRequest with Name := "VOL-2" }
        (MemNAS.fresh (MemNAS.threeTargets []))).1 =
        .error .AlreadyExists "Volume already exists" ∧
      (MemNAS.driver.CreateVolume 10 { sampleCreateRequest with Name := "VOL-2" }
        (MemNAS.fresh (MemNAS.threeTargets []))).2.calls =
        (MemNAS.fresh (MemNAS.threeTargets [])).calls ++
          [Call.Login, Call.GetStorageISCSITargetList] :=
  have h := CreateVolume_existing_name_already_exists MemNAS.driver 10
    { sampleCreateRequest with Name := "VOL-2" } 17179869184
    (MemNAS.fresh (MemNAS.threeTargets [])) _ _ ⟨(MemNAS.threeTargets []).targets⟩
    (by decide) (by decide) (by decide) (by decide) rfl rfl (by decide)
  ⟨by decide, congrArg Prod.fst h.1, h.2⟩


/-- C13: for a request that passes validation, against an appliance on which every call
succeeds, no target of the normalized name is listed at first, the LUN stops being
`creating` within `fuel` status queries and the final listing has the target with a
non-empty IQN: with at least that much fuel `CreateVolume` issues, in this order, the
login, the listing, the creation of the target, of the initiator and of the LUN (with
capacity the resolved size divided by 1 GiB), the status queries, the attach and the
listing, and returns the volume whose id is the normalized name, whose capacity is the
resolved size, and whose context has the listed IQN and LUN number `0`. -/
theorem CreateVolume_all_calls_succeed {σ : Type} (d : Driver σ)
    (fuel : Nat) (req : CreateVolumeRequest) (size : Int)
    (w0 w1 w2 w3 w4 w5 w6 w7 w8 : World σ)
    (targetList targetList2 : StorageISCSITargetListRespXML) (targetIndex : Int)
    (block : StorageISCSICreateBlockLUNRespXML) (target : StorageISCSITargetInfoXML)
    (hname : req.Name ≠ "")
    (hcaps : req.VolumeCapabilities ≠ [])
    (hvalid : validateCapabilities req.VolumeCapabilities = [])
    (hsize : extractStorage req.CapacityRange = .ok size)
    (hlogin : d.Login w0 = (none, w1))
    (hlist : d.GetStorageISCSITargetList w1 = (.ok targetList, w2))
    (hfree : ∀ t ∈ targetList.Targets, t.Name ≠ cleanISCSIName req.Name)
    (htarget : d.CreateStorageISCSITarget (cleanISCSIName req.Name) false false true w2 =
      (.ok targetIndex, w3))
    (hinit : d.CreateStorageISCSIInitiator targetIndex false "" "" false "" "" w3 = (none, w4))
    (hlun : d.CreateStorageISCSIBlockLUN (cleanISCSIName req.Name) d.storagePoolID
      (Int.tdiv size (1 * giB)) false 512 false false false false w4 = (.ok block, w5))
    (hpoll : d.waitForLUN block.Result fuel w5 = (.done, w6))
    (hattach : d.AttachStorageISCSITargetLUN block.Result targetIndex w6 = (none, w7))
    (hlist2 : d.GetStorageISCSITargetList w7 = (.ok targetList2, w8))
    (hfound : targetList2.Targets.find? (fun t => t.Name = cleanISCSIName req.Name) =
      some target)
    (hiqn : target.IQN ≠ "") :
    (∀ more, fuel ≤ more →
      d.CreateVolume more req w0 =
        (.ok { Volume := {
            VolumeId := cleanISCSIName req.Name
            CapacityBytes := size
            VolumeContext := [("targetPortal", d.portal), ("iqn", target.IQN), ("lun", "0"),
              ("portals", "[]")] } }, w8)) ∧
      ∃ n, w8.calls =
        w0.calls ++ [Call.Login, Call.GetStorageISCSITargetList,
          Call.CreateStorageISCSITarget (cleanISCSIName req.Name) false false true,
          Call.CreateStorageISCSIInitiator targetIndex false "" "" false "" "",
          Call.CreateStorageISCSIBlockLUN (cleanISCSIName req.Name) d.storagePoolID
            (Int.tdiv size (1 * giB)) false 512 false false false false] ++
          List.replicate (n + 1) (Call.GetStorageISCSILun block.Result) ++
          [Call.AttachStorageISCSITargetLUN block.Result targetIndex,
            Call.GetStorageISCSITargetList] := by
  have hc1 := Driver.Login_calls d w0 w1 _ hlogin
  have hc2 := Driver.GetStorageISCSITargetList_calls d w1 w2 _ hlist
  have hc3 := Driver.CreateStorageISCSITarget_calls d _ _ _ _ w2 w3 _ htarget
  have hc4 := Driver.CreateStorageISCSIInitiator_calls d _ _ _ _ _ _ _ w3 w4 _ hinit
  have hc5 := Driver.CreateStorageISCSIBlockLUN_calls d _ _ _ _ _ _ _ _ _ w4 w5 _ hlun
  obtain ⟨n, hc6⟩ := Driver.waitForLUN_done_calls d _ fuel w5 w6 hpoll
  have hc7 := Driver.AttachStorageISCSITargetLUN_calls d _ _ w6 w7 _ hattach
  have hc8 := Driver.GetStorageISCSITargetList_calls d w7 w8 _ hlist2
  have hany := any_name_false _ _ hfree
  simp only [one_mul] at hlun hc5
  refine ⟨?_, n, ?_⟩
  · intro more hmore
    have hpoll2 := Driver.waitForLUN_mono d block.Result fuel w5 w6 .done (by decide) hpoll
      more hmore
    simp [Driver.CreateVolume, hname, hcaps, hvalid, hsize, hlogin, hlist, hany, htarget,
      hinit, hlun, hpoll2, hattach, hlist2, hfound, hiqn]
  · simp [hc8, hc7, hc6, hc5, hc4, hc3, hc2, hc1]

/-- C13, on the in-memory appliance: the name `My Volume!` with required 17179869184 and
limit 0 gives the id `myvolume`, the capacity 17179869184 and a LUN of size 16. -/
theorem CreateVolume_all_calls_succeed_witness :
    (MemNAS.driver.CreateVolume 10 sampleCreateRequest
        (MemNAS.fresh (MemNAS.threeTargets []))).1 =
        .ok { Volume := {
          VolumeId := "myvolume"
          CapacityBytes := 17179869184
          VolumeContext := [("targetPortal", "172.20.0.5:3260"),
            ("iqn", "iqn.2004-04.com.qnap:ts:iscsi.myvolume"), ("lun", "0"),
            ("portals", "[]")] } } ∧
      (MemNAS.driver.CreateVolume 10 sampleCreateRequest
        (MemNAS.fresh (MemNAS.threeTargets []))).2.calls =
        [Call.Login, Call.GetStorageISCSITargetList,
          Call.CreateStorageISCSITarget "myvolume" false false true,
          Call.CreateStorageISCSIInitiator 20 false "" "" false "" "",
          Call.CreateStorageISCSIBlockLUN "myvolume" 1 16 false 512 false false false false,
          Call.GetStorageISCSILun 21, Call.GetStorageISCSILun 21, Call.GetStorageISCSILun 21,
          Call.AttachStorageISCSITargetLUN 21 20,
          Call.GetStorageISCSITargetList] :=
  have h := CreateVolume_all_calls_succeed MemNAS.driver 3 sampleCreateRequest 17179869184
    (MemNAS.fresh (MemNAS.threeTargets [])) _ _ _ _ _ _ _ _
    ⟨(MemNAS.threeTargets []).targets⟩
    ⟨(MemNAS.threeTargets []).targets ++ [MemNAS.target 20 "myvolume" [21]]⟩ 20 ⟨21, 0⟩
    (MemNAS.target 20 "myvolume" [21])
    (by decide) (by decide) (by decide) (by decide) rfl rfl (by decide) rfl rfl rfl rfl rfl
    rfl (by decide) (by decide)
  ⟨congrArg Prod.fst (h.1 10 (by decide)), by decide⟩


/-! ## Capability validation -/

theorem stringSetInsert_ne_nil (s : List String) (item : String) :
    stringSetInsert s item ≠ [] := by
  unfold stringSetInsert
  split_ifs with h
  · intro hs
    rw [hs] at h
    simp at h
  · simp

/-- A capability adds no violation exactly when it is single-node-writer with a block or
mount access type; violations are never removed. -/
theorem capabilityViolations_eq_nil (violations : List String) (c : VolumeCapability) :
    capabilityViolations violations c = [] ↔
      violations = [] ∧ c.GetMode = Mode.SINGLE_NODE_WRITER ∧
        (c.AccessType = AccessType.Block ∨ c.AccessType = AccessType.Mount) := by
  unfold capabilityViolations supportedAccessMode
  by_cases hm : c.GetMode = Mode.SINGLE_NODE_WRITER
  · cases ht : c.AccessType <;> simp [hm, stringSetInsert_ne_nil]
  · cases ht : c.AccessType <;> simp [hm, stringSetInsert_ne_nil]

theorem foldl_capabilityViolations_eq_nil (caps : List VolumeCapability) :
    ∀ violations : List String,
      caps.foldl capabilityViolations violations = [] ↔
        violations = [] ∧ ∀ c ∈ caps, c.GetMode = Mode.SINGLE_NODE_WRITER ∧
          (c.AccessType = AccessType.Block ∨ c.AccessType = AccessType.Mount) := by
  induction caps with
  | nil => intro violations; simp
  | cons c rest ih =>
    intro violations
    rw [List.foldl_cons, ih, capabilityViolations_eq_nil]
    simp only [List.mem_cons, forall_eq_or_imp]
    tauto

/-- The function `validateCapabilities` returns no violation exactly when every capability
is single-node-writer with a block or mount access type. -/
theorem validateCapabilities_eq_nil (caps : List VolumeCapability) :
    validateCapabilities caps = [] ↔
      ∀ c ∈ caps, c.GetMode = Mode.SINGLE_NODE_WRITER ∧
        (c.AccessType = AccessType.Block ∨ c.AccessType = AccessType.Mount) := by
  unfold validateCapabilities
  rw [← List.length_eq_zero, List.length_insertionSort, List.length_eq_zero,
    foldl_capabilityViolations_eq_nil]
  simp

/-- After the validation of the request, `CreateVolume` never returns InvalidArgument. -/
theorem CreateVolume_valid_not_InvalidArgument {σ : Type} (d : Driver σ)
    (fuel : Nat) (req : CreateVolumeRequest) (w0 : World σ) (msg : String)
    (hname : req.Name ≠ "")
    (hcaps : req.VolumeCapabilities ≠ [])
    (hvalid : validateCapabilities req.VolumeCapabilities = []) :
    (d.CreateVolume fuel req w0).1 ≠ .error .InvalidArgument msg := by
  simp only [Driver.CreateVolume, hname, hcaps, hvalid, List.length_eq_zero, if_false,
    List.length_nil, gt_iff_lt, lt_self_iff_false]
  repeat' split
  all_goals simp

/-- C14: `CreateVolume` returns InvalidArgument if and only if the name is empty, or the
capability list is empty, or some capability has an access mode other than
single-node-writer or an access type that is neither block nor mount; in that case no call
was issued and the appliance state is untouched. Equivalently `validateCapabilities`
returns the empty list exactly when every capability is single-node-writer with a block or
mount access type. -/
theorem CreateVolume_InvalidArgument_iff {σ : Type} (d : Driver σ) (fuel : Nat)
    (req : CreateVolumeRequest) (w0 : World σ) :
    ((∃ msg, (d.CreateVolume fuel req w0).1 = .error .InvalidArgument msg) ↔
        (req.Name = "" ∨ req.VolumeCapabilities = [] ∨
          ∃ c ∈ req.VolumeCapabilities,
            c.GetMode ≠ Mode.SINGLE_NODE_WRITER ∨
              (c.AccessType ≠ AccessType.Block ∧ c.AccessType ≠ AccessType.Mount))) ∧
      ((∃ msg, (d.CreateVolume fuel req w0).1 = .error .InvalidArgument msg) →
        (d.CreateVolume fuel req w0).2 = w0) ∧
      (validateCapabilities req.VolumeCapabilities = [] ↔
        ∀ c ∈ req.VolumeCapabilities,
          c.GetMode = Mode.SINGLE_NODE_WRITER ∧
            (c.AccessType = AccessType.Block ∨ c.AccessType = AccessType.Mount)) := by
  have hbad : (∃ c ∈ req.VolumeCapabilities,
      c.GetMode ≠ Mode.SINGLE_NODE_WRITER ∨
        (c.AccessType ≠ AccessType.Block ∧ c.AccessType ≠ AccessType.Mount)) ↔
      validateCapabilities req.VolumeCapabilities ≠ [] := by
    rw [Ne, validateCapabilities_eq_nil]
    push_neg
    constructor
    · rintro ⟨c, hc, h⟩
      refine ⟨c, hc, fun hm => ?_⟩
      rcases h with h | h
      · exact absurd hm h
      · exact h
    · rintro ⟨c, hc, h⟩
      refine ⟨c, hc, ?_⟩
      by_cases hm : c.GetMode = Mode.SINGLE_NODE_WRITER
      · exact Or.inr (h hm)
      · exact Or.inl hm
  rw [hbad]
  by_cases hname : req.Name = ""
  · refine ⟨?_, ?_, validateCapabilities_eq_nil _⟩
    · simp [Driver.CreateVolume, hname]
    · intro _
      simp [Driver.CreateVolume, hname]
  · by_cases hcaps : req.VolumeCapabilities = []
    · refine ⟨?_, ?_, validateCapabilities_eq_nil _⟩
      · simp [Driver.CreateVolume, hname, hcaps]
      · intro _
        simp [Driver.CreateVolume, hname, hcaps]
    · by_cases hvalid : validateCapabilities req.VolumeCapabilities = []
      · refine ⟨?_, ?_, validateCapabilities_eq_nil _⟩
        · simp only [hname, hcaps, hvalid, ne_eq, not_true_eq_false, or_self, iff_false,
            not_exists]
          intro msg
          exact CreateVolume_valid_not_InvalidArgument d fuel req w0 msg hname hcaps hvalid
        · rintro ⟨msg, hmsg⟩
          exact absurd hmsg
            (CreateVolume_valid_not_InvalidArgument d fuel req w0 msg hname hcaps hvalid)
      · have hlen : 0 < (validateCapabilities req.VolumeCapabilities).length :=
          List.length_pos.mpr hvalid
        refine ⟨?_, ?_, validateCapabilities_eq_nil _⟩
        · simp [Driver.CreateVolume, hname, hcaps, hvalid, hlen]
        · intro _
          simp [Driver.CreateVolume, hname, hcaps, hlen]

/-- C14, on the in-memory appliance: a multi-writer capability is rejected with
InvalidArgument and no call is issued. -/
theorem CreateVolume_InvalidArgument_iff_witness :
    (MemNAS.driver.CreateVolume 10
        { sampleCreateRequest with
          VolumeCapabilities := [⟨some Mode.MULTI_NODE_MULTI_WRITER, AccessType.Mount⟩] }
        (MemNAS.fresh (MemNAS.threeTargets []))).1 =
        .error .InvalidArgument
          "volume capabilities cannot be satisified: unsupported access mode MULTI_NODE_MULTI_WRITER" ∧
      (MemNAS.driver.CreateVolume 10
        { sampleCreateRequest with
          VolumeCapabilities := [⟨some Mode.MULTI_NODE_MULTI_WRITER, AccessType.Mount⟩] }
        (MemNAS.fresh (MemNAS.threeTargets []))).2.calls = [] :=
  have h := (CreateVolume_InvalidArgument_iff MemNAS.driver 10
    { sampleCreateRequest with
      VolumeCapabilities := [⟨some Mode.MULTI_NODE_MULTI_WRITER, AccessType.Mount⟩] }
    (MemNAS.fresh (MemNAS.threeTargets []))).2.1
    ⟨"volume capabilities cannot be satisified: unsupported access mode MULTI_NODE_MULTI_WRITER",
      by decide⟩
  ⟨by decide, congrArg World.calls h⟩


/-! ## Capacity validation, rule by rule -/

/-- The function `extractStorage` when both bounds are set. -/
theorem extractStorage_both_set (r l : Int) (hr : 0 < r) (hl : 0 < l) :
    extractStorage (some ⟨r, l⟩) =
      if l < r then .error .limitLessThanRequired
      else if l < 1073741824 then .error .limitLessThanMinimum
      else if l % 1073741824 ≠ 0 then .error .limitNotMultiple
      else if r > 137438953472 then .error .requiredExceedsMaximum
      else if r % 1073741824 ≠ 0 then .error .requiredNotMultiple
      else .ok r := by
  simp only [extractStorage, minimum_val, maximum_val, default_val, one_giB_val]
  simp only [hr, hl, decide_True, Bool.not_true, Bool.and_true,
    Bool.true_and, Bool.false_and, ite_true, Bool.false_eq_true,
    Bool.and_eq_true, decide_eq_true_eq, ne_eq, decide_not, Bool.not_eq_true',
    decide_eq_false_iff_not, tmod_giB_of_pos _ hr, tmod_giB_of_pos _ hl, if_false, ite_self]

/-- The function `extractStorage` when only the required bytes are set. -/
theorem extractStorage_required_only (r l : Int) (hr : 0 < r) (hl : ¬ 0 < l) :
    extractStorage (some ⟨r, l⟩) =
      if r < 1073741824 then .error .requiredLessThanMinimum
      else if r > 137438953472 then .error .requiredExceedsMaximum
      else if r % 1073741824 ≠ 0 then .error .requiredNotMultiple
      else .ok r := by
  simp only [extractStorage, minimum_val, maximum_val, default_val, one_giB_val]
  simp only [hr, hl, decide_True, decide_False, Bool.not_true, Bool.not_false,
    Bool.and_true, Bool.true_and, Bool.false_and, Bool.and_false, ite_true, ite_false,
    Bool.false_eq_true, Bool.and_eq_true, decide_eq_true_eq, ne_eq, decide_not,
    Bool.not_eq_true', decide_eq_false_iff_not, tmod_giB_of_pos _ hr, if_false]

/-- The function `extractStorage` when only the limit bytes are set. -/
theorem extractStorage_limit_only (r l : Int) (hr : ¬ 0 < r) (hl : 0 < l) :
    extractStorage (some ⟨r, l⟩) =
      if l < 1073741824 then .error .limitLessThanMinimum
      else if l % 1073741824 ≠ 0 then .error .limitNotMultiple
      else if l > 137438953472 then .error .limitExceedsMaximum
      else .ok l := by
  simp only [extractStorage, minimum_val, maximum_val, default_val, one_giB_val]
  simp only [hr, hl, decide_True, decide_False, Bool.not_true, Bool.not_false,
    Bool.and_true, Bool.true_and, Bool.false_and, Bool.and_false, ite_true, ite_false,
    Bool.false_eq_true, Bool.and_eq_true, decide_eq_true_eq, ne_eq, decide_not,
    Bool.not_eq_true', decide_eq_false_iff_not, tmod_giB_of_pos _ hl, if_false]

/-- The function `extractStorage` when neither bound is set. -/
theorem extractStorage_neither_set (r l : Int) (hr : ¬ 0 < r) (hl : ¬ 0 < l) :
    extractStorage (some ⟨r, l⟩) = .ok 17179869184 := by
  simp only [extractStorage, default_val]
  simp only [hr, hl, decide_False, Bool.not_false, Bool.and_true, ite_true]

/-- The error of `extractStorage` is the first broken rule of the specification's list. -/
theorem extractStorage_error_iff_first_broken (cr : CapacityRange) (e : StorageError) :
    extractStorage (some cr) = .error e ↔ (specBrokenRules cr).head? = some e := by
  obtain ⟨r, l⟩ := cr
  simp only [specBrokenRules, minimum_val, maximum_val, giB_val]
  by_cases hr : 0 < r <;> by_cases hl : 0 < l
  · rw [extractStorage_both_set r l hr hl]
    simp only [hr, hl, true_and, not_true_eq_false, false_and, if_false, List.nil_append]
    by_cases h1 : l < r
    · simp [h1, eq_comm]
    · by_cases h2 : l < 1073741824
      · simp [h1, h2, eq_comm]
      · by_cases h3 : l % 1073741824 ≠ 0
        · simp only [ne_eq] at h3
          simp [h1, h2, h3, eq_comm]
        · simp only [ne_eq, not_not] at h3
          by_cases h4 : r > 137438953472
          · simp [h1, h2, h3, h4, eq_comm]
          · by_cases h5 : r % 1073741824 ≠ 0
            · simp only [ne_eq] at h5
              simp [h1, h2, h3, h4, h5, eq_comm]
            · simp only [ne_eq, not_not] at h5
              simp [h1, h2, h3, h4, h5]
  · rw [extractStorage_required_only r l hr hl]
    simp only [hr, hl, true_and, false_and, not_false_eq_true, not_true_eq_false, if_false,
      List.nil_append, List.append_nil]
    by_cases h1 : r < 1073741824
    · simp [h1, eq_comm]
    · by_cases h4 : r > 137438953472
      · simp [h1, h4, eq_comm]
      · by_cases h5 : r % 1073741824 ≠ 0
        · simp only [ne_eq] at h5
          simp [h1, h4, h5, eq_comm]
        · simp only [ne_eq, not_not] at h5
          simp [h1, h4, h5]
  · rw [extractStorage_limit_only r l hr hl]
    simp only [hr, hl, true_and, false_and, not_false_eq_true, if_false,
      List.nil_append, List.append_nil]
    by_cases h2 : l < 1073741824
    · simp [h2, eq_comm]
    · by_cases h3 : l % 1073741824 ≠ 0
      · simp only [ne_eq] at h3
        simp [h2, h3, eq_comm]
      · simp only [ne_eq, not_not] at h3
        by_cases h4 : l > 137438953472
        · simp [h2, h3, h4, eq_comm]
        · simp [h2, h3, h4]
  · rw [extractStorage_neither_set r l hr hl]
    simp [hr, hl]

/-- C15: `extractStorage` reports the first rule, in the order the specification lists
them, that the input breaks. In particular, for every input with both bounds set and
limit < required the error is the limit-below-required one, whatever else is violated;
and for every input with limit set, limit ≥ required, limit ≥ 1 GiB, limit not a multiple
of 1 GiB and required > 128 GiB the error is the limit-not-a-multiple one, not the
required-exceeds-maximum one. -/
theorem extractStorage_reports_first_broken_rule :
    (∀ (cr : CapacityRange) (e : StorageError),
        extractStorage (some cr) = .error e ↔ (specBrokenRules cr).head? = some e) ∧
      (∀ r l : Int, 0 < r → 0 < l → l < r →
        extractStorage (some ⟨r, l⟩) = .error .limitLessThanRequired) ∧
      (∀ r l : Int, 0 < l → r ≤ l → minimumVolumeSizeInBytes ≤ l → l % giB ≠ 0 →
        maximumVolumeSizeInBytes < r →
        extractStorage (some ⟨r, l⟩) = .error .limitNotMultiple) := by
  refine ⟨extractStorage_error_iff_first_broken, ?_, ?_⟩
  · intro r l hr hl hlt
    rw [extractStorage_both_set r l hr hl]
    simp [hlt]
  · intro r l hl hle hmin hmod hmax
    rw [minimum_val] at hmin
    rw [giB_val] at hmod
    rw [maximum_val] at hmax
    have hr : 0 < r := by omega
    rw [extractStorage_both_set r l hr hl]
    have h1 : ¬ l < r := by omega
    have h2 : ¬ l < 1073741824 := by omega
    simp [h1, h2, hmod]

/-- C15, at inputs that break several rules: limit 1 below required 200 GiB + 1, and limit
129 GiB + 1 with required 129 GiB. -/
theorem extractStorage_reports_first_broken_rule_witness :
    extractStorage (some ⟨214748364801, 1⟩) = .error .limitLessThanRequired ∧
      specBrokenRules ⟨214748364801, 1⟩ =
        [.limitLessThanRequired, .limitLessThanMinimum, .limitNotMultiple,
          .requiredExceedsMaximum, .requiredNotMultiple] ∧
      extractStorage (some ⟨138512695296, 138512695297⟩) = .error .limitNotMultiple ∧
      specBrokenRules ⟨138512695296, 138512695297⟩ =
        [.limitNotMultiple, .requiredExceedsMaximum] :=
  ⟨extractStorage_reports_first_broken_rule.2.1 214748364801 1 (by decide) (by decide)
      (by decide),
    by decide,
    extractStorage_reports_first_broken_rule.2.2 138512695296 138512695297 (by decide)
      (by decide) (by decide) (by decide) (by decide),
    by decide⟩

/-- C16: `extractStorage` returns the default 16 GiB (17179869184 bytes) without error
when the capacity range is absent and whenever neither bound is set (neither is
positive), in particular for required 0 and limit 0. -/
theorem extractStorage_default_when_unset (capRange : Option CapacityRange)
    (h : ∀ cr, capRange = some cr → ¬ 0 < cr.RequiredBytes ∧ ¬ 0 < cr.LimitBytes) :
    extractStorage capRange = .ok defaultVolumeSizeInBytes ∧
      defaultVolumeSizeInBytes = 17179869184 ∧ defaultVolumeSizeInBytes = 16 * giB := by
  refine ⟨?_, default_val, rfl⟩
  cases capRange with
  | none => rfl
  | some cr =>
    obtain ⟨r, l⟩ := cr
    obtain ⟨hr, hl⟩ := h ⟨r, l⟩ rfl
    rw [extractStorage_neither_set r l hr hl, default_val]

/-- C16, for the absent range and for required 0 and limit 0. -/
theorem extractStorage_default_when_unset_witness :
    extractStorage none = .ok 17179869184 ∧
      extractStorage (some ⟨0, 0⟩) = .ok 17179869184 :=
  ⟨default_val ▸ (extractStorage_default_when_unset none (fun _ h => by cases h)).1,
    default_val ▸ (extractStorage_default_when_unset (some ⟨0, 0⟩)
      (fun cr h => by cases h; decide)).1⟩

/-- C17: whenever `extractStorage` succeeds on an input with required set, the result is
required, also when a larger limit is set and when both are equal; whenever it succeeds
with only limit set, the result is limit. -/
theorem extractStorage_ok_value (cr : CapacityRange) (size : Int)
    (h : extractStorage (some cr) = .ok size) :
    (0 < cr.RequiredBytes → size = cr.RequiredBytes) ∧
      (¬ 0 < cr.RequiredBytes → 0 < cr.LimitBytes → size = cr.LimitBytes) := by
  obtain ⟨r, l⟩ := cr
  refine ⟨fun hr => ?_, fun hr hl => ?_⟩
  · by_cases hl : 0 < l
    · rw [extractStorage_both_set r l hr hl] at h
      split_ifs at h
      cases h
      rfl
    · rw [extractStorage_required_only r l hr hl] at h
      split_ifs at h
      cases h
      rfl
  · rw [extractStorage_limit_only r l hr hl] at h
    split_ifs at h
    cases h
    rfl

/-- C17, for required 2 GiB with limit 4 GiB, for both 3 GiB, and for limit 5 GiB alone. -/
theorem extractStorage_ok_value_witness :
    extractStorage (some ⟨2147483648, 4294967296⟩) = .ok 2147483648 ∧
      extractStorage (some ⟨3221225472, 3221225472⟩) = .ok 3221225472 ∧
      extractStorage (some ⟨0, 5368709120⟩) = .ok 5368709120 ∧
      (5368709120 : Int) = (CapacityRange.mk 0 5368709120).LimitBytes :=
  ⟨by decide, by decide, by decide,
    (extractStorage_ok_value ⟨0, 5368709120⟩ 5368709120 (by decide)).2 (by decide)
      (by decide)⟩


/-! ## Resource naming -/

theorem toNat_ofNat_lower : ∀ n, n < 123 → (Char.ofNat n).toNat = n := by
  decide

theorem char_eq_of_toNat_eq (a b : Char) (h : a.toNat = b.toNat) : a = b := by
  rw [← Char.ofNat_toNat a, ← Char.ofNat_toNat b, h]

/-- The lower case of a rune is never an ASCII capital. -/
theorem toLowerRune_not_upper (c : Char) :
    ¬ (65 ≤ (toLowerRune c).toNat ∧ (toLowerRune c).toNat ≤ 90) := by
  unfold toLowerRune
  split_ifs with h1 h2 h3
  · rw [toNat_ofNat_lower _ (by omega)]
    omega
  · decide
  · decide
  · exact h1

/-- Lower-case ASCII letters and digits are their own lower case and are kept. -/
theorem toLowerRune_of_isLowerOrDigit (c : Char) (h : isLowerOrDigit c = true) :
    toLowerRune c = c ∧ isCleanRune c = true := by
  simp only [isLowerOrDigit, Bool.or_eq_true, Bool.and_eq_true, decide_eq_true_eq] at h
  refine ⟨?_, ?_⟩
  · unfold toLowerRune
    split_ifs with h1 h2 h3
    · omega
    · omega
    · omega
    · rfl
  · simp only [isCleanRune, Bool.or_eq_true, Bool.and_eq_true, decide_eq_true_eq]
    omega

/-- On lower-cased runes the class of `cleanRegex` keeps exactly `a` to `z` and `0` to
`9`. -/
theorem isCleanRune_toLowerRune (c : Char) :
    isCleanRune (toLowerRune c) = isLowerOrDigit (toLowerRune c) := by
  have h := toLowerRune_not_upper c
  rw [Bool.eq_iff_iff]
  simp only [isCleanRune, isLowerOrDigit, Bool.or_eq_true, Bool.and_eq_true,
    decide_eq_true_eq]
  omega

theorem cleanISCSIName_toList (s : String) :
    (cleanISCSIName s).toList = (s.toList.map toLowerRune).filter isLowerOrDigit := by
  simp only [cleanISCSIName, String.toList]
  apply List.filter_congr
  intro x hx
  obtain ⟨c, _, rfl⟩ := List.mem_map.mp hx
  exact isCleanRune_toLowerRune c

/-- C18: for every string, `cleanISCSIName` is the string lower-cased with every rune
other than an ASCII letter or digit removed, the remaining runes in their order; every
rune of the result is in `a` to `z` or `0` to `9`. The runes U+212A and U+0130 lower-case
to the ASCII letters `k` and `i` and are therefore kept as such. Both `test-1234` and
`teST.1234` give `test1234`. -/
theorem cleanISCSIName_lowercases_and_strips :
    (∀ s : String,
        (cleanISCSIName s).toList = (s.toList.map toLowerRune).filter isLowerOrDigit ∧
          (cleanISCSIName s).toList.Sublist (s.toList.map toLowerRune) ∧
          ∀ c ∈ (cleanISCSIName s).toList,
            (97 ≤ c.toNat ∧ c.toNat ≤ 122) ∨ (48 ≤ c.toNat ∧ c.toNat ≤ 57)) ∧
      cleanISCSIName "test-1234" = "test1234" ∧
      cleanISCSIName "teST.1234" = "test1234" ∧
      cleanISCSIName (String.mk [Char.ofNat 0x212A, Char.ofNat 0x130]) = "ki" := by
  refine ⟨fun s => ⟨cleanISCSIName_toList s, ?_, ?_⟩, by decide, by decide, by decide⟩
  · rw [cleanISCSIName_toList]
    exact List.filter_sublist _
  · intro c hc
    rw [cleanISCSIName_toList, List.mem_filter] at hc
    simpa [isLowerOrDigit] using hc.2

/-- C19: `cleanISCSIName` is idempotent, and a string made only of the runes `a` to `z` and
`0` to `9` is returned unchanged, such as `test1234`. -/
theorem cleanISCSIName_idempotent :
    (∀ s : String, cleanISCSIName (cleanISCSIName s) = cleanISCSIName s) ∧
      (∀ s : String, (∀ c ∈ s.toList, isLowerOrDigit c = true) → cleanISCSIName s = s) ∧
      cleanISCSIName "test1234" = "test1234" := by
  have hfix : ∀ s : String, (∀ c ∈ s.toList, isLowerOrDigit c = true) →
      cleanISCSIName s = s := by
    intro s hs
    have hmap : s.toList.map toLowerRune = s.toList := by
      conv_rhs => rw [← List.map_id s.toList]
      apply List.map_congr_left
      intro c hc
      exact (toLowerRune_of_isLowerOrDigit c (hs c hc)).1
    have hfilter : s.toList.filter isCleanRune = s.toList := by
      rw [List.filter_eq_self]
      intro c hc
      exact (toLowerRune_of_isLowerOrDigit c (hs c hc)).2
    simp only [cleanISCSIName, hmap, hfilter]
    rfl
  refine ⟨fun s => ?_, hfix, by decide⟩
  apply hfix
  intro c hc
  rw [cleanISCSIName_toList, List.mem_filter] at hc
  exact hc.2

/-- C19, for the string `test1234`. -/
theorem cleanISCSIName_idempotent_witness :
    cleanISCSIName (cleanISCSIName "teST.1234") = cleanISCSIName "teST.1234" ∧
      cleanISCSIName "test1234" = "test1234" :=
  ⟨cleanISCSIName_idempotent.1 "teST.1234",
    cleanISCSIName_idempotent.2.1 "test1234" (by decide)⟩

/-- Runes that differ only in case have the same lower case. -/
theorem toLowerRune_eq_of_sameUpToCase (a b : Char) (h : sameUpToCase a b = true) :
    toLowerRune a = toLowerRune b := by
  simp only [sameUpToCase, Bool.or_eq_true, Bool.and_eq_true, beq_iff_eq,
    decide_eq_true_eq] at h
  rcases h with (h | ⟨⟨h1, h2⟩, h3⟩) | ⟨⟨h1, h2⟩, h3⟩
  · rw [h]
  · have hb : toLowerRune b = b := by
      unfold toLowerRune
      split_ifs <;> first | omega | rfl
    rw [hb]
    unfold toLowerRune
    rw [if_pos ⟨h1, h2⟩]
    apply char_eq_of_toNat_eq
    rw [toNat_ofNat_lower _ (by omega), h3]
  · have ha : toLowerRune a = a := by
      unfold toLowerRune
      split_ifs <;> first | omega | rfl
    rw [ha]
    unfold toLowerRune
    rw [if_pos ⟨h1, h2⟩]
    apply char_eq_of_toNat_eq
    rw [toNat_ofNat_lower _ (by omega), h3]

theorem map_toLowerRune_eq_of_differOnlyInCase :
    ∀ xs ys : List Char, differOnlyInCase xs ys = true →
      xs.map toLowerRune = ys.map toLowerRune
  | [], [], _ => rfl
  | [], _ :: _, h => by simp [differOnlyInCase] at h
  | _ :: _, [], h => by simp [differOnlyInCase] at h
  | a :: as, b :: bs, h => by
    simp only [differOnlyInCase, Bool.and_eq_true] at h
    simp only [List.map_cons, toLowerRune_eq_of_sameUpToCase a b h.1,
      map_toLowerRune_eq_of_differOnlyInCase as bs h.2]

/-- C20: `cleanISCSIName` is case-insensitive: two strings that differ only in the case of
their ASCII letters have the same result. -/
theorem cleanISCSIName_case_insensitive (s t : String)
    (h : differOnlyInCase s.toList t.toList = true) :
    cleanISCSIName s = cleanISCSIName t := by
  simp only [cleanISCSIName, map_toLowerRune_eq_of_differOnlyInCase _ _ h]

/-- C20, for `Test-1234` and `test-1234`; and `Test-1234` and `test1234` both give
`test1234`. -/
theorem cleanISCSIName_case_insensitive_witness :
    differOnlyInCase "Test-1234".toList "test-1234".toList = true ∧
      cleanISCSIName "Test-1234" = cleanISCSIName "test-1234" ∧
      cleanISCSIName "Test-1234" = "test1234" ∧
      cleanISCSIName "test1234" = "test1234" :=
  ⟨by decide, cleanISCSIName_case_insensitive "Test-1234" "test-1234" (by decide),
    by decide, by decide⟩


/-! ## AttachDisk and DetachDisk -/

theorem NodeWorld.step_calls {σ α : Type} (w w1 : NodeWorld σ) (call : NodeCall)
    (r : α × σ) (a : α) (h : w.step call r = (a, w1)) : w1.calls = w.calls ++ [call] := by
  simp only [NodeWorld.step, Prod.mk.injEq] at h
  rw [← h.2]

/-- C21: the branch after the decrement, as the code takes it. With the reference count
`cnt` read at the start, the connector loaded and the target path unmounted: if
`cnt - 1 ≠ 0` `DetachDisk` returns nil after these four calls, so the session and the
persisted connector are kept; this includes `cnt = 0`, where `cnt - 1 ≤ 0`. Only for
`cnt = 1` the session is closed, and when the disconnect succeeds the calls go on with the
logout, the removal of the target path and the deletion of the persisted connector. -/
theorem DetachDisk_after_decrement {σ : Type} (n : NodeEnv σ)
    (targetPath iscsiInfoPath : String) (w0 w1 w2 w3 w4 : NodeWorld σ)
    (device : String) (cnt : Int) (connector : Connector)
    (hdev : w0.step (.GetDeviceNameFromMount targetPath)
      (n.GetDeviceNameFromMount targetPath w0.node) = (.ok (device, cnt), w1))
    (hpath : w1.step (.PathExists targetPath) (n.PathExists targetPath w1.node) =
      (.ok true, w2))
    (hload : w2.step (.GetConnectorFromFile iscsiInfoPath)
      (n.GetConnectorFromFile iscsiInfoPath w2.node) = (.ok connector, w3))
    (humount : w3.step (.Unmount targetPath) (n.Unmount targetPath w3.node) = (none, w4)) :
    w4.calls = w0.calls ++ [NodeCall.GetDeviceNameFromMount targetPath,
        NodeCall.PathExists targetPath, NodeCall.GetConnectorFromFile iscsiInfoPath,
        NodeCall.Unmount targetPath] ∧
      (cnt - 1 ≠ 0 → n.DetachDisk targetPath iscsiInfoPath w0 = (none, w4)) ∧
      (cnt = 0 → n.DetachDisk targetPath iscsiInfoPath w0 = (none, w4)) ∧
      (cnt = 1 → (n.DisconnectVolume connector w4.node).1 = none →
        (n.DetachDisk targetPath iscsiInfoPath w0).2.calls =
          w4.calls ++ [NodeCall.DisconnectVolume connector,
            NodeCall.Disconnect connector.TargetIqn connector.TargetPortals,
            NodeCall.RemoveAll targetPath, NodeCall.Remove iscsiInfoPath]) := by
  have hc1 := NodeWorld.step_calls _ _ _ _ _ hdev
  have hc2 := NodeWorld.step_calls _ _ _ _ _ hpath
  have hc3 := NodeWorld.step_calls _ _ _ _ _ hload
  have hc4 := NodeWorld.step_calls _ _ _ _ _ humount
  have hne : ∀ h : cnt - 1 ≠ 0, n.DetachDisk targetPath iscsiInfoPath w0 = (none, w4) := by
    intro h
    simp only [NodeEnv.DetachDisk, hdev, hpath, hload, humount, h, ne_eq, not_false_eq_true,
      if_true]
  refine ⟨by simp [hc4, hc3, hc2, hc1], hne, ?_, ?_⟩
  · intro h0
    exact hne (by omega)
  · intro h1 hdisc
    subst h1
    have hrun : n.DetachDisk targetPath iscsiInfoPath w0 =
        n.detachSession connector targetPath iscsiInfoPath w4 := by
      simp [NodeEnv.DetachDisk, hdev, hpath, hload, humount]
    rw [hrun]
    simp [NodeEnv.detachSession, NodeWorld.step, hdisc]

/-- C21, on the in-memory node with a live session, the persisted connector and the target
path present but nothing mounted (reference count 0): `DetachDisk` returns nil, the session
stays and the persisted connector stays. -/
theorem DetachDisk_after_decrement_witness :
    (MemNode.env.GetDeviceNameFromMount "/tmp/a"
        { sessions := [sampleConnector.TargetIqn], mounts := [], paths := ["/tmp/a"],
          files := [("/cfg/testvol1.json", sampleConnector)], failing := [] }).1 =
        .ok ("", 0) ∧
      MemNode.env.DetachDisk "/tmp/a" "/cfg/testvol1.json"
          (MemNode.fresh
            { sessions := [sampleConnector.TargetIqn], mounts := [], paths := ["/tmp/a"],
              files := [("/cfg/testvol1.json", sampleConnector)], failing := [] }) =
        (none,
          ⟨{ sessions := [sampleConnector.TargetIqn], mounts := [], paths := ["/tmp/a"],
             files := [("/cfg/testvol1.json", sampleConnector)], failing := [] },
            [NodeCall.GetDeviceNameFromMount "/tmp/a", NodeCall.PathExists "/tmp/a",
              NodeCall.GetConnectorFromFile "/cfg/testvol1.json",
              NodeCall.Unmount "/tmp/a"]⟩) :=
  ⟨by decide,
    (DetachDisk_after_decrement MemNode.env "/tmp/a" "/cfg/testvol1.json"
      (MemNode.fresh
        { sessions := [sampleConnector.TargetIqn], mounts := [], paths := ["/tmp/a"],
          files := [("/cfg/testvol1.json", sampleConnector)], failing := [] })
      _ _ _ _ "" 0 sampleConnector rfl rfl rfl rfl).2.2.1 rfl⟩

/-- C23: the disconnect is missing on the code when the persisting fails. With the connect
succeeding, the target path not a mount point and the directory created, a failing
`PersistConnector` makes `AttachDisk` return the error `unable to create persistence file
for connection` after these four calls only: there is no format-and-mount, and no
disconnect of the session that the connect established. -/
theorem AttachDisk_persist_failure_no_disconnect {σ : Type} (n : NodeEnv σ)
    (b : iscsiDiskMounter) (iscsiInfoPath : String) (w0 w1 w2 w3 w4 : NodeWorld σ)
    (devicePath : String) (checkErr : Option NodeError) (e : NodeError)
    (hconnect : w0.step (.Connect b.connector) (n.Connect b.connector w0.node) =
      (.ok devicePath, w1))
    (hdevice : devicePath ≠ "")
    (hcheck : w1.step (.IsLikelyNotMountPoint b.targetPath)
      (n.IsLikelyNotMountPoint b.targetPath w1.node) = ((true, checkErr), w2))
    (hcheckErr : ∀ err, checkErr = some err → err.isNotExist = true)
    (hmkdir : w2.step (.MkdirAll b.targetPath 488) (n.MkdirAll b.targetPath 488 w2.node) =
      (none, w3))
    (hpersist : w3.step (.PersistConnector b.connector iscsiInfoPath)
      (n.PersistConnector b.connector iscsiInfoPath w3.node) = (some e, w4)) :
    n.AttachDisk b iscsiInfoPath w0 =
        (("", some ⟨"unable to create persistence file for connection", false, none⟩), w4) ∧
      w4.calls = w0.calls ++ [NodeCall.Connect b.connector,
        NodeCall.IsLikelyNotMountPoint b.targetPath, NodeCall.MkdirAll b.targetPath 488,
        NodeCall.PersistConnector b.connector iscsiInfoPath] := by
  have hc1 := NodeWorld.step_calls _ _ _ _ _ hconnect
  have hc2 := NodeWorld.step_calls _ _ _ _ _ hcheck
  have hc3 := NodeWorld.step_calls _ _ _ _ _ hmkdir
  have hc4 := NodeWorld.step_calls _ _ _ _ _ hpersist
  refine ⟨?_, by simp [hc4, hc3, hc2, hc1]⟩
  cases checkErr with
  | none =>
    simp [NodeEnv.AttachDisk, hconnect, hdevice, hcheck, NodeEnv.attachIfNotMounted, hmkdir,
      hpersist]
  | some err =>
    have hex := hcheckErr err rfl
    simp [NodeEnv.AttachDisk, hconnect, hdevice, hcheck, hex, NodeEnv.attachIfNotMounted,
      hmkdir, hpersist]

/-- C23, on the in-memory node whose persisting fails: the session is still live after
`AttachDisk` returned the error, nothing is mounted and no connector is persisted. -/
theorem AttachDisk_persist_failure_no_disconnect_witness :
    (MemNode.env.AttachDisk (sampleMounter "/tmp/a") "/cfg/testvol1.json"
        (MemNode.fresh (MemNode.empty [NodeOp.PersistConnector]))).1 =
        ("", some ⟨"unable to create persistence file for connection", false, none⟩) ∧
      (MemNode.env.AttachDisk (sampleMounter "/tmp/a") "/cfg/testvol1.json"
        (MemNode.fresh (MemNode.empty [NodeOp.PersistConnector]))).2.calls =
        [NodeCall.Connect sampleConnector, NodeCall.IsLikelyNotMountPoint "/tmp/a",
          NodeCall.MkdirAll "/tmp/a" 488,
          NodeCall.PersistConnector sampleConnector "/cfg/testvol1.json"] ∧
      (MemNode.env.AttachDisk (sampleMounter "/tmp/a") "/cfg/testvol1.json"
        (MemNode.fresh (MemNode.empty [NodeOp.PersistConnector]))).2.node.sessions =
        [sampleConnector.TargetIqn] ∧
      (MemNode.env.AttachDisk (sampleMounter "/tmp/a") "/cfg/testvol1.json"
        (MemNode.fresh (MemNode.empty [NodeOp.PersistConnector]))).2.node.files = [] :=
  have h := AttachDisk_persist_failure_no_disconnect MemNode.env (sampleMounter "/tmp/a")
    "/cfg/testvol1.json" (MemNode.fresh (MemNode.empty [NodeOp.PersistConnector])) _ _ _ _
    (MemNode.devicePath sampleConnector) (some MemNode.notExist) MemNode.failure
    rfl (by decide) rfl (fun err herr => by cases herr; rfl) rfl rfl
  ⟨congrArg Prod.fst h.1, by decide, by decide, by decide⟩


/-- C24: when the device and the reference count are resolved, `DetachDisk` returns nil
after the path check alone if the target path does not exist, and after the path check and
the load of the connector if the path exists and the persisted connector is missing: in
both cases nothing is unmounted, disconnected or deleted. A persisted connector that cannot
be loaded for another reason gives an Internal error. -/
theorem DetachDisk_already_detached {σ : Type} (n : NodeEnv σ)
    (targetPath iscsiInfoPath : String) (w0 w1 : NodeWorld σ) (device : String) (cnt : Int)
    (hdev : w0.step (.GetDeviceNameFromMount targetPath)
      (n.GetDeviceNameFromMount targetPath w0.node) = (.ok (device, cnt), w1)) :
    (∀ w2, w1.step (.PathExists targetPath) (n.PathExists targetPath w1.node) =
        (.ok false, w2) →
        n.DetachDisk targetPath iscsiInfoPath w0 = (none, w2) ∧
          w2.calls = w0.calls ++ [NodeCall.GetDeviceNameFromMount targetPath,
            NodeCall.PathExists targetPath]) ∧
      (∀ w2 w3 err, w1.step (.PathExists targetPath) (n.PathExists targetPath w1.node) =
        (.ok true, w2) →
        w2.step (.GetConnectorFromFile iscsiInfoPath)
          (n.GetConnectorFromFile iscsiInfoPath w2.node) = (.error err, w3) →
        w3.calls = w0.calls ++ [NodeCall.GetDeviceNameFromMount targetPath,
            NodeCall.PathExists targetPath, NodeCall.GetConnectorFromFile iscsiInfoPath] ∧
          (err.isNotExist = true → n.DetachDisk targetPath iscsiInfoPath w0 = (none, w3)) ∧
          (err.isNotExist = false →
            n.DetachDisk targetPath iscsiInfoPath w0 =
              (some ⟨err.msg, false, some Code.Internal⟩, w3))) := by
  have hc1 := NodeWorld.step_calls _ _ _ _ _ hdev
  refine ⟨?_, ?_⟩
  · intro w2 hpath
    have hc2 := NodeWorld.step_calls _ _ _ _ _ hpath
    exact ⟨by simp only [NodeEnv.DetachDisk, hdev, hpath], by simp [hc2, hc1]⟩
  · intro w2 w3 err hpath hload
    have hc2 := NodeWorld.step_calls _ _ _ _ _ hpath
    have hc3 := NodeWorld.step_calls _ _ _ _ _ hload
    refine ⟨by simp [hc3, hc2, hc1], ?_, ?_⟩
    · intro hex
      simp only [NodeEnv.DetachDisk, hdev, hpath, hload, hex, if_true]
    · intro hex
      simp [NodeEnv.DetachDisk, hdev, hpath, hload, hex]

/-- C24, on the in-memory node: with nothing on the node the target path does not exist;
with only the path present the persisted connector is missing; with the load failing the
error is Internal. -/
theorem DetachDisk_already_detached_witness :
    MemNode.env.DetachDisk "/tmp/a" "/cfg/testvol1.json" (MemNode.fresh (MemNode.empty [])) =
        (none, ⟨MemNode.empty [],
          [NodeCall.GetDeviceNameFromMount "/tmp/a", NodeCall.PathExists "/tmp/a"]⟩) ∧
      MemNode.env.DetachDisk "/tmp/a" "/cfg/testvol1.json"
          (MemNode.fresh { MemNode.empty [] with paths := ["/tmp/a"] }) =
        (none, ⟨{ MemNode.empty [] with paths := ["/tmp/a"] },
          [NodeCall.GetDeviceNameFromMount "/tmp/a", NodeCall.PathExists "/tmp/a",
            NodeCall.GetConnectorFromFile "/cfg/testvol1.json"]⟩) ∧
      (MemNode.env.DetachDisk "/tmp/a" "/cfg/testvol1.json"
          (MemNode.fresh
            { MemNode.empty [NodeOp.GetConnectorFromFile] with paths := ["/tmp/a"] })).1 =
        some ⟨"operation failed", false, some Code.Internal⟩ :=
  ⟨((DetachDisk_already_detached MemNode.env "/tmp/a" "/cfg/testvol1.json"
      (MemNode.fresh (MemNode.empty [])) _ "" 0 rfl).1 _ rfl).1,
    ((DetachDisk_already_detached MemNode.env "/tmp/a" "/cfg/testvol1.json"
      (MemNode.fresh { MemNode.empty [] with paths := ["/tmp/a"] }) _ "" 0 rfl).2 _ _
      MemNode.notExist rfl rfl).2.1 rfl,
    congrArg Prod.fst
      (((DetachDisk_already_detached MemNode.env "/tmp/a" "/cfg/testvol1.json"
        (MemNode.fresh
          { MemNode.empty [NodeOp.GetConnectorFromFile] with paths := ["/tmp/a"] })
        _ "" 0 rfl).2 _ _ MemNode.failure rfl rfl).2.2 rfl)⟩

/-- C25: with every collaborator succeeding and a target path that is not a mount point,
`AttachDisk` issues, in this order, the connect, the mount point check, the creation of the
target directory, the persisting of the connector and the format-and-mount, the last with
the options `ro` or `rw` (by the read-only flag) followed by the mount options of the
request in their order; it returns the device path of the connect and no error. -/
theorem AttachDisk_all_succeed {σ : Type} (n : NodeEnv σ)
    (b : iscsiDiskMounter) (iscsiInfoPath : String) (w0 w1 w2 w3 w4 w5 : NodeWorld σ)
    (devicePath : String) (checkErr : Option NodeError)
    (hconnect : w0.step (.Connect b.connector) (n.Connect b.connector w0.node) =
      (.ok devicePath, w1))
    (hdevice : devicePath ≠ "")
    (hcheck : w1.step (.IsLikelyNotMountPoint b.targetPath)
      (n.IsLikelyNotMountPoint b.targetPath w1.node) = ((true, checkErr), w2))
    (hcheckErr : ∀ err, checkErr = some err → err.isNotExist = true)
    (hmkdir : w2.step (.MkdirAll b.targetPath 488) (n.MkdirAll b.targetPath 488 w2.node) =
      (none, w3))
    (hpersist : w3.step (.PersistConnector b.connector iscsiInfoPath)
      (n.PersistConnector b.connector iscsiInfoPath w3.node) = (none, w4))
    (hmount : w4.step
      (.FormatAndMount devicePath b.targetPath b.fsType
        ((if b.readOnly then ["ro"] else ["rw"]) ++ b.mountOptions))
      (n.FormatAndMount devicePath b.targetPath b.fsType
        ((if b.readOnly then ["ro"] else ["rw"]) ++ b.mountOptions) w4.node) = (none, w5)) :
    n.AttachDisk b iscsiInfoPath w0 = ((devicePath, none), w5) ∧
      w5.calls = w0.calls ++ [NodeCall.Connect b.connector,
        NodeCall.IsLikelyNotMountPoint b.targetPath, NodeCall.MkdirAll b.targetPath 488,
        NodeCall.PersistConnector b.connector iscsiInfoPath,
        NodeCall.FormatAndMount devicePath b.targetPath b.fsType
          ((if b.readOnly then ["ro"] else ["rw"]) ++ b.mountOptions)] := by
  have hc1 := NodeWorld.step_calls _ _ _ _ _ hconnect
  have hc2 := NodeWorld.step_calls _ _ _ _ _ hcheck
  have hc3 := NodeWorld.step_calls _ _ _ _ _ hmkdir
  have hc4 := NodeWorld.step_calls _ _ _ _ _ hpersist
  have hc5 := NodeWorld.step_calls _ _ _ _ _ hmount
  refine ⟨?_, by simp [hc5, hc4, hc3, hc2, hc1]⟩
  cases checkErr with
  | none =>
    simp [NodeEnv.AttachDisk, hconnect, hdevice, hcheck, NodeEnv.attachIfNotMounted, hmkdir,
      hpersist, NodeEnv.mountOptionsOf, hmount]
  | some err =>
    have hex := hcheckErr err rfl
    simp [NodeEnv.AttachDisk, hconnect, hdevice, hcheck, hex, NodeEnv.attachIfNotMounted,
      hmkdir, hpersist, NodeEnv.mountOptionsOf, hmount]

/-- C25, on the in-memory node: a read-write mounter with the option `noatime` mounts with
`rw`, `noatime`; a read-only one with `ro`, `noatime`. -/
theorem AttachDisk_all_succeed_witness :
    MemNode.env.AttachDisk (sampleMounter "/tmp/a") "/cfg/testvol1.json"
          (MemNode.fresh (MemNode.empty [])) =
        ((MemNode.devicePath sampleConnector, none),
          ⟨{ sessions := [sampleConnector.TargetIqn]
             mounts := [(MemNode.devicePath sampleConnector, "/tmp/a")]
             paths := ["/tmp/a"]
             files := [("/cfg/testvol1.json", sampleConnector)]
             failing := [] },
            [NodeCall.Connect sampleConnector, NodeCall.IsLikelyNotMountPoint "/tmp/a",
              NodeCall.MkdirAll "/tmp/a" 488,
              NodeCall.PersistConnector sampleConnector "/cfg/testvol1.json",
              NodeCall.FormatAndMount (MemNode.devicePath sampleConnector) "/tmp/a" "ext4"
                ["rw", "noatime"]]⟩) ∧
      (MemNode.env.AttachDisk { sampleMounter "/tmp/a" with readOnly := true }
          "/cfg/testvol1.json" (MemNode.fresh (MemNode.empty []))).2.calls.getLast? =
        some (NodeCall.FormatAndMount (MemNode.devicePath sampleConnector) "/tmp/a" "ext4"
          ["ro", "noatime"]) :=
  ⟨(AttachDisk_all_succeed MemNode.env (sampleMounter "/tmp/a") "/cfg/testvol1.json"
      (MemNode.fresh (MemNode.empty [])) _ _ _ _ _ (MemNode.devicePath sampleConnector)
      (some MemNode.notExist) rfl (by decide) rfl (fun err herr => by cases herr; rfl)
      rfl rfl rfl).1,
    by decide⟩


theorem MemNode.devicePath_ne_empty (c : Connector) : MemNode.devicePath c ≠ "" := by
  intro h
  have hlen := congrArg String.length h
  simp only [MemNode.devicePath, String.length_append] at hlen
  have hpos : ("/dev/disk/by-path/" : String).length = 18 := by decide
  rw [hpos] at hlen
  have hzero : ("" : String).length = 0 := by decide
  omega

/-- C22: on the in-memory node, with every collaborator succeeding, two attaches of one
session at two different target paths give the device the reference count 2. The first
`DetachDisk` then unmounts its path and returns nil with the session live and the persisted
connector on disk; the second one, at reference count 1, unmounts, disconnects the session,
removes its path and deletes the persisted connector. -/
theorem attach_twice_detach_twice (c : Connector) (p1 p2 info fs : String) (ro : Bool)
    (opts : List String) (hne : p1 ≠ p2) :
    let a1 := MemNode.env.AttachDisk ⟨c, p1, ro, fs, opts⟩ info
      (MemNode.fresh (MemNode.empty []))
    let a2 := MemNode.env.AttachDisk ⟨c, p2, ro, fs, opts⟩ info a1.2
    let d1 := MemNode.env.DetachDisk p1 info a2.2
    let d2 := MemNode.env.DetachDisk p2 info d1.2
    a1.1 = (MemNode.devicePath c, none) ∧ a2.1 = (MemNode.devicePath c, none) ∧
      (MemNode.env.GetDeviceNameFromMount p1 a2.2.node).1 =
        .ok (MemNode.devicePath c, 2) ∧
      d1.1 = none ∧
      d1.2.calls = a2.2.calls ++ [NodeCall.GetDeviceNameFromMount p1, NodeCall.PathExists p1,
        NodeCall.GetConnectorFromFile info, NodeCall.Unmount p1] ∧
      d1.2.node.sessions = [c.TargetIqn] ∧
      d1.2.node.files = [(info, c)] ∧
      d1.2.node.mounts = [(MemNode.devicePath c, p2)] ∧
      (MemNode.env.GetDeviceNameFromMount p2 d1.2.node).1 =
        .ok (MemNode.devicePath c, 1) ∧
      d2.1 = none ∧
      d2.2.calls = d1.2.calls ++ [NodeCall.GetDeviceNameFromMount p2, NodeCall.PathExists p2,
        NodeCall.GetConnectorFromFile info, NodeCall.Unmount p2,
        NodeCall.DisconnectVolume c, NodeCall.Disconnect c.TargetIqn c.TargetPortals,
        NodeCall.RemoveAll p2, NodeCall.Remove info] ∧
      d2.2.node.sessions = [] ∧ d2.2.node.files = [] ∧ d2.2.node.mounts = [] := by
  have hdev := MemNode.devicePath_ne_empty c
  have hne2 : p2 ≠ p1 := fun h => hne h.symm
  have ha1 : MemNode.env.AttachDisk ⟨c, p1, ro, fs, opts⟩ info
      (MemNode.fresh (MemNode.empty [])) =
      ((MemNode.devicePath c, none),
        ⟨{ sessions := [c.TargetIqn], mounts := [(MemNode.devicePath c, p1)], paths := [p1],
           files := [(info, c)], failing := [] },
          [NodeCall.Connect c, NodeCall.IsLikelyNotMountPoint p1, NodeCall.MkdirAll p1 488,
            NodeCall.PersistConnector c info,
            NodeCall.FormatAndMount (MemNode.devicePath c) p1 fs
              ((if ro then ["ro"] else ["rw"]) ++ opts)]⟩) := by
    simp [NodeEnv.AttachDisk, NodeEnv.attachIfNotMounted, NodeWorld.step, MemNode.env,
      MemNode.fresh, MemNode.empty, MemNode.errorOnly, MemNode.notExist, hdev,
      NodeEnv.mountOptionsOf]
  have ha2 : MemNode.env.AttachDisk ⟨c, p2, ro, fs, opts⟩ info
      (MemNode.env.AttachDisk ⟨c, p1, ro, fs, opts⟩ info
        (MemNode.fresh (MemNode.empty []))).2 =
      ((MemNode.devicePath c, none),
        ⟨{ sessions := [c.TargetIqn],
           mounts := [(MemNode.devicePath c, p1), (MemNode.devicePath c, p2)],
           paths := [p1, p2], files := [(info, c)], failing := [] },
          [NodeCall.Connect c, NodeCall.IsLikelyNotMountPoint p1, NodeCall.MkdirAll p1 488,
            NodeCall.PersistConnector c info,
            NodeCall.FormatAndMount (MemNode.devicePath c) p1 fs
              ((if ro then ["ro"] else ["rw"]) ++ opts),
            NodeCall.Connect c, NodeCall.IsLikelyNotMountPoint p2, NodeCall.MkdirAll p2 488,
            NodeCall.PersistConnector c info,
            NodeCall.FormatAndMount (MemNode.devicePath c) p2 fs
              ((if ro then ["ro"] else ["rw"]) ++ opts)]⟩) := by
    rw [ha1]
    simp [NodeEnv.AttachDisk, NodeEnv.attachIfNotMounted, NodeWorld.step, MemNode.env,
      MemNode.errorOnly, MemNode.notExist, hdev, NodeEnv.mountOptionsOf, hne, hne2]
  have hd1 : MemNode.env.DetachDisk p1 info
      (MemNode.env.AttachDisk ⟨c, p2, ro, fs, opts⟩ info
        (MemNode.env.AttachDisk ⟨c, p1, ro, fs, opts⟩ info
          (MemNode.fresh (MemNode.empty []))).2).2 =
      (none,
        ⟨{ sessions := [c.TargetIqn], mounts := [(MemNode.devicePath c, p2)],
           paths := [p1, p2], files := [(info, c)], failing := [] },
          (MemNode.env.AttachDisk ⟨c, p2, ro, fs, opts⟩ info
            (MemNode.env.AttachDisk ⟨c, p1, ro, fs, opts⟩ info
              (MemNode.fresh (MemNode.empty []))).2).2.calls ++
            [NodeCall.GetDeviceNameFromMount p1, NodeCall.PathExists p1,
              NodeCall.GetConnectorFromFile info, NodeCall.Unmount p1]⟩) := by
    rw [ha2]
    simp [NodeEnv.DetachDisk, NodeWorld.step, MemNode.env, MemNode.errorOnly, hne, hne2]
  intro a1 a2 d1 d2
  have hd2 : d2 =
      (none,
        ⟨{ sessions := [], mounts := [], paths := [p1], files := [], failing := [] },
          d1.2.calls ++
            [NodeCall.GetDeviceNameFromMount p2, NodeCall.PathExists p2,
              NodeCall.GetConnectorFromFile info, NodeCall.Unmount p2,
              NodeCall.DisconnectVolume c, NodeCall.Disconnect c.TargetIqn c.TargetPortals,
              NodeCall.RemoveAll p2, NodeCall.Remove info]⟩) := by
    show MemNode.env.DetachDisk p2 info d1.2 = _
    have hd1' : d1 = _ := hd1
    rw [hd1']
    simp [NodeEnv.DetachDisk, NodeEnv.detachSession, NodeWorld.step, MemNode.env,
      MemNode.errorOnly, hne, hne2]
  have ha1' : a1 = _ := ha1
  have ha2' : a2 = _ := ha2
  have hd1' : d1 = _ := hd1
  refine ⟨by rw [ha1'], by rw [ha2'], ?_, by rw [hd1'], by rw [hd1'], by rw [hd1'],
    by rw [hd1'], by rw [hd1'], ?_, by rw [hd2], by rw [hd2], by rw [hd2], by rw [hd2],
    by rw [hd2]⟩
  · rw [ha2']
    simp [MemNode.env, hne, hne2]
  · rw [hd1']
    simp [MemNode.env, hne, hne2]

/-- C22, for the target paths `/tmp/a` and `/tmp/b`: after the first detach the session is
live, after the second it is gone. -/
theorem attach_twice_detach_twice_witness :
    ("/tmp/a" : String) ≠ "/tmp/b" ∧
      (MemNode.env.DetachDisk "/tmp/a" "/cfg/testvol1.json"
        (MemNode.env.AttachDisk (sampleMounter "/tmp/b") "/cfg/testvol1.json"
          (MemNode.env.AttachDisk (sampleMounter "/tmp/a") "/cfg/testvol1.json"
            (MemNode.fresh (MemNode.empty []))).2).2).2.node.sessions =
        [sampleConnector.TargetIqn] ∧
      (MemNode.env.DetachDisk "/tmp/b" "/cfg/testvol1.json"
        (MemNode.env.DetachDisk "/tmp/a" "/cfg/testvol1.json"
          (MemNode.env.AttachDisk (sampleMounter "/tmp/b") "/cfg/testvol1.json"
            (MemNode.env.AttachDisk (sampleMounter "/tmp/a") "/cfg/testvol1.json"
              (MemNode.fresh (MemNode.empty []))).2).2).2).2.node.sessions = [] :=
  ⟨by decide,
    (attach_twice_detach_twice sampleConnector "/tmp/a" "/tmp/b" "/cfg/testvol1.json" "ext4"
      false ["noatime"] (by decide)).2.2.2.2.2.1,
    (attach_twice_detach_twice sampleConnector "/tmp/a" "/tmp/b" "/cfg/testvol1.json" "ext4"
      false ["noatime"] (by decide)).2.2.2.2.2.2.2.2.2.2.2.1⟩


/-! ## The entries of ListVolumes -/

theorem toInt32_of_small (n : Nat) (h : n < 2147483648) : toInt32 (n : Int) = n := by
  unfold toInt32
  omega

theorem toInt32_lt (n : Int) : toInt32 n < 2147483648 := by
  unfold toInt32
  omega

theorem IntSet.Has_Insert (s : IntSet) (i j : Int) :
    (s.Insert i).Has j = (s.Has j || decide (j = i)) := by
  unfold IntSet.Insert IntSet.Has
  split_ifs with h
  · by_cases hj : j = i
    · subst hj
      simp [h]
    · simp [hj]
  · simp

/-- The entries the loop returns: those it had, then the first unseen targets up to the
limit. -/
theorem listVolumesLoop_entries (m : Int) (hm : m < 2147483648) :
    ∀ (targets : List StorageISCSITargetInfoXML) (seen : IntSet)
      (entries es : List ListVolumesResponse_Entry) (token : String),
      (targets.map (fun t => t.TargetIndex)).Nodup →
      entries.length < 2147483648 →
      listVolumesLoop m targets (some seen) entries = .ok (es, token) →
      es = entries ++
        (((targets.filter (fun t => !seen.Has t.TargetIndex)).take
          (m.toNat - entries.length)).map entryOfTarget) := by
  intro targets
  induction targets with
  | nil =>
    intro seen entries es token _ _ h
    simp only [listVolumesLoop, Outcome.ok.injEq, Prod.mk.injEq] at h
    simp [h.1]
  | cons t rest ih =>
    intro seen entries es token hnodup hlen h
    simp only [List.map_cons, List.nodup_cons] at hnodup
    unfold listVolumesLoop at h
    by_cases hseen : seen.Has t.TargetIndex = true
    · simp only [hseen, if_true] at h
      rw [ih seen entries es token hnodup.2 hlen h]
      simp [List.filter_cons, hseen]
    · simp only [hseen, if_false, Bool.false_eq_true] at h
      have hfalse : seen.Has t.TargetIndex = false := by simpa using hseen
      rw [toInt32_of_small _ hlen] at h
      by_cases hfull : (entries.length : Int) ≥ m
      · simp only [hfull, if_true, Outcome.ok.injEq, Prod.mk.injEq] at h
        have hzero : m.toNat - entries.length = 0 := by omega
        rw [hzero, ← h.1]
        simp
      · simp only [hfull, if_false] at h
        have hlen2 : (entries ++ [entryOfTarget t]).length < 2147483648 := by
          simp only [List.length_append, List.length_singleton]
          omega
        have hih := ih (seen.Insert t.TargetIndex) (entries ++ [entryOfTarget t]) es token
          hnodup.2 hlen2 h
        have hfilter : rest.filter (fun r => !(seen.Insert t.TargetIndex).Has r.TargetIndex) =
            rest.filter (fun r => !seen.Has r.TargetIndex) := by
          apply List.filter_congr
          intro r hr
          have hr2 : r.TargetIndex ≠ t.TargetIndex := by
            intro heq
            exact hnodup.1 (heq ▸ List.mem_map_of_mem (fun t => t.TargetIndex) hr)
          simp [IntSet.Has_Insert, hr2]
        rw [hih, hfilter]
        obtain ⟨k, hk⟩ : ∃ k, m.toNat - entries.length = k + 1 :=
          ⟨m.toNat - entries.length - 1, by omega⟩
        have hk2 : m.toNat - (entries ++ [entryOfTarget t]).length = k := by
          simp only [List.length_append, List.length_singleton]
          omega
        rw [hk, hk2]
        simp [List.filter_cons, hfalse, List.take_succ_cons]

/-- C26: whenever `ListVolumes` returns a response, for targets with pairwise distinct
indices and `maxEntries` an `int32`, with `D` the seen set used (empty when the token does
not decode) and `m` the effective limit (`maxEntries`, or the `int32` number of targets
when `maxEntries` is 0): the entries are those of the first `m` targets, in appliance
order, whose index is not in `D` (all of them when there are fewer). So no seen target is
returned, with fewer than 2^31 targets and `maxEntries = 0` all unseen targets are
returned, and with `maxEntries > 0` there are at most `maxEntries` entries. -/
theorem ListVolumes_entries_are_first_unseen {σ : Type} (d : Driver σ)
    (req : ListVolumesRequest) (w0 w1 w2 : World σ) (resp : StorageISCSITargetListRespXML)
    (out : ListVolumesResponse)
    (hlogin : d.Login w0 = (none, w1))
    (hlist : d.GetStorageISCSITargetList w1 = (.ok resp, w2))
    (hdistinct : (resp.Targets.map (fun t => t.TargetIndex)).Nodup)
    (hint32 : req.MaxEntries < 2147483648)
    (hret : (d.ListVolumes req w0).1 = .ok out) :
    out.Entries =
        ((resp.Targets.filter
            (fun t => !((startingSeenIds req.StartingToken).getD IntSet.NewInt).Has
              t.TargetIndex)).take
          (if req.MaxEntries = 0 then toInt32 resp.Targets.length
            else req.MaxEntries).toNat).map entryOfTarget ∧
      (req.MaxEntries = 0 → resp.Targets.length < 2147483648 →
        out.Entries =
          (resp.Targets.filter
            (fun t => !((startingSeenIds req.StartingToken).getD IntSet.NewInt).Has
              t.TargetIndex)).map entryOfTarget) ∧
      (0 < req.MaxEntries → (out.Entries.length : Int) ≤ req.MaxEntries) := by
  have hm : (if req.MaxEntries = 0 then toInt32 resp.Targets.length else req.MaxEntries) <
      2147483648 := by
    split_ifs
    · exact toInt32_lt _
    · exact hint32
  have hmain : out.Entries =
      ((resp.Targets.filter
          (fun t => !((startingSeenIds req.StartingToken).getD IntSet.NewInt).Has
            t.TargetIndex)).take
        (if req.MaxEntries = 0 then toInt32 resp.Targets.length
          else req.MaxEntries).toNat).map entryOfTarget := by
    simp only [Driver.ListVolumes, hlogin, hlist] at hret
    cases hseen : startingSeenIds req.StartingToken with
    | none =>
      rw [hseen] at hret
      cases htargets : resp.Targets with
      | nil =>
        rw [htargets] at hret
        simp only [listVolumesLoop, Outcome.ok.injEq] at hret
        simp [← hret]
      | cons t rest =>
        rw [htargets] at hret
        simp [listVolumesLoop] at hret
    | some seen =>
      rw [hseen] at hret
      obtain ⟨es, token, hloop⟩ := listVolumesLoop_some_ok
        (if req.MaxEntries = 0 then toInt32 resp.Targets.length else req.MaxEntries)
        resp.Targets seen []
      rw [hloop] at hret
      simp only [Outcome.ok.injEq] at hret
      have hes := listVolumesLoop_entries _ hm resp.Targets seen [] es token hdistinct
        (by simp) hloop
      simp only [List.nil_append, List.length_nil, Nat.sub_zero] at hes
      simp [← hret, hes]
  refine ⟨hmain, ?_, ?_⟩
  · intro h0 hlen
    rw [hmain, if_pos h0, toInt32_of_small _ hlen, Int.toNat_ofNat]
    congr 1
    apply List.take_of_length_le
    exact List.length_filter_le _ _
  · intro hpos
    rw [hmain, if_neg (by omega)]
    simp only [List.length_map, List.length_take]
    omega

/-- C26, on the in-memory appliance with three targets: with the token `!!!`, which does
not decode, and `maxEntries = 2` the entries are those of the first two targets. -/
theorem ListVolumes_entries_are_first_unseen_witness :
    (MemNAS.driver.ListVolumes { MaxEntries := 2, StartingToken := "!!!" }
        (MemNAS.fresh (MemNAS.threeTargets []))).1 =
        .ok { Entries := [entryOfTarget (MemNAS.target 1 "vol1" [11]),
                entryOfTarget (MemNAS.target 2 "vol2" [12])],
              NextToken := "MSwy" } ∧
      [entryOfTarget (MemNAS.target 1 "vol1" [11]),
          entryOfTarget (MemNAS.target 2 "vol2" [12])] =
        (((MemNAS.threeTargets []).targets.filter
            (fun t => !((startingSeenIds "!!!").getD IntSet.NewInt).Has t.TargetIndex)).take
          (if (2 : Int) = 0 then toInt32 (MemNAS.threeTargets []).targets.length
            else 2).toNat).map entryOfTarget :=
  ⟨by decide,
    (ListVolumes_entries_are_first_unseen MemNAS.driver
      { MaxEntries := 2, StartingToken := "!!!" } (MemNAS.fresh (MemNAS.threeTargets []))
      _ _ ⟨(MemNAS.threeTargets []).targets⟩
      { Entries := [entryOfTarget (MemNAS.target 1 "vol1" [11]),
          entryOfTarget (MemNAS.target 2 "vol2" [12])],
        NextToken := "MSwy" }
      rfl rfl (by decide) (by decide) (by decide)).1⟩


/-! ## The wait for the LUN -/

/-- The status string is `creating` exactly for the status `0`. -/
theorem StatusString_creating_iff (l : StorageISCSILUNRespXML) :
    l.StatusString = "creating" ↔ l.Status = "0" := by
  unfold StorageISCSILUNRespXML.StatusString
  constructor
  · intro h
    split_ifs at h with h1 h2 h3 h4
    · exact absurd h (by decide)
    · exact absurd h (by decide)
    · exact h3
    · exact absurd h (by decide)
    · exfalso
      have hdata := congrArg String.data h
      simp only [String.data_append] at hdata
      have hhead := congrArg List.head? hdata
      revert hhead
      simp
  · intro h
    rw [h]
    decide

namespace Driver

variable {σ : Type}

theorem afterPolls_succ (d : Driver σ) (lunID : Int) (n : Nat) :
    ∀ w : World σ,
      d.afterPolls lunID (n + 1) w = (d.GetStorageISCSILun lunID (d.afterPolls lunID n w)).2 := by
  induction n with
  | zero => intro w; rfl
  | succ n ih =>
    intro w
    show d.afterPolls lunID (n + 1) (d.GetStorageISCSILun lunID w).2 = _
    rw [ih]
    rfl

theorem afterPolls_calls (d : Driver σ) (lunID : Int) (n : Nat) :
    ∀ w : World σ,
      (d.afterPolls lunID n w).calls =
        w.calls ++ List.replicate n (Call.GetStorageISCSILun lunID) := by
  induction n with
  | zero => intro w; simp [Driver.afterPolls]
  | succ n ih =>
    intro w
    simp only [Driver.afterPolls]
    rw [ih]
    simp [Driver.GetStorageISCSILun, List.replicate_succ]

/-- While the status is `creating` the wait goes on: `n` such status queries use up `n` of
the fuel. -/
theorem waitForLUN_skip_creating (d : Driver σ) (lunID : Int) (n : Nat) :
    ∀ w : World σ,
      (∀ i, i < n → ∃ info,
        (d.GetStorageISCSILun lunID (d.afterPolls lunID i w)).1 = .ok info ∧
          info.StatusString = "creating") →
      ∀ fuel, d.waitForLUN lunID (n + fuel) w = d.waitForLUN lunID fuel (d.afterPolls lunID n w) := by
  induction n with
  | zero =>
    intro w _ fuel
    simp [Driver.afterPolls]
  | succ n ih =>
    intro w hcreating fuel
    obtain ⟨info, hinfo, hstatus⟩ := hcreating 0 (by omega)
    simp only [Driver.afterPolls] at hinfo
    have hstep : d.waitForLUN lunID (n + fuel + 1) w =
        d.waitForLUN lunID (n + fuel) (d.GetStorageISCSILun lunID w).2 := by
      rcases hq : d.GetStorageISCSILun lunID w with ⟨q, w1⟩
      rw [hq] at hinfo
      simp only at hinfo
      subst hinfo
      simp [Driver.waitForLUN, hq, hstatus]
    have hrest : ∀ i, i < n → ∃ info,
        (d.GetStorageISCSILun lunID
          (d.afterPolls lunID i (d.GetStorageISCSILun lunID w).2)).1 = .ok info ∧
          info.StatusString = "creating" := by
      intro i hi
      exact hcreating (i + 1) (by omega)
    have hsum : n + 1 + fuel = n + fuel + 1 := by omega
    rw [hsum, hstep, ih _ hrest fuel]
    rfl

end Driver

/-- C27: in `CreateVolume`, after the LUN was created, if the status queries answer
`creating` on the first `n` polls, then with fuel for `n + 1` polls: if poll `n + 1`
answers any other status (status string other than `creating`, that is status other than
`0`), the wait ends after exactly `n + 1` status queries and the next call is the attach of
the LUN; if poll `n + 1` fails, `CreateVolume` returns Internal after exactly `n + 1`
status queries and no attach. -/
theorem CreateVolume_polls_until_not_creating {σ : Type} (d : Driver σ) (fuel n : Nat)
    (req : CreateVolumeRequest) (size : Int) (w0 w1 w2 w3 w4 w5 : World σ)
    (targetList : StorageISCSITargetListRespXML) (targetIndex : Int)
    (block : StorageISCSICreateBlockLUNRespXML)
    (hname : req.Name ≠ "")
    (hcaps : req.VolumeCapabilities ≠ [])
    (hvalid : validateCapabilities req.VolumeCapabilities = [])
    (hsize : extractStorage req.CapacityRange = .ok size)
    (hlogin : d.Login w0 = (none, w1))
    (hlist : d.GetStorageISCSITargetList w1 = (.ok targetList, w2))
    (hfree : ∀ t ∈ targetList.Targets, t.Name ≠ cleanISCSIName req.Name)
    (htarget : d.CreateStorageISCSITarget (cleanISCSIName req.Name) false false true w2 =
      (.ok targetIndex, w3))
    (hinit : d.CreateStorageISCSIInitiator targetIndex false "" "" false "" "" w3 = (none, w4))
    (hlun : d.CreateStorageISCSIBlockLUN (cleanISCSIName req.Name) d.storagePoolID
      (Int.tdiv size (1 * giB)) false 512 false false false false w4 = (.ok block, w5))
    (hcreating : ∀ i, i < n → ∃ info,
      (d.GetStorageISCSILun block.Result (d.afterPolls block.Result i w5)).1 = .ok info ∧
        info.StatusString = "creating")
    (hfuel : n + 1 ≤ fuel) :
    (∀ info : StorageISCSILUNRespXML, info.StatusString = "creating" ↔ info.Status = "0") ∧
      (∀ info,
        (d.GetStorageISCSILun block.Result (d.afterPolls block.Result n w5)).1 = .ok info →
        info.StatusString ≠ "creating" →
        d.waitForLUN block.Result fuel w5 = (.done, d.afterPolls block.Result (n + 1) w5) ∧
          (d.afterPolls block.Result (n + 1) w5).calls =
            w5.calls ++ List.replicate (n + 1) (Call.GetStorageISCSILun block.Result) ∧
          ∃ rest, (d.CreateVolume fuel req w0).2.calls =
            w5.calls ++ List.replicate (n + 1) (Call.GetStorageISCSILun block.Result) ++
              Call.AttachStorageISCSITargetLUN block.Result targetIndex :: rest) ∧
      (∀ e,
        (d.GetStorageISCSILun block.Result (d.afterPolls block.Result n w5)).1 = .error e →
        d.CreateVolume fuel req w0 =
            (.error .Internal "Failed to get ISCSI Block based LUN readiness",
              d.afterPolls block.Result (n + 1) w5) ∧
          (d.afterPolls block.Result (n + 1) w5).calls =
            w5.calls ++ List.replicate (n + 1) (Call.GetStorageISCSILun block.Result)) := by
  have hany := any_name_false _ _ hfree
  simp only [one_mul] at hlun
  obtain ⟨f, rfl⟩ : ∃ f, fuel = n + (f + 1) := ⟨fuel - (n + 1), by omega⟩
  have hskip := Driver.waitForLUN_skip_creating d block.Result n w5 hcreating (f + 1)
  have hcalls := Driver.afterPolls_calls d block.Result (n + 1) w5
  refine ⟨StatusString_creating_iff, ?_, ?_⟩
  · intro info hinfo hstatus
    have hpoll : d.waitForLUN block.Result (n + (f + 1)) w5 =
        (.done, d.afterPolls block.Result (n + 1) w5) := by
      rw [hskip, Driver.afterPolls_succ]
      rcases hq : d.GetStorageISCSILun block.Result (d.afterPolls block.Result n w5)
        with ⟨q, wq⟩
      rw [hq] at hinfo
      simp only at hinfo
      subst hinfo
      simp [Driver.waitForLUN, hq, hstatus]
    refine ⟨hpoll, hcalls, ?_⟩
    rcases hattach : d.AttachStorageISCSITargetLUN block.Result targetIndex
      (d.afterPolls block.Result (n + 1) w5) with ⟨r, w7⟩
    have hc7 := Driver.AttachStorageISCSITargetLUN_calls d _ _ _ w7 _ hattach
    cases r with
    | some e =>
      refine ⟨[Call.DeleteStorageISCSITarget targetIndex,
        Call.DeleteStorageISCSIBlockLUN block.Result false], ?_⟩
      simp [Driver.CreateVolume, hname, hcaps, hvalid, hsize, hlogin, hlist, hany, htarget,
        hinit, hlun, hpoll, hattach, Driver.DeleteStorageISCSIBlockLUN,
        Driver.DeleteStorageISCSITarget, hc7, hcalls]
    | none =>
      rcases hlist2 : d.GetStorageISCSITargetList w7 with ⟨r2, w8⟩
      have hc8 := Driver.GetStorageISCSITargetList_calls d w7 w8 _ hlist2
      refine ⟨[Call.GetStorageISCSITargetList], ?_⟩
      cases r2 with
      | error e2 =>
        simp [Driver.CreateVolume, hname, hcaps, hvalid, hsize, hlogin, hlist, hany, htarget,
          hinit, hlun, hpoll, hattach, hlist2, hc8, hc7, hcalls]
      | ok targetList2 =>
        simp only [Driver.CreateVolume, hname, hcaps, hvalid, hsize, hlogin, hlist, hany,
          htarget, hinit, hlun, hpoll, hattach, hlist2, List.length_eq_zero, if_false,
          List.length_nil, gt_iff_lt, lt_self_iff_false, Bool.false_eq_true, one_mul]
        split_ifs <;> simp [hc8, hc7, hcalls]
  · intro e he
    have hpoll : d.waitForLUN block.Result (n + (f + 1)) w5 =
        (.failed, d.afterPolls block.Result (n + 1) w5) := by
      rw [hskip, Driver.afterPolls_succ]
      rcases hq : d.GetStorageISCSILun block.Result (d.afterPolls block.Result n w5)
        with ⟨q, wq⟩
      rw [hq] at he
      simp only at he
      subst he
      simp [Driver.waitForLUN, hq]
    refine ⟨?_, hcalls⟩
    simp [Driver.CreateVolume, hname, hcaps, hvalid, hsize, hlogin, hlist, hany, htarget,
      hinit, hlun, hpoll]

/-- C27, on the in-memory appliance whose new LUN answers `creating` twice: the wait ends
after three status queries and the attach follows. -/
theorem CreateVolume_polls_until_not_creating_witness :
    (MemNAS.threeTargets []).creatingPolls = 2 ∧
      ∃ rest, (MemNAS.driver.CreateVolume 10 sampleCreateRequest
          (MemNAS.fresh (MemNAS.threeTargets []))).2.calls =
        [Call.Login, Call.GetStorageISCSITargetList,
          Call.CreateStorageISCSITarget "myvolume" false false true,
          Call.CreateStorageISCSIInitiator 20 false "" "" false "" "",
          Call.CreateStorageISCSIBlockLUN "myvolume" 1 16 false 512 false false false
            false] ++
          List.replicate (2 + 1) (Call.GetStorageISCSILun 21) ++
          Call.AttachStorageISCSITargetLUN 21 20 :: rest :=
  ⟨rfl,
    ((CreateVolume_polls_until_not_creating MemNAS.driver 10 2 sampleCreateRequest
      17179869184 (MemNAS.fresh (MemNAS.threeTargets [])) _ _ _ _ _
      ⟨(MemNAS.threeTargets []).targets⟩ 20 ⟨21, 0⟩
      (by decide) (by decide) (by decide) (by decide) rfl rfl (by decide) rfl rfl rfl
      (fun i hi => by
        interval_cases i
        · exact ⟨⟨"21", "", "0"⟩, rfl, by decide⟩
        · exact ⟨⟨"21", "", "0"⟩, rfl, by decide⟩)
      (by decide)).2.1 ⟨"21", "", "1"⟩ rfl (by decide)).2.2⟩


/-! ## When the capacity validation fails, and the LUN size -/

/-- C28: `extractStorage` fails if and only if, with a bound set exactly when it is
positive: both are set and limit < required; or required is set and is not a multiple of
1 GiB or exceeds 128 GiB; or limit is set and is not a multiple of 1 GiB; or only limit is
set and exceeds 128 GiB. The absent range never fails, a bound that is not positive counts
as 0, and a limit above 128 GiB that is a multiple of 1 GiB is accepted when required is
set, a multiple of 1 GiB and at most 128 GiB. -/
theorem extractStorage_fails_iff :
    (∀ r l : Int,
        (∃ e, extractStorage (some ⟨r, l⟩) = .error e) ↔
          ((0 < r ∧ 0 < l ∧ l < r) ∨
            (0 < r ∧ (r % giB ≠ 0 ∨ maximumVolumeSizeInBytes < r)) ∨
            (0 < l ∧ l % giB ≠ 0) ∨
            (¬ 0 < r ∧ 0 < l ∧ maximumVolumeSizeInBytes < l))) ∧
      (∀ e, extractStorage none ≠ .error e) ∧
      (∀ r l : Int, r ≤ 0 → extractStorage (some ⟨r, l⟩) = extractStorage (some ⟨0, l⟩)) ∧
      (∀ r l : Int, l ≤ 0 → extractStorage (some ⟨r, l⟩) = extractStorage (some ⟨r, 0⟩)) ∧
      (∀ r l : Int, 0 < r → r % giB = 0 → r ≤ maximumVolumeSizeInBytes →
        maximumVolumeSizeInBytes < l → l % giB = 0 →
        extractStorage (some ⟨r, l⟩) = .ok r) := by
  simp only [giB_val, maximum_val]
  refine ⟨?_, ?_, ?_, ?_, ?_⟩
  · intro r l
    by_cases hr : 0 < r <;> by_cases hl : 0 < l
    · rw [extractStorage_both_set r l hr hl]
      split_ifs <;> simp <;> omega
    · rw [extractStorage_required_only r l hr hl]
      split_ifs <;> simp <;> omega
    · rw [extractStorage_limit_only r l hr hl]
      split_ifs <;> simp <;> omega
    · rw [extractStorage_neither_set r l hr hl]
      simp
      omega
  · intro e h
    simp [extractStorage] at h
  · intro r l hr
    by_cases hl : 0 < l
    · rw [extractStorage_limit_only r l (by omega) hl,
        extractStorage_limit_only 0 l (by omega) hl]
    · rw [extractStorage_neither_set r l (by omega) hl,
        extractStorage_neither_set 0 l (by omega) hl]
  · intro r l hl
    by_cases hr : 0 < r
    · rw [extractStorage_required_only r l hr (by omega),
        extractStorage_required_only r 0 hr (by omega)]
    · rw [extractStorage_neither_set r l hr (by omega),
        extractStorage_neither_set r 0 hr (by omega)]
  · intro r l hr hmod hmax hl hlmod
    rw [extractStorage_both_set r l hr (by omega)]
    have h1 : ¬ l < r := by omega
    have h2 : ¬ l < 1073741824 := by omega
    have h3 : ¬ r > 137438953472 := by omega
    simp [h1, h2, h3, hmod, hlmod]

/-- C28, at required -5 with limit 2 GiB (accepted as limit only), at required 1 GiB with
limit 200 GiB (accepted), and at limit 200 GiB alone (rejected). -/
theorem extractStorage_fails_iff_witness :
    extractStorage (some ⟨-5, 2147483648⟩) = .ok 2147483648 ∧
      extractStorage (some ⟨1073741824, 214748364800⟩) = .ok 1073741824 ∧
      extractStorage (some ⟨0, 214748364800⟩) = .error .limitExceedsMaximum ∧
      ∃ e, extractStorage (some ⟨0, 214748364800⟩) = .error e :=
  ⟨by decide,
    extractStorage_fails_iff.2.2.2.2 1073741824 214748364800 (by decide) (by decide)
      (by decide) (by decide) (by decide),
    by decide,
    (extractStorage_fails_iff.1 0 214748364800).2
      (Or.inr (Or.inr (Or.inr ⟨by decide, by decide, by decide⟩)))⟩

/-- For every size `extractStorage` returns without error, the truncated quotient of the
size by 1 GiB is between 1 and 128 and times 1 GiB gives the size back. -/
theorem extractStorage_ok_sizeGB (capRange : Option CapacityRange) (size : Int)
    (h : extractStorage capRange = .ok size) :
    1 ≤ Int.tdiv size (1 * giB) ∧ Int.tdiv size (1 * giB) ≤ 128 ∧
      Int.tdiv size (1 * giB) * (1 * giB) = size := by
  obtain ⟨hmod, hmin, hmax⟩ := extractStorage_ok_numeric capRange size h
  rw [one_giB_val, Int.tdiv_eq_ediv (by omega) (by decide)]
  omega

/-- A status query is no LUN creation. -/
theorem Call.lunCapacity_replicate_poll (k : Nat) (lunID : Int) :
    (List.replicate k (Call.GetStorageISCSILun lunID)).filterMap Call.lunCapacity = [] := by
  induction k with
  | zero => rfl
  | succ k ih => simp [List.replicate_succ, Call.lunCapacity, ih]

/-- C29: for every size `extractStorage` returns without error and every run of
`CreateVolume` on a request with that capacity range, the quotient `size / 1 GiB` is
between 1 and 128 and times 1 GiB gives the size back; `CreateVolume` issues at most one
creation of a block LUN, and its capacity argument is that quotient; and when
`CreateVolume` returns a response, the creation of the LUN was issued with that capacity
and the `CapacityBytes` reported is that capacity times 1 GiB, the capacity asked of the
appliance with no truncation. -/
theorem CreateVolume_LUN_capacity_exact {σ : Type} (d : Driver σ) (fuel : Nat)
    (req : CreateVolumeRequest) (size : Int) (w0 : World σ)
    (hsize : extractStorage req.CapacityRange = .ok size) :
    1 ≤ Int.tdiv size (1 * giB) ∧ Int.tdiv size (1 * giB) ≤ 128 ∧
      Int.tdiv size (1 * giB) * (1 * giB) = size ∧
      ∃ rest, (d.CreateVolume fuel req w0).2.calls = w0.calls ++ rest ∧
        (rest.filterMap Call.lunCapacity = [] ∨
          rest.filterMap Call.lunCapacity = [Int.tdiv size (1 * giB)]) ∧
        ∀ resp, (d.CreateVolume fuel req w0).1 = .ok resp →
          rest.filterMap Call.lunCapacity = [Int.tdiv size (1 * giB)] ∧
            resp.Volume.CapacityBytes = Int.tdiv size (1 * giB) * (1 * giB) := by
  obtain ⟨hlo, hhi, hmul⟩ := extractStorage_ok_sizeGB req.CapacityRange size hsize
  refine ⟨hlo, hhi, hmul, ?_⟩
  simp only [one_mul] at hmul
  by_cases hname : req.Name = ""
  · refine ⟨[], ?_, Or.inl rfl, ?_⟩
    · simp [Driver.CreateVolume, hname]
    · intro resp hret
      simp [Driver.CreateVolume, hname] at hret
  by_cases hcaps0 : req.VolumeCapabilities = []
  · refine ⟨[], ?_, Or.inl rfl, ?_⟩
    · simp [Driver.CreateVolume, hname, hcaps0]
    · intro resp hret
      simp [Driver.CreateVolume, hname, hcaps0] at hret
  by_cases hvalid0 : validateCapabilities req.VolumeCapabilities = []
  swap
  · have hpos : 0 < (validateCapabilities req.VolumeCapabilities).length :=
      List.length_pos.mpr hvalid0
    refine ⟨[], ?_, Or.inl rfl, ?_⟩
    · simp [Driver.CreateVolume, hname, hcaps0, hpos]
    · intro resp hret
      simp [Driver.CreateVolume, hname, hcaps0, hpos] at hret
  rcases hlogin : d.Login w0 with ⟨r1, w1⟩
  have hc1 := Driver.Login_calls d w0 w1 _ hlogin
  cases r1 with
  | some e =>
    refine ⟨[Call.Login], ?_, Or.inl rfl, ?_⟩
    · simp [Driver.CreateVolume, hname, hcaps0, hvalid0, hsize, hlogin, hc1]
    · intro resp hret
      simp [Driver.CreateVolume, hname, hcaps0, hvalid0, hsize, hlogin] at hret
  | none =>
  rcases hlist : d.GetStorageISCSITargetList w1 with ⟨r2, w2⟩
  have hc2 := Driver.GetStorageISCSITargetList_calls d w1 w2 _ hlist
  cases r2 with
  | error e =>
    refine ⟨[Call.Login, Call.GetStorageISCSITargetList], ?_, Or.inl rfl, ?_⟩
    · simp [Driver.CreateVolume, hname, hcaps0, hvalid0, hsize, hlogin, hlist, hc2, hc1]
    · intro resp hret
      simp [Driver.CreateVolume, hname, hcaps0, hvalid0, hsize, hlogin, hlist] at hret
  | ok targetList =>
  cases hany : targetList.Targets.any
      (fun target => decide (target.Name = cleanISCSIName req.Name)) with
  | true =>
    refine ⟨[Call.Login, Call.GetStorageISCSITargetList], ?_, Or.inl rfl, ?_⟩
    · simp [Driver.CreateVolume, hname, hcaps0, hvalid0, hsize, hlogin, hlist, hany, hc2, hc1]
    · intro resp hret
      simp [Driver.CreateVolume, hname, hcaps0, hvalid0, hsize, hlogin, hlist, hany] at hret
  | false =>
  rcases htarget : d.CreateStorageISCSITarget (cleanISCSIName req.Name) false false true w2
    with ⟨r3, w3⟩
  have hc3 := Driver.CreateStorageISCSITarget_calls d _ _ _ _ w2 w3 _ htarget
  cases r3 with
  | error e =>
    refine ⟨[Call.Login, Call.GetStorageISCSITargetList,
      Call.CreateStorageISCSITarget (cleanISCSIName req.Name) false false true], ?_,
      Or.inl rfl, ?_⟩
    · simp [Driver.CreateVolume, hname, hcaps0, hvalid0, hsize, hlogin, hlist, hany,
        htarget, hc3, hc2, hc1]
    · intro resp hret
      simp [Driver.CreateVolume, hname, hcaps0, hvalid0, hsize, hlogin, hlist, hany,
        htarget] at hret
  | ok targetIndex =>
  rcases hinit : d.CreateStorageISCSIInitiator targetIndex false "" "" false "" "" w3
    with ⟨r4, w4⟩
  have hc4 := Driver.CreateStorageISCSIInitiator_calls d _ _ _ _ _ _ _ w3 w4 _ hinit
  cases r4 with
  | some e =>
    refine ⟨[Call.Login, Call.GetStorageISCSITargetList,
      Call.CreateStorageISCSITarget (cleanISCSIName req.Name) false false true,
      Call.CreateStorageISCSIInitiator targetIndex false "" "" false "" "",
      Call.DeleteStorageISCSITarget targetIndex], ?_, Or.inl rfl, ?_⟩
    · simp [Driver.CreateVolume, hname, hcaps0, hvalid0, hsize, hlogin, hlist, hany,
        htarget, hinit, Driver.DeleteStorageISCSITarget, hc4, hc3, hc2, hc1]
    · intro resp hret
      simp [Driver.CreateVolume, hname, hcaps0, hvalid0, hsize, hlogin, hlist, hany,
        htarget, hinit] at hret
  | none =>
  rcases hlun : d.CreateStorageISCSIBlockLUN (cleanISCSIName req.Name) d.storagePoolID
    (Int.tdiv size giB) false 512 false false false false w4 with ⟨r5, w5⟩
  have hc5 := Driver.CreateStorageISCSIBlockLUN_calls d _ _ _ _ _ _ _ _ _ w4 w5 _ hlun
  cases r5 with
  | error e =>
    refine ⟨[Call.Login, Call.GetStorageISCSITargetList,
      Call.CreateStorageISCSITarget (cleanISCSIName req.Name) false false true,
      Call.CreateStorageISCSIInitiator targetIndex false "" "" false "" "",
      Call.CreateStorageISCSIBlockLUN (cleanISCSIName req.Name) d.storagePoolID
        (Int.tdiv size giB) false 512 false false false false,
      Call.DeleteStorageISCSITarget targetIndex], ?_, Or.inr ?_, ?_⟩
    · simp [Driver.CreateVolume, hname, hcaps0, hvalid0, hsize, hlogin, hlist, hany,
        htarget, hinit, hlun, Driver.DeleteStorageISCSITarget, hc5, hc4, hc3, hc2, hc1]
    · simp [Call.lunCapacity]
    · intro resp hret
      simp [Driver.CreateVolume, hname, hcaps0, hvalid0, hsize, hlogin, hlist, hany,
        htarget, hinit, hlun] at hret
  | ok block =>
  rcases hpoll : d.waitForLUN block.Result fuel w5 with ⟨r6, w6⟩
  obtain ⟨k, _, hc6⟩ := Driver.waitForLUN_calls d block.Result fuel w5
  rw [hpoll] at hc6
  simp only at hc6
  cases r6 with
  | outOfFuel =>
    refine ⟨[Call.Login, Call.GetStorageISCSITargetList,
      Call.CreateStorageISCSITarget (cleanISCSIName req.Name) false false true,
      Call.CreateStorageISCSIInitiator targetIndex false "" "" false "" "",
      Call.CreateStorageISCSIBlockLUN (cleanISCSIName req.Name) d.storagePoolID
        (Int.tdiv size giB) false 512 false false false false] ++
      List.replicate k (Call.GetStorageISCSILun block.Result), ?_, Or.inr ?_, ?_⟩
    · simp [Driver.CreateVolume, hname, hcaps0, hvalid0, hsize, hlogin, hlist, hany,
        htarget, hinit, hlun, hpoll, hc6, hc5, hc4, hc3, hc2, hc1]
    · simp [Call.lunCapacity, Call.lunCapacity_replicate_poll]
    · intro resp hret
      simp [Driver.CreateVolume, hname, hcaps0, hvalid0, hsize, hlogin, hlist, hany,
        htarget, hinit, hlun, hpoll] at hret
  | failed =>
    refine ⟨[Call.Login, Call.GetStorageISCSITargetList,
      Call.CreateStorageISCSITarget (cleanISCSIName req.Name) false false true,
      Call.CreateStorageISCSIInitiator targetIndex false "" "" false "" "",
      Call.CreateStorageISCSIBlockLUN (cleanISCSIName req.Name) d.storagePoolID
        (Int.tdiv size giB) false 512 false false false false] ++
      List.replicate k (Call.GetStorageISCSILun block.Result), ?_, Or.inr ?_, ?_⟩
    · simp [Driver.CreateVolume, hname, hcaps0, hvalid0, hsize, hlogin, hlist, hany,
        htarget, hinit, hlun, hpoll, hc6, hc5, hc4, hc3, hc2, hc1]
    · simp [Call.lunCapacity, Call.lunCapacity_replicate_poll]
    · intro resp hret
      simp [Driver.CreateVolume, hname, hcaps0, hvalid0, hsize, hlogin, hlist, hany,
        htarget, hinit, hlun, hpoll] at hret
  | done =>
  rcases hattach : d.AttachStorageISCSITargetLUN block.Result targetIndex w6 with ⟨r7, w7⟩
  have hc7 := Driver.AttachStorageISCSITargetLUN_calls d _ _ w6 w7 _ hattach
  cases r7 with
  | some e =>
    refine ⟨[Call.Login, Call.GetStorageISCSITargetList,
      Call.CreateStorageISCSITarget (cleanISCSIName req.Name) false false true,
      Call.CreateStorageISCSIInitiator targetIndex false "" "" false "" "",
      Call.CreateStorageISCSIBlockLUN (cleanISCSIName req.Name) d.storagePoolID
        (Int.tdiv size giB) false 512 false false false false] ++
      List.replicate k (Call.GetStorageISCSILun block.Result) ++
      [Call.AttachStorageISCSITargetLUN block.Result targetIndex,
        Call.DeleteStorageISCSITarget targetIndex,
        Call.DeleteStorageISCSIBlockLUN block.Result false], ?_, Or.inr ?_, ?_⟩
    · simp [Driver.CreateVolume, hname, hcaps0, hvalid0, hsize, hlogin, hlist, hany,
        htarget, hinit, hlun, hpoll, hattach, Driver.DeleteStorageISCSITarget,
        Driver.DeleteStorageISCSIBlockLUN, hc7, hc6, hc5, hc4, hc3, hc2, hc1]
    · simp [Call.lunCapacity, Call.lunCapacity_replicate_poll]
    · intro resp hret
      simp [Driver.CreateVolume, hname, hcaps0, hvalid0, hsize, hlogin, hlist, hany,
        htarget, hinit, hlun, hpoll, hattach] at hret
  | none =>
  rcases hlist2 : d.GetStorageISCSITargetList w7 with ⟨r8, w8⟩
  have hc8 := Driver.GetStorageISCSITargetList_calls d w7 w8 _ hlist2
  cases r8 with
  | error e =>
    refine ⟨[Call.Login, Call.GetStorageISCSITargetList,
      Call.CreateStorageISCSITarget (cleanISCSIName req.Name) false false true,
      Call.CreateStorageISCSIInitiator targetIndex false "" "" false "" "",
      Call.CreateStorageISCSIBlockLUN (cleanISCSIName req.Name) d.storagePoolID
        (Int.tdiv size giB) false 512 false false false false] ++
      List.replicate k (Call.GetStorageISCSILun block.Result) ++
      [Call.AttachStorageISCSITargetLUN block.Result targetIndex,
        Call.GetStorageISCSITargetList], ?_, Or.inr ?_, ?_⟩
    · simp [Driver.CreateVolume, hname, hcaps0, hvalid0, hsize, hlogin, hlist, hany,
        htarget, hinit, hlun, hpoll, hattach, hlist2, hc8, hc7, hc6, hc5, hc4, hc3, hc2, hc1]
    · simp [Call.lunCapacity, Call.lunCapacity_replicate_poll]
    · intro resp hret
      simp [Driver.CreateVolume, hname, hcaps0, hvalid0, hsize, hlogin, hlist, hany,
        htarget, hinit, hlun, hpoll, hattach, hlist2] at hret
  | ok targetList2 =>
    refine ⟨[Call.Login, Call.GetStorageISCSITargetList,
      Call.CreateStorageISCSITarget (cleanISCSIName req.Name) false false true,
      Call.CreateStorageISCSIInitiator targetIndex false "" "" false "" "",
      Call.CreateStorageISCSIBlockLUN (cleanISCSIName req.Name) d.storagePoolID
        (Int.tdiv size giB) false 512 false false false false] ++
      List.replicate k (Call.GetStorageISCSILun block.Result) ++
      [Call.AttachStorageISCSITargetLUN block.Result targetIndex,
        Call.GetStorageISCSITargetList], ?_, Or.inr ?_, ?_⟩
    · simp only [Driver.CreateVolume, hname, hcaps0, hvalid0, hsize, hlogin, hlist, hany,
        htarget, hinit, hlun, hpoll, hattach, hlist2, List.length_eq_zero, if_false,
        List.length_nil, gt_iff_lt, lt_self_iff_false, Bool.false_eq_true, one_mul]
      split_ifs <;> simp [hc8, hc7, hc6, hc5, hc4, hc3, hc2, hc1]
    · simp [Call.lunCapacity, Call.lunCapacity_replicate_poll]
    · intro resp hret
      refine ⟨by simp [Call.lunCapacity, Call.lunCapacity_replicate_poll], ?_⟩
      simp only [Driver.CreateVolume, hname, hcaps0, hvalid0, hsize, hlogin, hlist, hany,
        htarget, hinit, hlun, hpoll, hattach, hlist2, List.length_eq_zero, if_false,
        List.length_nil, gt_iff_lt, lt_self_iff_false, Bool.false_eq_true, one_mul] at hret
      split_ifs at hret
      simp only [Outcome.ok.injEq] at hret
      rw [← hret, one_mul, hmul]

/-- C29, for the request of 16 GiB on the in-memory appliance: the LUN is created with the
capacity 16 and the response reports 16 GiB. -/
theorem CreateVolume_LUN_capacity_exact_witness :
    extractStorage sampleCreateRequest.CapacityRange = .ok 17179869184 ∧
      Int.tdiv 17179869184 (1 * giB) = 16 ∧
      ((MemNAS.driver.CreateVolume 10 sampleCreateRequest
          (MemNAS.fresh (MemNAS.threeTargets []))).2.calls.filterMap Call.lunCapacity = [16]) ∧
      (∃ resp, (MemNAS.driver.CreateVolume 10 sampleCreateRequest
          (MemNAS.fresh (MemNAS.threeTargets []))).1 = .ok resp ∧
        resp.Volume.CapacityBytes = 17179869184) ∧
      (1 ≤ Int.tdiv 17179869184 (1 * giB) ∧ Int.tdiv 17179869184 (1 * giB) ≤ 128 ∧
        Int.tdiv 17179869184 (1 * giB) * (1 * giB) = 17179869184 ∧
        ∃ rest, (MemNAS.driver.CreateVolume 10 sampleCreateRequest
            (MemNAS.fresh (MemNAS.threeTargets []))).2.calls =
            (MemNAS.fresh (MemNAS.threeTargets [])).calls ++ rest ∧
          (rest.filterMap Call.lunCapacity = [] ∨
            rest.filterMap Call.lunCapacity = [Int.tdiv 17179869184 (1 * giB)]) ∧
          ∀ resp, (MemNAS.driver.CreateVolume 10 sampleCreateRequest
              (MemNAS.fresh (MemNAS.threeTargets []))).1 = .ok resp →
            rest.filterMap Call.lunCapacity = [Int.tdiv 17179869184 (1 * giB)] ∧
              resp.Volume.CapacityBytes = Int.tdiv 17179869184 (1 * giB) * (1 * giB)) :=
  ⟨by decide, by decide, by decide, ⟨_, rfl, rfl⟩,
    CreateVolume_LUN_capacity_exact MemNAS.driver 10 sampleCreateRequest 17179869184
      (MemNAS.fresh (MemNAS.threeTargets [])) (by decide)⟩


/-! ## Names that normalize to the empty name -/

/-- Once the name check found no target, `CreateVolume` issues the creation of the target
with the normalized name as its third call, whatever happens afterwards. -/
theorem CreateVolume_issues_target_creation {σ : Type} (d : Driver σ) (fuel : Nat)
    (req : CreateVolumeRequest) (size : Int) (w0 w1 w2 : World σ)
    (targetList : StorageISCSITargetListRespXML)
    (hname : req.Name ≠ "")
    (hcaps : req.VolumeCapabilities ≠ [])
    (hvalid : validateCapabilities req.VolumeCapabilities = [])
    (hsize : extractStorage req.CapacityRange = .ok size)
    (hlogin : d.Login w0 = (none, w1))
    (hlist : d.GetStorageISCSITargetList w1 = (.ok targetList, w2))
    (hfree : ∀ t ∈ targetList.Targets, t.Name ≠ cleanISCSIName req.Name) :
    ∃ rest, (d.CreateVolume fuel req w0).2.calls =
      w0.calls ++ [Call.Login, Call.GetStorageISCSITargetList,
        Call.CreateStorageISCSITarget (cleanISCSIName req.Name) false false true] ++ rest := by
  have hc1 := Driver.Login_calls d w0 w1 _ hlogin
  have hc2 := Driver.GetStorageISCSITargetList_calls d w1 w2 _ hlist
  have hany := any_name_false _ _ hfree
  rcases htarget : d.CreateStorageISCSITarget (cleanISCSIName req.Name) false false true w2
    with ⟨r3, w3⟩
  have hc3 := Driver.CreateStorageISCSITarget_calls d _ _ _ _ w2 w3 _ htarget
  cases r3 with
  | error e =>
    exact ⟨[], by simp [Driver.CreateVolume, hname, hcaps, hvalid, hsize, hlogin, hlist, hany,
      htarget, hc3, hc2, hc1]⟩
  | ok targetIndex =>
  rcases hinit : d.CreateStorageISCSIInitiator targetIndex false "" "" false "" "" w3
    with ⟨r4, w4⟩
  have hc4 := Driver.CreateStorageISCSIInitiator_calls d _ _ _ _ _ _ _ w3 w4 _ hinit
  cases r4 with
  | some e =>
    refine ⟨[Call.CreateStorageISCSIInitiator targetIndex false "" "" false "" "",
      Call.DeleteStorageISCSITarget targetIndex], ?_⟩
    simp [Driver.CreateVolume, hname, hcaps, hvalid, hsize, hlogin, hlist, hany,
      htarget, hinit, Driver.DeleteStorageISCSITarget, hc4, hc3, hc2, hc1]
  | none =>
  rcases hlun : d.CreateStorageISCSIBlockLUN (cleanISCSIName req.Name) d.storagePoolID
    (Int.tdiv size giB) false 512 false false false false w4 with ⟨r5, w5⟩
  have hc5 := Driver.CreateStorageISCSIBlockLUN_calls d _ _ _ _ _ _ _ _ _ w4 w5 _ hlun
  cases r5 with
  | error e =>
    refine ⟨[Call.CreateStorageISCSIInitiator targetIndex false "" "" false "" "",
      Call.CreateStorageISCSIBlockLUN (cleanISCSIName req.Name) d.storagePoolID
        (Int.tdiv size giB) false 512 false false false false,
      Call.DeleteStorageISCSITarget targetIndex], ?_⟩
    simp [Driver.CreateVolume, hname, hcaps, hvalid, hsize, hlogin, hlist, hany,
      htarget, hinit, hlun, Driver.DeleteStorageISCSITarget, hc5, hc4, hc3, hc2, hc1]
  | ok block =>
  rcases hpoll : d.waitForLUN block.Result fuel w5 with ⟨r6, w6⟩
  obtain ⟨k, _, hc6⟩ := Driver.waitForLUN_calls d block.Result fuel w5
  rw [hpoll] at hc6
  simp only at hc6
  cases r6 with
  | outOfFuel =>
    refine ⟨[Call.CreateStorageISCSIInitiator targetIndex false "" "" false "" "",
      Call.CreateStorageISCSIBlockLUN (cleanISCSIName req.Name) d.storagePoolID
        (Int.tdiv size giB) false 512 false false false false] ++
      List.replicate k (Call.GetStorageISCSILun block.Result), ?_⟩
    simp [Driver.CreateVolume, hname, hcaps, hvalid, hsize, hlogin, hlist, hany,
      htarget, hinit, hlun, hpoll, hc6, hc5, hc4, hc3, hc2, hc1]
  | failed =>
    refine ⟨[Call.CreateStorageISCSIInitiator targetIndex false "" "" false "" "",
      Call.CreateStorageISCSIBlockLUN (cleanISCSIName req.Name) d.storagePoolID
        (Int.tdiv size giB) false 512 false false false false] ++
      List.replicate k (Call.GetStorageISCSILun block.Result), ?_⟩
    simp [Driver.CreateVolume, hname, hcaps, hvalid, hsize, hlogin, hlist, hany,
      htarget, hinit, hlun, hpoll, hc6, hc5, hc4, hc3, hc2, hc1]
  | done =>
  rcases hattach : d.AttachStorageISCSITargetLUN block.Result targetIndex w6 with ⟨r7, w7⟩
  have hc7 := Driver.AttachStorageISCSITargetLUN_calls d _ _ w6 w7 _ hattach
  cases r7 with
  | some e =>
    refine ⟨[Call.CreateStorageISCSIInitiator targetIndex false "" "" false "" "",
      Call.CreateStorageISCSIBlockLUN (cleanISCSIName req.Name) d.storagePoolID
        (Int.tdiv size giB) false 512 false false false false] ++
      List.replicate k (Call.GetStorageISCSILun block.Result) ++
      [Call.AttachStorageISCSITargetLUN block.Result targetIndex,
        Call.DeleteStorageISCSITarget targetIndex,
        Call.DeleteStorageISCSIBlockLUN block.Result false], ?_⟩
    simp [Driver.CreateVolume, hname, hcaps, hvalid, hsize, hlogin, hlist, hany,
      htarget, hinit, hlun, hpoll, hattach, Driver.DeleteStorageISCSITarget,
      Driver.DeleteStorageISCSIBlockLUN, hc7, hc6, hc5, hc4, hc3, hc2, hc1]
  | none =>
  rcases hlist2 : d.GetStorageISCSITargetList w7 with ⟨r8, w8⟩
  have hc8 := Driver.GetStorageISCSITargetList_calls d w7 w8 _ hlist2
  cases r8 with
  | error e =>
    refine ⟨[Call.CreateStorageISCSIInitiator targetIndex false "" "" false "" "",
      Call.CreateStorageISCSIBlockLUN (cleanISCSIName req.Name) d.storagePoolID
        (Int.tdiv size giB) false 512 false false false false] ++
      List.replicate k (Call.GetStorageISCSILun block.Result) ++
      [Call.AttachStorageISCSITargetLUN block.Result targetIndex,
        Call.GetStorageISCSITargetList], ?_⟩
    simp [Driver.CreateVolume, hname, hcaps, hvalid, hsize, hlogin, hlist, hany,
      htarget, hinit, hlun, hpoll, hattach, hlist2, hc8, hc7, hc6, hc5, hc4, hc3, hc2, hc1]
  | ok targetList2 =>
    refine ⟨[Call.CreateStorageISCSIInitiator targetIndex false "" "" false "" "",
      Call.CreateStorageISCSIBlockLUN (cleanISCSIName req.Name) d.storagePoolID
        (Int.tdiv size giB) false 512 false false false false] ++
      List.replicate k (Call.GetStorageISCSILun block.Result) ++
      [Call.AttachStorageISCSITargetLUN block.Result targetIndex,
        Call.GetStorageISCSITargetList], ?_⟩
    simp only [Driver.CreateVolume, hname, hcaps, hvalid, hsize, hlogin, hlist, hany,
      htarget, hinit, hlun, hpoll, hattach, hlist2, List.length_eq_zero, if_false,
      List.length_nil, gt_iff_lt, lt_self_iff_false, Bool.false_eq_true, one_mul]
    split_ifs <;> simp [hc8, hc7, hc6, hc5, hc4, hc3, hc2, hc1]

/-- C30, as stated, fails: the name made of the rune U+212A alone is not empty and has no
ASCII letter or digit, yet `cleanISCSIName` returns `k`, because the rune lower-cases to
the ASCII letter `k`. -/
theorem cleanISCSIName_of_non_ascii_not_empty :
    String.mk [Char.ofNat 0x212A] ≠ "" ∧
      (String.mk [Char.ofNat 0x212A]).toList.all (fun c => !isCleanRune c) = true ∧
      cleanISCSIName (String.mk [Char.ofNat 0x212A]) = "k" ∧
      cleanISCSIName (String.mk [Char.ofNat 0x212A]) ≠ "" := by
  decide

theorem cleanISCSIName_eq_empty (name : String)
    (hrunes : ∀ c ∈ name.toList,
      isCleanRune c = false ∧ c.toNat ≠ 0x212A ∧ c.toNat ≠ 0x130) :
    cleanISCSIName name = "" := by
  have hfilter : (name.toList.map toLowerRune).filter isCleanRune = [] := by
    rw [List.filter_eq_nil_iff]
    intro x hx
    obtain ⟨c, hc, rfl⟩ := List.mem_map.mp hx
    obtain ⟨hclean, hk, hi⟩ := hrunes c hc
    have hlow : toLowerRune c = c := by
      simp only [isCleanRune, Bool.or_eq_false_iff, Bool.and_eq_false_iff,
        decide_eq_false_iff_not] at hclean
      unfold toLowerRune
      split_ifs with h1
      · omega
      · rfl
    rw [hlow, hclean]
    simp
  simp only [cleanISCSIName, hfilter]

/-- C30, amended: for every non-empty name that has no ASCII letter or digit and neither
of the runes U+212A and U+0130 (for example `!!!`), `cleanISCSIName` returns the empty
string and `CreateVolume`, given valid capabilities and capacity, is never rejected with
InvalidArgument; with login and listing succeeding it looks up the empty name (a listed
target with the empty name gives AlreadyExists) and otherwise issues the creation of a
target with the empty name. -/
theorem CreateVolume_empty_normalized_name {σ : Type} (d : Driver σ) (fuel : Nat)
    (req : CreateVolumeRequest) (size : Int) (w0 w1 w2 : World σ)
    (targetList : StorageISCSITargetListRespXML)
    (hname : req.Name ≠ "")
    (hrunes : ∀ c ∈ req.Name.toList,
      isCleanRune c = false ∧ c.toNat ≠ 0x212A ∧ c.toNat ≠ 0x130)
    (hcaps : req.VolumeCapabilities ≠ [])
    (hvalid : validateCapabilities req.VolumeCapabilities = [])
    (hsize : extractStorage req.CapacityRange = .ok size)
    (hlogin : d.Login w0 = (none, w1))
    (hlist : d.GetStorageISCSITargetList w1 = (.ok targetList, w2)) :
    cleanISCSIName req.Name = "" ∧
      (∀ msg, (d.CreateVolume fuel req w0).1 ≠ .error .InvalidArgument msg) ∧
      ((∃ t ∈ targetList.Targets, t.Name = "") →
        d.CreateVolume fuel req w0 = (.error .AlreadyExists "Volume already exists", w2)) ∧
      ((∀ t ∈ targetList.Targets, t.Name ≠ "") →
        ∃ rest, (d.CreateVolume fuel req w0).2.calls =
          w0.calls ++ [Call.Login, Call.GetStorageISCSITargetList,
            Call.CreateStorageISCSITarget "" false false true] ++ rest) := by
  have hempty := cleanISCSIName_eq_empty req.Name hrunes
  refine ⟨hempty, ?_, ?_, ?_⟩
  · intro msg
    exact CreateVolume_valid_not_InvalidArgument d fuel req w0 msg hname hcaps hvalid
  · rintro ⟨t, ht, htn⟩
    have hany : targetList.Targets.any
        (fun target => decide (target.Name = cleanISCSIName req.Name)) = true := by
      rw [List.any_eq_true]
      exact ⟨t, ht, by simp [hempty, htn]⟩
    simp [Driver.CreateVolume, hname, hcaps, hvalid, hsize, hlogin, hlist, hany]
  · intro hfree
    have h := CreateVolume_issues_target_creation d fuel req size w0 w1 w2 targetList hname
      hcaps hvalid hsize hlogin hlist (by rw [hempty]; exact hfree)
    rw [hempty] at h
    exact h

/-- C30 amended, on the in-memory appliance for the name `!!!`: the target with the empty
name is created and the volume id returned is empty. -/
theorem CreateVolume_empty_normalized_name_witness :
    cleanISCSIName "!!!" = "" ∧
      (MemNAS.driver.CreateVolume 10 { sampleCreateRequest with Name := "!!!" }
        (MemNAS.fresh (MemNAS.threeTargets []))).2.calls.take 3 =
        [Call.Login, Call.GetStorageISCSITargetList,
          Call.CreateStorageISCSITarget "" false false true] ∧
      ∃ resp, (MemNAS.driver.CreateVolume 10 { sampleCreateRequest with Name := "!!!" }
        (MemNAS.fresh (MemNAS.threeTargets []))).1 = .ok resp ∧ resp.Volume.VolumeId = "" :=
  ⟨(CreateVolume_empty_normalized_name MemNAS.driver 10
      { sampleCreateRequest with Name := "!!!" } 17179869184
      (MemNAS.fresh (MemNAS.threeTargets [])) _ _ ⟨(MemNAS.threeTargets []).targets⟩
      (by decide) (by decide) (by decide) (by decide) (by decide) rfl rfl).1,
    by decide, ⟨_, rfl, rfl⟩⟩

end QnapCsi
